import Mathlib

/-!
# Tickless idle of the FreeRTOS port, and the ports of the RTOS abstraction

A shallow embedding of `vApplicationSleep` and of the helpers it uses, from
`source/COMPONENT_FREERTOS/cyabs_freertos_helpers.c`, followed by the RAM-retention
sequences of `cyabs_rtos_dsram.c`, two functions of `cyabs_rtos_freertos.c` and the
semaphore and the creating functions of `cyabs_rtos_wiced_rtos.c`.

* The preprocessor conditionals of the file are kept: a `BuildConfig` records the
  macros the file tests, and the derived flags (`_ABS_RTOS_DEEPSLEEP_ENABLED`,
  `_ABS_RTOS_SLEEP_ENABLED`, `_ABS_RTOS_TICKLESS_ENABLED`) are computed from them
  the way lines 44-96 do.
* `uint32_t` and `TickType_t` values are natural numbers; the two arithmetic
  operations of the function (the multiplication of `pdTICKS_TO_MS` and the
  subtraction of a latency) are reduced modulo `2^32`.
* The functions of the HAL and of the FreeRTOS kernel that `vApplicationSleep`
  calls are the fields of an `Env`; every call is recorded, in order, in the
  trace of the `Frame`, together with the locals of the function and the
  file-scope `_lptimer`.
* A failed `CY_ASSERT` is recorded in the trace and, when assertions are fatal,
  stops the execution: the frame returned is the one at the assertion.
* In the other files a pointer argument is an `Option` (`none` for `NULL`), the
  functions of the kernels are oracles, and each function returns its result together
  with what it wrote through its pointers and the calls it made.
-/

namespace AbstractionRtos

/-! ## Preprocessor -/

/-- Value of an identifier inside a `#if` expression: an identifier that is not a
defined macro evaluates to 0. -/
def ppValue (m : Option Nat) : Nat := m.getD 0

/-- The preprocessor operator `defined(M)`. -/
def ppDefined (m : Option Nat) : Bool := m.isSome

/-- The macros that `cyabs_freertos_helpers.c` consults. An object-like macro with a
numeric value is `some v` when defined and `none` otherwise; a macro that is only
tested with `defined` is a `Bool`. `convert_ms_to_ticks` (from the FreeRTOS
`cyabs_rtos_impl.h`) and the behaviour of `CY_ASSERT` (from `cy_utils.h`) are
declared outside the sources at hand and are taken as parameters. -/
structure BuildConfig where
  configUSE_TICKLESS_IDLE : Nat
  configTICK_RATE_HZ : Nat
  CY_CFG_PWR_MODE_SLEEP : Option Nat
  CY_CFG_PWR_MODE_DEEPSLEEP : Option Nat
  CY_CFG_PWR_MODE_DEEPSLEEP_RAM : Option Nat
  CY_CFG_PWR_SYS_IDLE_MODE : Option Nat
  MTB_HAL_API_VERSION : Option Nat
  MTB_HAL_DRIVER_AVAILABLE_SYSPM : Option Nat
  MTB_HAL_DRIVER_AVAILABLE_LPTIMER : Option Nat
  CYHAL_DRIVER_AVAILABLE_SYSPM : Option Nat
  CYHAL_DRIVER_AVAILABLE_LPTIMER : Option Nat
  MTB_HAL_SYSPM_RSLT_DEEPSLEEP_LOCKED : Option Nat
  CYHAL_SYSPM_RSLT_DEEPSLEEP_LOCKED : Option Nat
  MTB_HAL_API_AVAILABLE_SYSPM_GET_DEEPSLEEP_MODE : Bool
  CYHAL_API_AVAILABLE_SYSPM_GET_DEEPSLEEP_MODE : Bool
  CY_CFG_PWR_SLEEP_LATENCY : Option Nat
  CY_CFG_PWR_DEEPSLEEP_LATENCY : Option Nat
  CY_CFG_PWR_DEEPSLEEP_RAM_LATENCY : Option Nat
  convert_ms_to_ticks : Nat → Nat
  CY_ASSERT_halts : Bool

/-- The test `defined(MTB_HAL_API_VERSION) && ((MTB_HAL_API_VERSION) >= 3)`. -/
def HAL_API_GE_3 (b : BuildConfig) : Bool :=
  ppDefined b.MTB_HAL_API_VERSION && decide (ppValue b.MTB_HAL_API_VERSION ≥ 3)

/-- Lines 48-49: `defined(CY_CFG_PWR_MODE_DEEPSLEEP) &&
(CY_CFG_PWR_SYS_IDLE_MODE == CY_CFG_PWR_MODE_DEEPSLEEP)`. -/
def idle_mode_is_deepsleep (b : BuildConfig) : Bool :=
  ppDefined b.CY_CFG_PWR_MODE_DEEPSLEEP &&
    decide (ppValue b.CY_CFG_PWR_SYS_IDLE_MODE = ppValue b.CY_CFG_PWR_MODE_DEEPSLEEP)

/-- Lines 51-52: the same test for `CY_CFG_PWR_MODE_DEEPSLEEP_RAM`. -/
def idle_mode_is_deepsleep_ram (b : BuildConfig) : Bool :=
  ppDefined b.CY_CFG_PWR_MODE_DEEPSLEEP_RAM &&
    decide (ppValue b.CY_CFG_PWR_SYS_IDLE_MODE = ppValue b.CY_CFG_PWR_MODE_DEEPSLEEP_RAM)

/-- Line 55: the same test for `CY_CFG_PWR_MODE_SLEEP`. -/
def idle_mode_is_sleep (b : BuildConfig) : Bool :=
  ppDefined b.CY_CFG_PWR_MODE_SLEEP &&
    decide (ppValue b.CY_CFG_PWR_SYS_IDLE_MODE = ppValue b.CY_CFG_PWR_MODE_SLEEP)

/-- Whether `_ABS_RTOS_DEEPSLEEP_ENABLED` is defined (lines 44-57): inside
`#if (configUSE_TICKLESS_IDLE != 0)`, by the `#if` or the first `#elif`. -/
def _ABS_RTOS_DEEPSLEEP_ENABLED (b : BuildConfig) : Bool :=
  if b.configUSE_TICKLESS_IDLE ≠ 0 then
    if idle_mode_is_deepsleep b then true
    else if idle_mode_is_deepsleep_ram b then true
    else if idle_mode_is_sleep b then false
    else false
  else false

/-- Whether `_ABS_RTOS_SLEEP_ENABLED` is defined (lines 44-57): by the last `#elif`
of the same chain. -/
def _ABS_RTOS_SLEEP_ENABLED (b : BuildConfig) : Bool :=
  if b.configUSE_TICKLESS_IDLE ≠ 0 then
    if idle_mode_is_deepsleep b then false
    else if idle_mode_is_deepsleep_ram b then false
    else if idle_mode_is_sleep b then true
    else false
  else false

/-- The SysPm driver of the HAL in use is available: `defined(X) && (X)` on
`MTB_HAL_DRIVER_AVAILABLE_SYSPM` for HAL API 3 and later, on
`CYHAL_DRIVER_AVAILABLE_SYSPM` before. -/
def DRIVER_AVAILABLE_SYSPM (b : BuildConfig) : Bool :=
  if HAL_API_GE_3 b then
    ppDefined b.MTB_HAL_DRIVER_AVAILABLE_SYSPM && decide (ppValue b.MTB_HAL_DRIVER_AVAILABLE_SYSPM ≠ 0)
  else
    ppDefined b.CYHAL_DRIVER_AVAILABLE_SYSPM && decide (ppValue b.CYHAL_DRIVER_AVAILABLE_SYSPM ≠ 0)

/-- The LPTimer driver of the HAL in use is available. -/
def DRIVER_AVAILABLE_LPTIMER (b : BuildConfig) : Bool :=
  if HAL_API_GE_3 b then
    ppDefined b.MTB_HAL_DRIVER_AVAILABLE_LPTIMER &&
      decide (ppValue b.MTB_HAL_DRIVER_AVAILABLE_LPTIMER ≠ 0)
  else
    ppDefined b.CYHAL_DRIVER_AVAILABLE_LPTIMER &&
      decide (ppValue b.CYHAL_DRIVER_AVAILABLE_LPTIMER ≠ 0)

/-- Whether `_ABS_RTOS_TICKLESS_ENABLED` is defined (lines 83-95). -/
def _ABS_RTOS_TICKLESS_ENABLED (b : BuildConfig) : Bool :=
  if b.configUSE_TICKLESS_IDLE ≠ 0 then
    if _ABS_RTOS_DEEPSLEEP_ENABLED b || _ABS_RTOS_SLEEP_ENABLED b then
      DRIVER_AVAILABLE_SYSPM b && DRIVER_AVAILABLE_LPTIMER b
    else false
  else false

/-- One of the `#error` directives of lines 61-81 fires: DeepSleep is the idle mode
and the SysPm or the LPTimer driver is missing. -/
def build_error (b : BuildConfig) : Bool :=
  _ABS_RTOS_DEEPSLEEP_ENABLED b && (!DRIVER_AVAILABLE_SYSPM b || !DRIVER_AVAILABLE_LPTIMER b)

/-- The `DEEPSLEEP_LOCKED` result code that line 391 or 393 compares with:
`MTB_HAL_SYSPM_RSLT_DEEPSLEEP_LOCKED` for HAL API 3 and later,
`CYHAL_SYSPM_RSLT_DEEPSLEEP_LOCKED` before. The comparison is compiled when either
macro is defined (lines 388-389); when only the macro of the other HAL is defined
the file does not compile, and `none` is returned. -/
def DEEPSLEEP_LOCKED (b : BuildConfig) : Option Nat :=
  if ppDefined b.MTB_HAL_SYSPM_RSLT_DEEPSLEEP_LOCKED ||
      ppDefined b.CYHAL_SYSPM_RSLT_DEEPSLEEP_LOCKED then
    if HAL_API_GE_3 b then b.MTB_HAL_SYSPM_RSLT_DEEPSLEEP_LOCKED
    else b.CYHAL_SYSPM_RSLT_DEEPSLEEP_LOCKED
  else none

/-! ## Machine arithmetic -/

/-- Reduction to the range of `uint32_t`. -/
def u32 (n : Nat) : Nat := n % 2 ^ 32

/-- Subtraction of two `uint32_t` values, modulo `2^32`. -/
def u32_sub (a b : Nat) : Nat := (u32 a + 2 ^ 32 - u32 b) % 2 ^ 32

/-- The macro of line 98, `(((TickType_t)(xTicks) * 1000u) / configTICK_RATE_HZ)`,
for the 32-bit `TickType_t` of the port: the product wraps. `configTICK_RATE_HZ` is
positive in a FreeRTOS configuration; for 0 the division of Lean yields 0. -/
def pdTICKS_TO_MS (b : BuildConfig) (xTicks : Nat) : Nat :=
  u32 (u32 xTicks * 1000) / b.configTICK_RATE_HZ

/-- The result code `CY_RSLT_SUCCESS`. -/
def CY_RSLT_SUCCESS : Nat := 0

/-! ## Data -/

/-- A value of type `cyhal_lptimer_t*` (or `mtb_hal_lptimer_t*`): `NULL`, the address
of the function-local `static cyhal_lptimer_t timer` of `vApplicationSleep`, or the
address of an object of the application. -/
inductive LPTimerPtr where
  | NULL
  | static_timer
  | app (id : Nat)
  deriving DecidableEq, Repr

/-- The FreeRTOS enumeration `eSleepModeStatus`. -/
inductive eSleepModeStatus where
  | eAbortSleep
  | eStandardSleep
  | eNoTasksWaitingTimeout
  deriving DecidableEq, Repr

/-- The HAL enumeration `cyhal_syspm_system_deep_sleep_mode_t` (or its `mtb_hal`
counterpart); `other` is a value outside the four named ones. -/
inductive deep_sleep_mode_t where
  | DEEPSLEEP_NONE
  | DEEPSLEEP
  | DEEPSLEEP_RAM
  | DEEPSLEEP_OFF
  | other (v : Nat)
  deriving DecidableEq, Repr

/-- The two `CY_ASSERT` statements of `vApplicationSleep`. -/
inductive AssertSite where
  | lptimer_init
  | actual_idle
  deriving DecidableEq, Repr

/-- A call that leaves `cyabs_freertos_helpers.c`, with its arguments. The HAL
functions are named without the `cyhal_` or `mtb_hal_` of the HAL in use.
`CY_ASSERT_failed` stands for a `CY_ASSERT` whose condition was false. -/
inductive Call where
  | lptimer_init
  | critical_section_enter
  | eTaskConfirmSleepModeStatus
  | syspm_get_deepsleep_mode
  | syspm_tickless_deepsleep (obj : LPTimerPtr) (desired_ms : Nat)
  | syspm_tickless_sleep (obj : LPTimerPtr) (desired_ms : Nat)
  | CY_ASSERT_failed (site : AssertSite)
  | vTaskStepTick (xTicksToJump : Nat)
  | critical_section_exit (old_state : Nat)
  | WFI
  deriving DecidableEq, Repr

/-- What the callees answer during one invocation. The two tickless functions
receive the timer, `desired_ms` and the value of `*actual_ms` before the call, and
give the `cy_rslt_t` they return and the value of `*actual_ms` after the call. All
values are `uint32_t`. -/
structure Env where
  cyhal_lptimer_init : Nat
  critical_section_enter : Nat
  eTaskConfirmSleepModeStatus : eSleepModeStatus
  syspm_get_deepsleep_mode : deep_sleep_mode_t
  syspm_tickless_deepsleep : LPTimerPtr → Nat → Nat → Nat × Nat
  syspm_tickless_sleep : LPTimerPtr → Nat → Nat → Nat × Nat

/-- The file-scope `_lptimer`, the locals of `vApplicationSleep`, the calls made so
far (oldest first), and whether a failed `CY_ASSERT` has stopped the execution. -/
structure Frame where
  _lptimer : LPTimerPtr
  actual_idle_ms : Nat
  result : Nat
  wfi_at_end : Bool
  trace : List Call
  halted : Bool

/-! ## Functions of cyabs_freertos_helpers.c -/

/-- Lines 107-110 and 173-176. -/
def cyabs_rtos_set_lptimer (timer : LPTimerPtr) (_lptimer : LPTimerPtr) : LPTimerPtr := timer

/-- Lines 116-119 and 182-185, on the value of `_lptimer`. -/
def cyabs_rtos_get_lptimer (_lptimer : LPTimerPtr) : LPTimerPtr := _lptimer

/-- Lines 237-244. -/
def cyabs_rtos_get_sleep_latency (b : BuildConfig) : Nat :=
  match b.CY_CFG_PWR_SLEEP_LATENCY with
  | some v => u32 v
  | none => 0

/-- The assignment `latency = CY_CFG_PWR_DEEPSLEEP_LATENCY;` under its
`#if defined(CY_CFG_PWR_DEEPSLEEP_LATENCY)`. -/
def assign_deepsleep_latency (b : BuildConfig) (latency : Nat) : Nat :=
  match b.CY_CFG_PWR_DEEPSLEEP_LATENCY with
  | some v => u32 v
  | none => latency

/-- The assignment `latency = CY_CFG_PWR_DEEPSLEEP_RAM_LATENCY;` under its
`#if defined(CY_CFG_PWR_DEEPSLEEP_RAM_LATENCY)`. -/
def assign_deepsleep_ram_latency (b : BuildConfig) (latency : Nat) : Nat :=
  match b.CY_CFG_PWR_DEEPSLEEP_RAM_LATENCY with
  | some v => u32 v
  | none => latency

/-- Whether `cyabs_rtos_get_deepsleep_latency` asks the HAL for the deep-sleep mode
(lines 134 and 200). -/
def GET_DEEPSLEEP_MODE_AVAILABLE (b : BuildConfig) : Bool :=
  if HAL_API_GE_3 b then b.MTB_HAL_API_AVAILABLE_SYSPM_GET_DEEPSLEEP_MODE
  else b.CYHAL_API_AVAILABLE_SYSPM_GET_DEEPSLEEP_MODE

/-- Lines 126-161 and 192-227; `mode` is what `syspm_get_deepsleep_mode()` returns
when it is called. -/
def cyabs_rtos_get_deepsleep_latency (b : BuildConfig) (mode : deep_sleep_mode_t) : Nat :=
  let latency := 0
  let latency := assign_deepsleep_latency b latency
  if GET_DEEPSLEEP_MODE_AVAILABLE b then
    match mode with
    | .DEEPSLEEP => assign_deepsleep_latency b latency
    | .DEEPSLEEP_OFF => assign_deepsleep_latency b latency
    | .DEEPSLEEP_NONE => assign_deepsleep_latency b latency
    | .DEEPSLEEP_RAM => assign_deepsleep_ram_latency b latency
    | .other _ => assign_deepsleep_latency b latency
  else latency

/-- Record a call at the end of the trace. -/
def Frame.call (f : Frame) (c : Call) : Frame :=
  { f with trace := f.trace ++ [c] }

/-- Sequencing: the statements `k` that follow are executed unless a failed assertion
has stopped the execution. -/
def Frame.run (f : Frame) (k : Frame → Frame) : Frame :=
  if f.halted then f else k f

/-- Modelled from the spec: the macro `CY_ASSERT` of `cy_utils.h`, which is not among
the sources. A true condition has no effect; a false one is recorded, and it stops
the execution when assertions are fatal (`CY_ASSERT_halts`), as the spec asks of
the assertion on the elapsed time. -/
def CY_ASSERT (b : BuildConfig) (site : AssertSite) (cond : Bool) (f : Frame) : Frame :=
  if cond then f
  else { f with trace := f.trace ++ [Call.CY_ASSERT_failed site], halted := b.CY_ASSERT_halts }

/-- Lines 336-350: the lazy construction of a timer, compiled for HAL API below 3. -/
def lazy_lptimer_init (b : BuildConfig) (env : Env) (f : Frame) : Frame :=
  if HAL_API_GE_3 b then f
  else if LPTimerPtr.NULL = cyabs_rtos_get_lptimer f._lptimer then
    let f := { f.call Call.lptimer_init with result := env.cyhal_lptimer_init }
    if f.result = CY_RSLT_SUCCESS then { f with _lptimer := LPTimerPtr.static_timer }
    else CY_ASSERT b AssertSite.lptimer_init false f
  else f

/-- The call `result = ..._syspm_tickless_deepsleep(cyabs_rtos_get_lptimer(),
desired_ms, &actual_idle_ms)` of lines 380-386. -/
def call_tickless_deepsleep (env : Env) (desired_ms : Nat) (f : Frame) : Frame :=
  { f with
    result := (env.syspm_tickless_deepsleep (cyabs_rtos_get_lptimer f._lptimer) desired_ms
      f.actual_idle_ms).1
    actual_idle_ms := (env.syspm_tickless_deepsleep (cyabs_rtos_get_lptimer f._lptimer)
      desired_ms f.actual_idle_ms).2
    trace := f.trace ++
      [Call.syspm_tickless_deepsleep (cyabs_rtos_get_lptimer f._lptimer) desired_ms] }

/-- The call `result = ..._syspm_tickless_sleep(cyabs_rtos_get_lptimer(),
desired_ms, &actual_idle_ms)` of lines 403-412 and 435-441. -/
def call_tickless_sleep (env : Env) (desired_ms : Nat) (f : Frame) : Frame :=
  { f with
    result := (env.syspm_tickless_sleep (cyabs_rtos_get_lptimer f._lptimer) desired_ms
      f.actual_idle_ms).1
    actual_idle_ms := (env.syspm_tickless_sleep (cyabs_rtos_get_lptimer f._lptimer)
      desired_ms f.actual_idle_ms).2
    trace := f.trace ++
      [Call.syspm_tickless_sleep (cyabs_rtos_get_lptimer f._lptimer) desired_ms] }

/-- Lines 388-418: after the deep-sleep call, the route to Sleep when the result is
`DEEPSLEEP_LOCKED`; without the macro only `CY_UNUSED_PARAMETER(sleep_latency)`. -/
def deepsleep_locked_route (b : BuildConfig) (env : Env)
    (requested_idle_ms sleep_latency : Nat) (f : Frame) : Frame :=
  match DEEPSLEEP_LOCKED b with
  | some locked =>
    if locked = f.result then
      if requested_idle_ms > sleep_latency then
        call_tickless_sleep env (u32_sub requested_idle_ms sleep_latency) f
      else f
    else f
  | none => f

/-- Lines 431-443: the stand-alone Sleep branch. -/
def sleep_branch (env : Env) (requested_idle_ms sleep_latency : Nat) (f : Frame) : Frame :=
  if requested_idle_ms > sleep_latency then
    call_tickless_sleep env (u32_sub requested_idle_ms sleep_latency)
      { f with wfi_at_end := false }
  else f

/-- Lines 421-444: the Sleep branch exists under `_ABS_RTOS_SLEEP_ENABLED`. -/
def sleep_section (b : BuildConfig) (env : Env)
    (requested_idle_ms sleep_latency : Nat) (f : Frame) : Frame :=
  if _ABS_RTOS_SLEEP_ENABLED b then sleep_branch env requested_idle_ms sleep_latency f
  else f

/-- Line 375: `cyabs_rtos_get_deepsleep_latency()` calls `syspm_get_deepsleep_mode()`
when the HAL offers it. -/
def query_deepsleep_mode (b : BuildConfig) (f : Frame) : Frame :=
  if GET_DEEPSLEEP_MODE_AVAILABLE b then f.call Call.syspm_get_deepsleep_mode else f

/-- Lines 376-419: the DeepSleep branch, with the Sleep branch as its `else`. -/
def deepsleep_branch (b : BuildConfig) (env : Env)
    (requested_idle_ms sleep_latency deep_sleep_latency : Nat) (f : Frame) : Frame :=
  if requested_idle_ms > deep_sleep_latency then
    deepsleep_locked_route b env requested_idle_ms sleep_latency
      (call_tickless_deepsleep env (u32_sub requested_idle_ms deep_sleep_latency)
        { f with wfi_at_end := false })
  else sleep_section b env requested_idle_ms sleep_latency f

/-- Lines 374-444: the DeepSleep branch under `_ABS_RTOS_DEEPSLEEP_ENABLED`, the Sleep
branch alone without it. -/
def sleep_ladder (b : BuildConfig) (env : Env)
    (requested_idle_ms sleep_latency : Nat) (f : Frame) : Frame :=
  if _ABS_RTOS_DEEPSLEEP_ENABLED b then
    deepsleep_branch b env requested_idle_ms sleep_latency
      (cyabs_rtos_get_deepsleep_latency b env.syspm_get_deepsleep_mode)
      (query_deepsleep_mode b f)
  else sleep_section b env requested_idle_ms sleep_latency f

/-- Lines 446-457: the elapsed time, when positive, is checked against the requested
time and handed to `vTaskStepTick`. -/
def step_tick (b : BuildConfig) (xExpectedIdleTime : Nat) (f : Frame) : Frame :=
  if f.actual_idle_ms > 0 then
    (CY_ASSERT b AssertSite.actual_idle
      (decide (f.actual_idle_ms ≤ pdTICKS_TO_MS b xExpectedIdleTime)) f).run
      fun f => f.call (Call.vTaskStepTick (b.convert_ms_to_ticks f.actual_idle_ms))
  else f

/-- Lines 360-458: the body of `if (sleep_status != eAbortSleep)`. -/
def sleep_confirmed (b : BuildConfig) (env : Env) (xExpectedIdleTime : Nat) (f : Frame) :
    Frame :=
  step_tick b xExpectedIdleTime
    (sleep_ladder b env (pdTICKS_TO_MS b xExpectedIdleTime) (cyabs_rtos_get_sleep_latency b)
      { f with wfi_at_end := true })

/-- Lines 353-460: the body of `if (NULL != cyabs_rtos_get_lptimer())`. The value
`interrupt_status` that `critical_section_enter` returned goes to
`critical_section_exit`. -/
def critical_section (b : BuildConfig) (env : Env) (xExpectedIdleTime : Nat) (f : Frame) :
    Frame :=
  (if env.eTaskConfirmSleepModeStatus ≠ eSleepModeStatus.eAbortSleep then
      sleep_confirmed b env xExpectedIdleTime
        ((f.call Call.critical_section_enter).call Call.eTaskConfirmSleepModeStatus)
    else (f.call Call.critical_section_enter).call Call.eTaskConfirmSleepModeStatus).run
    fun f => f.call (Call.critical_section_exit env.critical_section_enter)

/-- Lines 352-465: the critical section when a timer is registered, `wfi_at_end = true`
otherwise. -/
def lptimer_check (b : BuildConfig) (env : Env) (xExpectedIdleTime : Nat) (f : Frame) :
    Frame :=
  if LPTimerPtr.NULL ≠ cyabs_rtos_get_lptimer f._lptimer then
    critical_section b env xExpectedIdleTime f
  else { f with wfi_at_end := true }

/-- Lines 471-473: the block `{ __WFI(); }`. -/
def wfi_block (f : Frame) : Frame := f.call Call.WFI

/-- Lines 467-473 in a tickless build: the block under `if (true == wfi_at_end)`. -/
def wfi_if_at_end (f : Frame) : Frame :=
  if true = f.wfi_at_end then wfi_block f else f

/-- The frame at the entry of `vApplicationSleep` (lines 331-333). -/
def entry_frame (_lptimer : LPTimerPtr) : Frame :=
  { _lptimer := _lptimer, actual_idle_ms := 0, result := CY_RSLT_SUCCESS,
    wfi_at_end := false, trace := [], halted := false }

/-- Lines 328-474. The function is compiled when `configUSE_TICKLESS_IDLE != 0`;
without `_ABS_RTOS_TICKLESS_ENABLED` its body is the `__WFI()` block alone. The frame
returned holds `_lptimer`, the locals and the trace at the end of the execution, or
at the failed assertion that stopped it. -/
def vApplicationSleep (b : BuildConfig) (env : Env) (_lptimer : LPTimerPtr)
    (xExpectedIdleTime : Nat) : Frame :=
  if _ABS_RTOS_TICKLESS_ENABLED b then
    (((lazy_lptimer_init b env (entry_frame _lptimer)).run
      (lptimer_check b env xExpectedIdleTime)).run wfi_if_at_end)
  else wfi_block (entry_frame _lptimer)

/-! ## Reading a trace -/

/-- The `desired_ms` arguments of the tickless deep-sleep calls of a trace, in order. -/
def deepsleep_calls (tr : List Call) : List Nat :=
  tr.filterMap fun c =>
    match c with
    | Call.syspm_tickless_deepsleep _ ms => some ms
    | _ => none

/-- The `desired_ms` arguments of the tickless sleep calls of a trace, in order. -/
def sleep_calls (tr : List Call) : List Nat :=
  tr.filterMap fun c =>
    match c with
    | Call.syspm_tickless_sleep _ ms => some ms
    | _ => none

/-- The arguments of the `vTaskStepTick` calls of a trace, in order. -/
def step_tick_calls (tr : List Call) : List Nat :=
  tr.filterMap fun c =>
    match c with
    | Call.vTaskStepTick n => some n
    | _ => none

/-- The number of wait-for-interrupt instructions of a trace. -/
def wfi_count (tr : List Call) : Nat := tr.count Call.WFI

/-- The call `c` occurs in the trace after a `critical_section_enter` and before any
`critical_section_exit`. -/
def in_critical_section (tr : List Call) (c : Call) : Prop :=
  ∃ pre post, tr = pre ++ c :: post ∧ Call.critical_section_enter ∈ pre ∧
    ∀ t, Call.critical_section_exit t ∉ pre

/-- The number of failures of the assertion of line 455 in a trace. -/
def actual_idle_assert_failures (tr : List Call) : Nat :=
  tr.count (Call.CY_ASSERT_failed AssertSite.actual_idle)

/-! ## Auxiliary frames -/

/-- The calls of `cyabs_rtos_get_deepsleep_latency`. -/
def deepsleep_mode_calls (b : BuildConfig) : List Call :=
  if GET_DEEPSLEEP_MODE_AVAILABLE b then [Call.syspm_get_deepsleep_mode] else []

/-- The frame in which the ladder starts when a timer is registered and the scheduler
confirmed the sleep. -/
def ladder_entry (lp : LPTimerPtr) : Frame :=
  { _lptimer := lp, actual_idle_ms := 0, result := CY_RSLT_SUCCESS, wfi_at_end := true,
    trace := [Call.critical_section_enter, Call.eTaskConfirmSleepModeStatus],
    halted := false }

/-- The statements after the ladder and `vTaskStepTick`: the exit of the critical
section and the final wait-for-interrupt. -/
def epilogue (env : Env) (f : Frame) : Frame :=
  (f.run fun f => f.call (Call.critical_section_exit env.critical_section_enter)).run
    wfi_if_at_end

/-! ## Builds and environments used as concrete inputs -/

/-- A HAL API 2 build whose idle mode is DeepSleep: 10 kHz tick (500 ticks are 50 ms),
sleep latency 5 ms, deep-sleep latency 40 ms, fatal assertions. -/
def deepsleep_build : BuildConfig :=
  { configUSE_TICKLESS_IDLE := 1, configTICK_RATE_HZ := 10000,
    CY_CFG_PWR_MODE_SLEEP := some 4, CY_CFG_PWR_MODE_DEEPSLEEP := some 8,
    CY_CFG_PWR_MODE_DEEPSLEEP_RAM := none, CY_CFG_PWR_SYS_IDLE_MODE := some 8,
    MTB_HAL_API_VERSION := none,
    MTB_HAL_DRIVER_AVAILABLE_SYSPM := none, MTB_HAL_DRIVER_AVAILABLE_LPTIMER := none,
    CYHAL_DRIVER_AVAILABLE_SYSPM := some 1, CYHAL_DRIVER_AVAILABLE_LPTIMER := some 1,
    MTB_HAL_SYSPM_RSLT_DEEPSLEEP_LOCKED := none,
    CYHAL_SYSPM_RSLT_DEEPSLEEP_LOCKED := some 67109635,
    MTB_HAL_API_AVAILABLE_SYSPM_GET_DEEPSLEEP_MODE := false,
    CYHAL_API_AVAILABLE_SYSPM_GET_DEEPSLEEP_MODE := true,
    CY_CFG_PWR_SLEEP_LATENCY := some 5, CY_CFG_PWR_DEEPSLEEP_LATENCY := some 40,
    CY_CFG_PWR_DEEPSLEEP_RAM_LATENCY := none,
    convert_ms_to_ticks := fun ms => ms * 10000 / 1000,
    CY_ASSERT_halts := true }

/-- The same build with Sleep as the idle mode. -/
def sleep_build : BuildConfig :=
  { deepsleep_build with CY_CFG_PWR_SYS_IDLE_MODE := some 4 }

/-- An environment: the scheduler answers `status`, the deep-sleep call returns `deep`
and the sleep call returns `light` (result code and `*actual_ms`), whatever their
arguments. -/
def fixed_env (status : eSleepModeStatus) (deep light : Nat × Nat) : Env :=
  { cyhal_lptimer_init := 0, critical_section_enter := 7,
    eTaskConfirmSleepModeStatus := status,
    syspm_get_deepsleep_mode := deep_sleep_mode_t.DEEPSLEEP,
    syspm_tickless_deepsleep := fun _ _ _ => deep,
    syspm_tickless_sleep := fun _ _ _ => light }

/-! ## Definitions for the later claims -/

/-- The frame with one more call at the head of its trace. -/
def Frame.prepend (c : Call) (f : Frame) : Frame :=
  { f with trace := c :: f.trace }

/-- The value of `cyabs_rtos_get_lptimer()` at line 352, when the execution reaches
that line: `none` in a build without `_ABS_RTOS_TICKLESS_ENABLED` (the line is not
compiled) and when the `CY_ASSERT` of line 347 has stopped the execution. -/
def lptimer_at_decision (b : BuildConfig) (env : Env) (_lptimer : LPTimerPtr) :
    Option LPTimerPtr :=
  if _ABS_RTOS_TICKLESS_ENABLED b then
    if (lazy_lptimer_init b env (entry_frame _lptimer)).halted then none
    else some (cyabs_rtos_get_lptimer (lazy_lptimer_init b env (entry_frame _lptimer))._lptimer)
  else none

/-- The value of `_lptimer` after `n` successive invocations of `vApplicationSleep`,
the `i`-th one in the environment `env i` with the expected idle time `x i`. -/
def repeated_lptimer (b : BuildConfig) (env : Nat → Env) (x : Nat → Nat) :
    Nat → LPTimerPtr → LPTimerPtr
  | 0, _lptimer => _lptimer
  | n + 1, _lptimer =>
    (vApplicationSleep b (env n) (repeated_lptimer b env x n _lptimer) (x n))._lptimer

/-- The initial value of `_lptimer` (lines 102 and 168). -/
def _lptimer_initial : LPTimerPtr := LPTimerPtr.NULL

/-- A call of the registration interface. -/
inductive LptimerOp where
  | set (timer : LPTimerPtr)
  | get
  deriving DecidableEq, Repr

/-- One call of the registration interface on the value of `_lptimer`: the value of
`_lptimer` after the call, and the value returned (`none` for the setter, which returns
`void`). -/
def lptimer_op (_lptimer : LPTimerPtr) : LptimerOp → LPTimerPtr × Option LPTimerPtr
  | LptimerOp.set timer => (cyabs_rtos_set_lptimer timer _lptimer, none)
  | LptimerOp.get => (_lptimer, some (cyabs_rtos_get_lptimer _lptimer))

/-- The value of `_lptimer` after a sequence of calls of the registration interface. -/
def lptimer_ops (_lptimer : LPTimerPtr) (ops : List LptimerOp) : LPTimerPtr :=
  ops.foldl (fun st op => (lptimer_op st op).1) _lptimer

/-- The handle of the spec: the argument of the last registration of a sequence of
calls, the absent value `NULL` when there is none. -/
def last_registered : List LptimerOp → LPTimerPtr
  | [] => LPTimerPtr.NULL
  | LptimerOp.set timer :: ops =>
    if ops.all (fun op => decide (op = LptimerOp.get)) then timer else last_registered ops
  | LptimerOp.get :: ops => last_registered ops

/-- A HAL API 3 build whose idle mode is DeepSleep, otherwise as `deepsleep_build`. -/
def hal3_deepsleep_build : BuildConfig :=
  { deepsleep_build with
    MTB_HAL_API_VERSION := some 3,
    MTB_HAL_DRIVER_AVAILABLE_SYSPM := some 1, MTB_HAL_DRIVER_AVAILABLE_LPTIMER := some 1,
    CYHAL_DRIVER_AVAILABLE_SYSPM := none, CYHAL_DRIVER_AVAILABLE_LPTIMER := none,
    MTB_HAL_SYSPM_RSLT_DEEPSLEEP_LOCKED := some 67109635,
    CYHAL_SYSPM_RSLT_DEEPSLEEP_LOCKED := none,
    MTB_HAL_API_AVAILABLE_SYSPM_GET_DEEPSLEEP_MODE := true,
    CYHAL_API_AVAILABLE_SYSPM_GET_DEEPSLEEP_MODE := false }

/-- The environment `fixed_env` in which `cyhal_lptimer_init` returns `init`. -/
def fixed_env_init (init : Nat) (status : eSleepModeStatus) (deep light : Nat × Nat) : Env :=
  { fixed_env status deep light with cyhal_lptimer_init := init }

/-- The frame with another value of the local `result`. -/
def Frame.set_result (r : Nat) (f : Frame) : Frame :=
  { f with result := r }

/-- The environment that differs from `env` only in the statuses that the two tickless
functions return: `deep_status` and `sleep_status` replace them, and the values written
to `*actual_ms` are those of `env`. -/
def Env.with_status (env : Env) (deep_status sleep_status : LPTimerPtr → Nat → Nat → Nat) :
    Env :=
  { env with
    syspm_tickless_deepsleep := fun obj ms actual =>
      (deep_status obj ms actual, (env.syspm_tickless_deepsleep obj ms actual).2)
    syspm_tickless_sleep := fun obj ms actual =>
      (sleep_status obj ms actual, (env.syspm_tickless_sleep obj ms actual).2) }

/-- Whether a call is `critical_section_exit`, with any argument. -/
def Call.leaves_section : Call → Bool
  | Call.critical_section_exit _ => true
  | _ => false

/-- The calls that have to be made inside the critical section: the confirmation of the
sleep, the tickless calls and `vTaskStepTick`. -/
def Call.needs_section : Call → Bool
  | Call.eTaskConfirmSleepModeStatus => true
  | Call.syspm_tickless_deepsleep _ _ => true
  | Call.syspm_tickless_sleep _ _ => true
  | Call.vTaskStepTick _ => true
  | _ => false

/-- The number of `critical_section_enter` calls of a trace. -/
def enter_count (tr : List Call) : Nat := tr.count Call.critical_section_enter

/-- The number of `critical_section_exit` calls of a trace. -/
def exit_count (tr : List Call) : Nat := tr.countP Call.leaves_section

/-- The trace has one critical section, left with `token`: one
`critical_section_enter`, later one `critical_section_exit(token)`, no other enter or
exit, and every call that needs the critical section strictly between the two. -/
def critical_section_bracketed (token : Nat) (tr : List Call) : Prop :=
  ∃ pre mid post : List Call,
    tr = pre ++ Call.critical_section_enter :: (mid ++ Call.critical_section_exit token :: post) ∧
    (∀ c ∈ pre ++ post, c ≠ Call.critical_section_enter ∧ c.leaves_section = false ∧
      c.needs_section = false) ∧
    (∀ c ∈ mid, c ≠ Call.critical_section_enter ∧ c.leaves_section = false)

/-- The trace stops inside a critical section: one `critical_section_enter`, no
`critical_section_exit`, and every call that needs the critical section after the
enter. -/
def critical_section_open (tr : List Call) : Prop :=
  ∃ pre mid : List Call,
    tr = pre ++ Call.critical_section_enter :: mid ∧
    (∀ c ∈ pre, c ≠ Call.critical_section_enter ∧ c.leaves_section = false ∧
      c.needs_section = false) ∧
    (∀ c ∈ mid, c ≠ Call.critical_section_enter ∧ c.leaves_section = false)

/-- The calls that the ladder of lines 374-444 makes: the deep-sleep mode query and the
two tickless functions. -/
def Call.ladder_call : Call → Bool
  | Call.syspm_get_deepsleep_mode => true
  | Call.syspm_tickless_deepsleep _ _ => true
  | Call.syspm_tickless_sleep _ _ => true
  | _ => false

/-! ## The body of `vApplicationSleep` under given idle-mode macros

Lines 48-57 define at most one of `_ABS_RTOS_DEEPSLEEP_ENABLED` and
`_ABS_RTOS_SLEEP_ENABLED`. The body of the function only tests them with `defined`, and
it has text for a build in which both are defined (lines 421-431: the Sleep branch as the
`else` of the DeepSleep branch), which is a build that defines one of them itself. The
definitions of this section are the same lines of the source with the two macros as
given; at the macros of lines 48-57 they are the definitions above. -/

/-- Which of `_ABS_RTOS_DEEPSLEEP_ENABLED` and `_ABS_RTOS_SLEEP_ENABLED` are defined
after line 57. -/
structure IdleMacros where
  deepsleep_enabled : Bool
  sleep_enabled : Bool
  deriving DecidableEq, Repr

/-- The two macros as lines 44-57 alone define them. -/
def idle_macros (b : BuildConfig) : IdleMacros :=
  { deepsleep_enabled := _ABS_RTOS_DEEPSLEEP_ENABLED b,
    sleep_enabled := _ABS_RTOS_SLEEP_ENABLED b }

/-- Whether `_ABS_RTOS_TICKLESS_ENABLED` is defined (lines 83-95), for given idle-mode
macros. -/
def tickless_enabled_under (m : IdleMacros) (b : BuildConfig) : Bool :=
  if b.configUSE_TICKLESS_IDLE ≠ 0 then
    if m.deepsleep_enabled || m.sleep_enabled then
      DRIVER_AVAILABLE_SYSPM b && DRIVER_AVAILABLE_LPTIMER b
    else false
  else false

/-- Lines 421-444: the Sleep branch exists under `_ABS_RTOS_SLEEP_ENABLED`. -/
def sleep_section_under (m : IdleMacros) (env : Env)
    (requested_idle_ms sleep_latency : Nat) (f : Frame) : Frame :=
  if m.sleep_enabled then sleep_branch env requested_idle_ms sleep_latency f
  else f

/-- Lines 376-431: the DeepSleep branch, with the Sleep branch as its `else` (line 429)
when both macros are defined. -/
def deepsleep_branch_under (m : IdleMacros) (b : BuildConfig) (env : Env)
    (requested_idle_ms sleep_latency deep_sleep_latency : Nat) (f : Frame) : Frame :=
  if requested_idle_ms > deep_sleep_latency then
    deepsleep_locked_route b env requested_idle_ms sleep_latency
      (call_tickless_deepsleep env (u32_sub requested_idle_ms deep_sleep_latency)
        { f with wfi_at_end := false })
  else sleep_section_under m env requested_idle_ms sleep_latency f

/-- Lines 374-444 for given idle-mode macros. -/
def sleep_ladder_under (m : IdleMacros) (b : BuildConfig) (env : Env)
    (requested_idle_ms sleep_latency : Nat) (f : Frame) : Frame :=
  if m.deepsleep_enabled then
    deepsleep_branch_under m b env requested_idle_ms sleep_latency
      (cyabs_rtos_get_deepsleep_latency b env.syspm_get_deepsleep_mode)
      (query_deepsleep_mode b f)
  else sleep_section_under m env requested_idle_ms sleep_latency f

/-- Lines 360-458 for given idle-mode macros. -/
def sleep_confirmed_under (m : IdleMacros) (b : BuildConfig) (env : Env)
    (xExpectedIdleTime : Nat) (f : Frame) : Frame :=
  step_tick b xExpectedIdleTime
    (sleep_ladder_under m b env (pdTICKS_TO_MS b xExpectedIdleTime)
      (cyabs_rtos_get_sleep_latency b) { f with wfi_at_end := true })

/-- Lines 353-460 for given idle-mode macros. -/
def critical_section_under (m : IdleMacros) (b : BuildConfig) (env : Env)
    (xExpectedIdleTime : Nat) (f : Frame) : Frame :=
  (if env.eTaskConfirmSleepModeStatus ≠ eSleepModeStatus.eAbortSleep then
      sleep_confirmed_under m b env xExpectedIdleTime
        ((f.call Call.critical_section_enter).call Call.eTaskConfirmSleepModeStatus)
    else (f.call Call.critical_section_enter).call Call.eTaskConfirmSleepModeStatus).run
    fun f => f.call (Call.critical_section_exit env.critical_section_enter)

/-- Lines 352-465 for given idle-mode macros. -/
def lptimer_check_under (m : IdleMacros) (b : BuildConfig) (env : Env)
    (xExpectedIdleTime : Nat) (f : Frame) : Frame :=
  if LPTimerPtr.NULL ≠ cyabs_rtos_get_lptimer f._lptimer then
    critical_section_under m b env xExpectedIdleTime f
  else { f with wfi_at_end := true }

/-- Lines 328-474 for given idle-mode macros. -/
def vApplicationSleep_under (m : IdleMacros) (b : BuildConfig) (env : Env)
    (_lptimer : LPTimerPtr) (xExpectedIdleTime : Nat) : Frame :=
  if tickless_enabled_under m b then
    (((lazy_lptimer_init b env (entry_frame _lptimer)).run
      (lptimer_check_under m b env xExpectedIdleTime)).run wfi_if_at_end)
  else wfi_block (entry_frame _lptimer)

/-- An instruction executed inside a hook. -/
inductive HookInstr
  | WFI
  | other (id : Nat)
  deriving DecidableEq, Repr

/-- The calls made by the two sequences of `cyabs_rtos_dsram.c`, and the instructions
executed inside the hooks they call. -/
inductive DsramCall
  | System_Store_NVIC_Reg
  | Cy_SysLib_ClearDSRAMWarmBootEntryStatus
  | vStoreDSRAMContextWithWFI
  | System_Restore_NVIC_Reg
  | vPortSetupTimerInterrupt
  | vRestoreDSRAMContext
  | in_hook (i : HookInstr)
  deriving DecidableEq, Repr

/-- The machine state the sequences act on: the NVIC registers, the holder of their
snapshot, the warm-boot entry flag and the state of the tick timer of the FreeRTOS
port. -/
structure DsramMachine where
  nvic : Nat
  nvic_holder : Nat
  warm_boot_entry : Bool
  tick_timer : Nat
  deriving DecidableEq, Repr

/-- A hook: what it does to the machine and the instructions it executes. -/
abbrev DsramHook := DsramMachine → DsramMachine × List HookInstr

/-- The machine together with the calls made so far. -/
structure DsramState where
  machine : DsramMachine
  trace : List DsramCall
  deriving DecidableEq, Repr

/-- The state in which a sequence starts. -/
def dsram_entry (m : DsramMachine) : DsramState := { machine := m, trace := [] }

def DsramState.call (s : DsramState) (c : DsramCall) : DsramState :=
  { s with trace := s.trace ++ [c] }

/-- The body of a hook, run on the current machine. -/
def DsramState.hook (s : DsramState) (h : DsramHook) : DsramState :=
  { machine := (h s.machine).1,
    trace := s.trace ++ (h s.machine).2.map DsramCall.in_hook }

/-- Lines 44-46: the default `vStoreDSRAMContextWithWFI`, an empty body. -/
def vStoreDSRAMContextWithWFI : DsramHook := fun m => (m, [])

/-- Lines 52-54: the default `vRestoreDSRAMContext`, an empty body. -/
def vRestoreDSRAMContext : DsramHook := fun m => (m, [])

/-- Modelled from the spec: `System_Store_NVIC_Reg` is a function of the device library,
absent from the sources; the spec has it snapshot the interrupt-controller register
state into the holder. -/
def System_Store_NVIC_Reg (s : DsramState) : DsramState :=
  { (s.call DsramCall.System_Store_NVIC_Reg) with
    machine := { s.machine with nvic_holder := s.machine.nvic } }

/-- Modelled from the spec: `Cy_SysLib_ClearDSRAMWarmBootEntryStatus` is a function of
the device library, absent from the sources; the spec has it clear the warm-boot flag. -/
def Cy_SysLib_ClearDSRAMWarmBootEntryStatus (s : DsramState) : DsramState :=
  { (s.call DsramCall.Cy_SysLib_ClearDSRAMWarmBootEntryStatus) with
    machine := { s.machine with warm_boot_entry := false } }

/-- Modelled from the spec: `System_Restore_NVIC_Reg` is a function of the device
library, absent from the sources; the spec has it restore the interrupt-controller
register state from the holder. -/
def System_Restore_NVIC_Reg (s : DsramState) : DsramState :=
  { (s.call DsramCall.System_Restore_NVIC_Reg) with
    machine := { s.machine with nvic := s.machine.nvic_holder } }

/-- Lines 64-71. The argument is the `vStoreDSRAMContextWithWFI` linked into the
image. -/
def Cy_SysPm_StoreDSContext_Wfi (vStoreDSRAMContextWithWFI : DsramHook) (s : DsramState) :
    DsramState :=
  let s := System_Store_NVIC_Reg s
  let s := Cy_SysLib_ClearDSRAMWarmBootEntryStatus s
  let s := (s.call DsramCall.vStoreDSRAMContextWithWFI).hook vStoreDSRAMContextWithWFI
  System_Restore_NVIC_Reg s

/-- Lines 80-85. `vPortSetupTimerInterrupt` is the function of the FreeRTOS port (only
declared in the file, line 37); the second argument is the `vRestoreDSRAMContext` linked
into the image. -/
def cyabs_rtos_exit_dsram (vPortSetupTimerInterrupt : DsramMachine → DsramMachine)
    (vRestoreDSRAMContext : DsramHook) (s : DsramState) : DsramState :=
  let s := { (s.call DsramCall.vPortSetupTimerInterrupt) with
    machine := vPortSetupTimerInterrupt s.machine }
  (s.call DsramCall.vRestoreDSRAMContext).hook vRestoreDSRAMContext

/-- The machine on which the hook of the store sequence runs. -/
def machine_at_store_hook (m : DsramMachine) : DsramMachine :=
  { m with nvic_holder := m.nvic, warm_boot_entry := false }

/-! ## Result codes

`cyabs_rtos.h`, which defines the result codes, is not part of the sources; they are
distinct values and only their identity matters here. -/

/-- The result codes returned by the functions below. -/
inductive cy_rslt_t
  | CY_RSLT_SUCCESS
  | CY_RTOS_NO_MEMORY
  | CY_RTOS_TIMEOUT
  | CY_RTOS_BAD_PARAM
  | CY_RTOS_QUEUE_EMPTY
  | CY_RTOS_QUEUE_FULL
  | CY_RTOS_GENERAL_ERROR
  | CY_RTOS_ALIGNMENT_ERROR
  deriving DecidableEq, Repr

/-! ## The FreeRTOS port (`cyabs_rtos_freertos.c`) -/

/-- What the FreeRTOS port takes from headers that are not part of the sources:
`CY_RTOS_MIN_STACK_SIZE`, `sizeof(StackType_t)`, the width of `size_t` and the macro
`pdMS_TO_TICKS`. -/
structure FreeRtosPort where
  CY_RTOS_MIN_STACK_SIZE : Nat
  sizeof_StackType_t : Nat
  size_t_bits : Nat
  pdMS_TO_TICKS : Nat → Nat

/-- The value of `pdPASS` in the FreeRTOS headers. -/
def pdPASS : Int := 1

/-- The value of `errCOULD_NOT_ALLOCATE_REQUIRED_MEMORY` in the FreeRTOS headers. -/
def errCOULD_NOT_ALLOCATE_REQUIRED_MEMORY : Int := -1

/-- The kernel calls made by the two functions. -/
inductive FreeRtosCall
  | xTaskCreate (usStackDepth : Nat) (uxPriority : Nat)
  | xEventGroupWaitBits (event : Nat) (bits : Nat) (clear : Bool) (allset : Bool)
      (ticks : Nat)
  deriving DecidableEq, Repr

/-- What the kernel returns: `xTaskCreate` for a stack depth and a priority,
`xEventGroupWaitBits` for its arguments. -/
structure FreeRtosEnv where
  xTaskCreate : Nat → Nat → Int
  xEventGroupWaitBits : Nat → Nat → Bool → Bool → Nat → Nat

/-- The file-scope `last_error` and the kernel calls made so far. -/
structure FreeRtosState where
  last_error : Int
  calls : List FreeRtosCall
  deriving DecidableEq, Repr

/-- Line 75: `((stack_size + (sizeof(StackType_t) - 1)) / sizeof(StackType_t))`, assigned
to a `uint32_t`. The sum of the `uint32_t` and the `size_t` is computed in the wider of
the two types. -/
def stack_deapth (p : FreeRtosPort) (stack_size : Nat) : Nat :=
  u32 ((stack_size + (p.sizeof_StackType_t - 1)) % 2 ^ (max 32 p.size_t_bits)
    / p.sizeof_StackType_t)

/-- Lines 64-91. `thread` is `none` for a `NULL` pointer; the entry function, the name
and the argument are passed on unchanged and left out. -/
def cy_rtos_create_thread (p : FreeRtosPort) (env : FreeRtosEnv) (thread : Option Nat)
    (stack_size : Nat) (priority : Nat) (st : FreeRtosState) : cy_rslt_t × FreeRtosState :=
  if thread = none ∨ stack_size < p.CY_RTOS_MIN_STACK_SIZE then
    (cy_rslt_t.CY_RTOS_BAD_PARAM, st)
  else
    let st : FreeRtosState :=
      { last_error := env.xTaskCreate (stack_deapth p stack_size) priority,
        calls := st.calls ++ [FreeRtosCall.xTaskCreate (stack_deapth p stack_size) priority] }
    if st.last_error = errCOULD_NOT_ALLOCATE_REQUIRED_MEMORY then
      (cy_rslt_t.CY_RTOS_NO_MEMORY, st)
    else if st.last_error ≠ pdPASS then (cy_rslt_t.CY_RTOS_GENERAL_ERROR, st)
    else (cy_rslt_t.CY_RSLT_SUCCESS, st)

/-- Lines 461-479. `event` is `none` for a `NULL` pointer and `some` of the group it
points to otherwise; `waitfor` is `none` for a `NULL` pointer and `some` of the word it
points to otherwise. The second component of the result is `*waitfor` afterwards. -/
def cy_rtos_waitbits_event (p : FreeRtosPort) (env : FreeRtosEnv) (event : Option Nat)
    (waitfor : Option Nat) (clear : Bool) (allset : Bool) (timeout : Nat)
    (st : FreeRtosState) : cy_rslt_t × Option Nat × FreeRtosState :=
  match event, waitfor with
  | some ev, some bits =>
    let ticks := p.pdMS_TO_TICKS timeout
    let w := u32 (env.xEventGroupWaitBits ev bits clear allset ticks)
    let st : FreeRtosState :=
      { st with
        calls := st.calls ++ [FreeRtosCall.xEventGroupWaitBits ev bits clear allset ticks] }
    (if decide (bits &&& w = bits) || (decide (bits &&& w > 0) && !allset) then
        cy_rslt_t.CY_RSLT_SUCCESS
      else cy_rslt_t.CY_RTOS_TIMEOUT,
      some w, st)
  | _, _ => (cy_rslt_t.CY_RTOS_BAD_PARAM, waitfor, st)

/-- A port with a 32-bit `size_t`, 4-byte stack words, a minimal stack of 300 bytes and
a 1 kHz tick. -/
def cortex_m_port : FreeRtosPort :=
  { CY_RTOS_MIN_STACK_SIZE := 300, sizeof_StackType_t := 4, size_t_bits := 32,
    pdMS_TO_TICKS := fun ms => ms }

/-- A kernel whose `xTaskCreate` returns `ret` and whose `xEventGroupWaitBits` returns
`bits`. -/
def fixed_kernel (ret : Int) (bits : Nat) : FreeRtosEnv :=
  { xTaskCreate := fun _ _ => ret, xEventGroupWaitBits := fun _ _ _ _ _ => bits }

/-! ## The WICED port (`cyabs_rtos_wiced_rtos.c`) -/

/-- The values of `wiced_result_t` the file tells apart (`wiced_result.h` is not part of
the sources); `other` stands for every other value. -/
inductive wiced_result_t
  | WICED_SUCCESS
  | WICED_NO_MEMORY
  | WICED_TIMEOUT
  | WICED_OPTION_ERROR
  | WICED_QUEUE_EMPTY
  | WICED_QUEUE_FULL
  | WICED_NO_INSTANCE
  | other (code : Nat)
  deriving DecidableEq, Repr

/-- Lines 42-67. -/
def convert_return_type : wiced_result_t → cy_rslt_t
  | wiced_result_t.WICED_SUCCESS => cy_rslt_t.CY_RSLT_SUCCESS
  | wiced_result_t.WICED_NO_MEMORY => cy_rslt_t.CY_RTOS_NO_MEMORY
  | wiced_result_t.WICED_TIMEOUT => cy_rslt_t.CY_RTOS_TIMEOUT
  | wiced_result_t.WICED_OPTION_ERROR => cy_rslt_t.CY_RTOS_BAD_PARAM
  | wiced_result_t.WICED_QUEUE_EMPTY => cy_rslt_t.CY_RTOS_QUEUE_EMPTY
  | wiced_result_t.WICED_QUEUE_FULL => cy_rslt_t.CY_RTOS_QUEUE_FULL
  | _ => cy_rslt_t.CY_RTOS_GENERAL_ERROR

/-- `cyabs_rtos_impl.h` of the WICED port, line 51. -/
def CY_RTOS_MIN_STACK_SIZE : Nat := 300

/-- `cyabs_rtos_impl.h` of the WICED port, line 52. -/
def CY_RTOS_ALIGNMENT_MASK : Nat := 7

/-- Line 34. -/
def MAX_QUEUE_MESSAGE_SIZE : Nat := 1

/-- Line 35. -/
def SEMAPHORE_INIT_COUNT : Nat := 0

/-- A WICED object pointer (`void*`); `none` is `NULL`. -/
abbrev WicedObj := Option Nat

/-- The struct `cy_semaphore_t` of `cyabs_rtos_impl.h`. -/
structure cy_semaphore_t where
  semaphore : WicedObj
  max_count : Nat
  count : Nat
  deriving DecidableEq, Repr

/-- The struct `cy_queue_t` of `cyabs_rtos_impl.h`. -/
structure cy_queue_t where
  itemsize : Nat
  size : Nat
  queue : WicedObj
  deriving DecidableEq, Repr

/-- The WICED calls made by the functions below, with the object they are given. -/
inductive WicedCall
  | wiced_rtos_create_thread
  | wiced_rtos_init_thread (thread : WicedObj) (priority : Nat) (stack_size : Nat)
  | wiced_rtos_create_mutex
  | wiced_rtos_init_mutex (mutex : WicedObj)
  | wiced_rtos_create_semaphore
  | wiced_rtos_init_semaphore (semaphore : WicedObj)
  | wiced_rtos_get_semaphore (semaphore : WicedObj) (timeout_ms : Nat)
  | wiced_rtos_set_semaphore (semaphore : WicedObj)
  | wiced_rtos_create_event_flags
  | wiced_rtos_create_queue
  | wiced_rtos_init_queue (queue : WicedObj) (message_size : Nat) (number_of_messages : Nat)
  deriving DecidableEq, Repr

/-- What the WICED functions return. -/
structure WicedEnv where
  wiced_rtos_create_thread : WicedObj
  wiced_rtos_init_thread : WicedObj → wiced_result_t
  wiced_rtos_create_mutex : WicedObj
  wiced_rtos_init_mutex : WicedObj → wiced_result_t
  wiced_rtos_create_semaphore : WicedObj
  wiced_rtos_init_semaphore : WicedObj → wiced_result_t
  wiced_rtos_get_semaphore : WicedObj → Nat → wiced_result_t
  wiced_rtos_set_semaphore : WicedObj → wiced_result_t
  wiced_rtos_create_event_flags : WicedObj
  wiced_rtos_create_queue : WicedObj
  wiced_rtos_init_queue : WicedObj → Nat → wiced_result_t

/-- Lines 82-102. `thread` is `none` for a `NULL` pointer and `some` of the object
pointer it points to otherwise; `stack` is the address, 0 for `NULL`. The result is the
return value, `*thread` afterwards and the WICED calls made. The check of line 96 reads
`thread`, which is not `NULL` there. -/
def cy_rtos_thread_create (env : WicedEnv) (thread : Option WicedObj) (stack : Nat)
    (stack_size : Nat) (priority : Nat) : cy_rslt_t × Option WicedObj × List WicedCall :=
  if stack_size < CY_RTOS_MIN_STACK_SIZE ∨ thread = none then
    (cy_rslt_t.CY_RTOS_BAD_PARAM, thread, [])
  else if stack ≠ 0 ∧ 0 ≠ u32 stack &&& CY_RTOS_ALIGNMENT_MASK then
    (cy_rslt_t.CY_RTOS_ALIGNMENT_ERROR, thread, [])
  else
    let thread := thread.map fun _ => env.wiced_rtos_create_thread
    match thread with
    | none => (cy_rslt_t.CY_RTOS_GENERAL_ERROR, thread, [WicedCall.wiced_rtos_create_thread])
    | some obj =>
      (convert_return_type (env.wiced_rtos_init_thread obj), thread,
        [WicedCall.wiced_rtos_create_thread,
          WicedCall.wiced_rtos_init_thread obj priority stack_size])

/-- Lines 247-262. The check of line 257 reads `mutex`, which is not `NULL` there. -/
def cy_rtos_mutex_init (env : WicedEnv) (mutex : Option WicedObj) ( _recursive : Bool) :
    cy_rslt_t × Option WicedObj × List WicedCall :=
  if mutex = none then (cy_rslt_t.CY_RTOS_BAD_PARAM, mutex, [])
  else
    let mutex := mutex.map fun _ => env.wiced_rtos_create_mutex
    match mutex with
    | none => (cy_rslt_t.CY_RTOS_GENERAL_ERROR, mutex, [WicedCall.wiced_rtos_create_mutex])
    | some obj =>
      (convert_return_type (env.wiced_rtos_init_mutex obj), mutex,
        [WicedCall.wiced_rtos_create_mutex, WicedCall.wiced_rtos_init_mutex obj])

/-- Lines 316-332. The check of line 325 reads `semaphore`, which is not `NULL`
there. -/
def cy_rtos_semaphore_init (env : WicedEnv) (semaphore : Option cy_semaphore_t)
    (maxcount : Nat) (initcount : Nat) :
    cy_rslt_t × Option cy_semaphore_t × List WicedCall :=
  if semaphore = none ∨ initcount ≠ SEMAPHORE_INIT_COUNT then
    (cy_rslt_t.CY_RTOS_BAD_PARAM, semaphore, [])
  else
    let semaphore := semaphore.map fun s =>
      { s with semaphore := env.wiced_rtos_create_semaphore }
    match semaphore with
    | none =>
      (cy_rslt_t.CY_RTOS_GENERAL_ERROR, semaphore, [WicedCall.wiced_rtos_create_semaphore])
    | some s =>
      let s := { s with max_count := maxcount, count := SEMAPHORE_INIT_COUNT }
      (convert_return_type (env.wiced_rtos_init_semaphore s.semaphore), some s,
        [WicedCall.wiced_rtos_create_semaphore,
          WicedCall.wiced_rtos_init_semaphore s.semaphore])

/-- Lines 338-363. -/
def cy_rtos_semaphore_get (env : WicedEnv) (semaphore : Option cy_semaphore_t)
    (timeout_ms : Nat) : cy_rslt_t × Option cy_semaphore_t × List WicedCall :=
  match semaphore with
  | none => (cy_rslt_t.CY_RTOS_BAD_PARAM, none, [])
  | some s =>
    if s.semaphore = none then (cy_rslt_t.CY_RTOS_BAD_PARAM, some s, [])
    else
      let wiced_rslt := env.wiced_rtos_get_semaphore s.semaphore timeout_ms
      if wiced_result_t.WICED_NO_INSTANCE = wiced_rslt then
        (cy_rslt_t.CY_RTOS_TIMEOUT, some s,
          [WicedCall.wiced_rtos_get_semaphore s.semaphore timeout_ms])
      else
        let cy_rslt := convert_return_type wiced_rslt
        if cy_rslt_t.CY_RSLT_SUCCESS = cy_rslt then
          (cy_rslt_t.CY_RSLT_SUCCESS, some { s with count := u32_sub s.count 1 },
            [WicedCall.wiced_rtos_get_semaphore s.semaphore timeout_ms])
        else (cy_rslt, some s, [WicedCall.wiced_rtos_get_semaphore s.semaphore timeout_ms])

/-- Lines 369-387. -/
def cy_rtos_semaphore_set (env : WicedEnv) (semaphore : Option cy_semaphore_t) :
    cy_rslt_t × Option cy_semaphore_t × List WicedCall :=
  match semaphore with
  | none => (cy_rslt_t.CY_RTOS_BAD_PARAM, none, [])
  | some s =>
    if s.semaphore = none then (cy_rslt_t.CY_RTOS_BAD_PARAM, some s, [])
    else if s.count ≥ s.max_count then (cy_rslt_t.CY_RTOS_GENERAL_ERROR, some s, [])
    else if cy_rslt_t.CY_RSLT_SUCCESS
        = convert_return_type (env.wiced_rtos_set_semaphore s.semaphore) then
      (cy_rslt_t.CY_RSLT_SUCCESS, some { s with count := u32 (s.count + 1) },
        [WicedCall.wiced_rtos_set_semaphore s.semaphore])
    else
      (cy_rslt_t.CY_RTOS_GENERAL_ERROR, some s,
        [WicedCall.wiced_rtos_set_semaphore s.semaphore])

/-- Lines 393-401. `count` is `none` for a `NULL` pointer; the third component of the
result is `*count` afterwards. -/
def cy_rtos_semaphore_get_count (semaphore : Option cy_semaphore_t) (count : Option Nat) :
    cy_rslt_t × Option cy_semaphore_t × Option Nat :=
  match semaphore, count with
  | some s, some c =>
    if s.semaphore = none then (cy_rslt_t.CY_RTOS_BAD_PARAM, some s, some c)
    else (cy_rslt_t.CY_RSLT_SUCCESS, some s, some s.count)
  | _, _ => (cy_rslt_t.CY_RTOS_BAD_PARAM, semaphore, count)

/-- Lines 424-437. -/
def cy_rtos_event_init (env : WicedEnv) (event : Option WicedObj) :
    cy_rslt_t × Option WicedObj × List WicedCall :=
  match event with
  | none => (cy_rslt_t.CY_RTOS_BAD_PARAM, none, [])
  | some _ =>
    let obj := env.wiced_rtos_create_event_flags
    if obj = none then
      (cy_rslt_t.CY_RTOS_GENERAL_ERROR, some obj, [WicedCall.wiced_rtos_create_event_flags])
    else (cy_rslt_t.CY_RSLT_SUCCESS, some obj, [WicedCall.wiced_rtos_create_event_flags])

/-- Lines 518-537. -/
def cy_rtos_queue_init (env : WicedEnv) (queue : Option cy_queue_t) (length : Nat)
    (itemsize : Nat) : cy_rslt_t × Option cy_queue_t × List WicedCall :=
  match queue with
  | none => (cy_rslt_t.CY_RTOS_BAD_PARAM, none, [])
  | some q =>
    if itemsize = 0 ∨ itemsize > MAX_QUEUE_MESSAGE_SIZE then
      (cy_rslt_t.CY_RTOS_BAD_PARAM, some q, [])
    else
      let q := { q with queue := env.wiced_rtos_create_queue }
      if q.queue = none then
        (cy_rslt_t.CY_RTOS_GENERAL_ERROR, some q, [WicedCall.wiced_rtos_create_queue])
      else
        let q := { q with size := u32 length, itemsize := u32 itemsize }
        (convert_return_type (env.wiced_rtos_init_queue q.queue length), some q,
          [WicedCall.wiced_rtos_create_queue, WicedCall.wiced_rtos_init_queue q.queue 1 length])

/-- A WICED whose creating functions return the given object and whose other functions
return the given result. -/
def fixed_wiced (obj : WicedObj) (r : wiced_result_t) : WicedEnv :=
  { wiced_rtos_create_thread := obj, wiced_rtos_init_thread := fun _ => r,
    wiced_rtos_create_mutex := obj, wiced_rtos_init_mutex := fun _ => r,
    wiced_rtos_create_semaphore := obj, wiced_rtos_init_semaphore := fun _ => r,
    wiced_rtos_get_semaphore := fun _ _ => r, wiced_rtos_set_semaphore := fun _ => r,
    wiced_rtos_create_event_flags := obj, wiced_rtos_create_queue := obj,
    wiced_rtos_init_queue := fun _ _ => r }

/-! ## Lemmas on the stages -/

@[simp] theorem sleep_calls_append (l r : List Call) :
    sleep_calls (l ++ r) = sleep_calls l ++ sleep_calls r := by
  simp [sleep_calls]

@[simp] theorem deepsleep_calls_append (l r : List Call) :
    deepsleep_calls (l ++ r) = deepsleep_calls l ++ deepsleep_calls r := by
  simp [deepsleep_calls]

@[simp] theorem step_tick_calls_append (l r : List Call) :
    step_tick_calls (l ++ r) = step_tick_calls l ++ step_tick_calls r := by
  simp [step_tick_calls]

@[simp] theorem wfi_count_append (l r : List Call) :
    wfi_count (l ++ r) = wfi_count l + wfi_count r := by
  simp [wfi_count]

theorem run_of_not_halted {f : Frame} (k : Frame → Frame) (h : f.halted = false) :
    f.run k = k f := by
  simp [Frame.run, h]

theorem run_of_halted {f : Frame} (k : Frame → Frame) (h : f.halted = true) :
    f.run k = f := by
  simp [Frame.run, h]

theorem lazy_lptimer_init_of_registered (b : BuildConfig) (env : Env) {f : Frame}
    (h : f._lptimer ≠ LPTimerPtr.NULL) : lazy_lptimer_init b env f = f := by
  unfold lazy_lptimer_init cyabs_rtos_get_lptimer
  split_ifs with h1 h2
  · rfl
  · exact absurd h2.symm h
  · rfl

theorem vApplicationSleep_of_not_tickless (b : BuildConfig) (env : Env) (lp : LPTimerPtr)
    (x : Nat) (h : _ABS_RTOS_TICKLESS_ENABLED b = false) :
    vApplicationSleep b env lp x = wfi_block (entry_frame lp) := by
  simp [vApplicationSleep, h]

theorem vApplicationSleep_of_registered (b : BuildConfig) (env : Env) {lp : LPTimerPtr}
    (x : Nat) (ht : _ABS_RTOS_TICKLESS_ENABLED b = true) (hlp : lp ≠ LPTimerPtr.NULL) :
    vApplicationSleep b env lp x
      = (critical_section b env x (entry_frame lp)).run wfi_if_at_end := by
  have h0 : (entry_frame lp)._lptimer ≠ LPTimerPtr.NULL := hlp
  have h1 : (entry_frame lp).halted = false := rfl
  have h2 : LPTimerPtr.NULL ≠ cyabs_rtos_get_lptimer (entry_frame lp)._lptimer :=
    fun h => hlp h.symm
  rw [vApplicationSleep, if_pos ht, lazy_lptimer_init_of_registered b env h0,
    run_of_not_halted _ h1, lptimer_check, if_pos h2]

theorem critical_section_of_abort (b : BuildConfig) (env : Env) (lp : LPTimerPtr) (x : Nat)
    (hab : env.eTaskConfirmSleepModeStatus = eSleepModeStatus.eAbortSleep) :
    critical_section b env x (entry_frame lp)
      = { entry_frame lp with
          trace := [Call.critical_section_enter, Call.eTaskConfirmSleepModeStatus,
            Call.critical_section_exit env.critical_section_enter] } := by
  simp [critical_section, hab, Frame.run, Frame.call, entry_frame]

theorem critical_section_of_confirmed (b : BuildConfig) (env : Env) (lp : LPTimerPtr)
    (x : Nat) (hc : env.eTaskConfirmSleepModeStatus ≠ eSleepModeStatus.eAbortSleep) :
    critical_section b env x (entry_frame lp)
      = (step_tick b x (sleep_ladder b env (pdTICKS_TO_MS b x)
          (cyabs_rtos_get_sleep_latency b) (ladder_entry lp))).run
          fun f => f.call (Call.critical_section_exit env.critical_section_enter) := by
  rw [critical_section, if_pos hc]
  rfl

theorem vApplicationSleep_of_confirmed (b : BuildConfig) (env : Env) {lp : LPTimerPtr}
    (x : Nat) (ht : _ABS_RTOS_TICKLESS_ENABLED b = true) (hlp : lp ≠ LPTimerPtr.NULL)
    (hc : env.eTaskConfirmSleepModeStatus ≠ eSleepModeStatus.eAbortSleep) :
    vApplicationSleep b env lp x
      = epilogue env (step_tick b x (sleep_ladder b env (pdTICKS_TO_MS b x)
          (cyabs_rtos_get_sleep_latency b) (ladder_entry lp))) := by
  rw [vApplicationSleep_of_registered b env x ht hlp, critical_section_of_confirmed b env lp x hc]
  rfl

theorem vApplicationSleep_of_abort (b : BuildConfig) (env : Env) {lp : LPTimerPtr}
    (x : Nat) (ht : _ABS_RTOS_TICKLESS_ENABLED b = true) (hlp : lp ≠ LPTimerPtr.NULL)
    (hab : env.eTaskConfirmSleepModeStatus = eSleepModeStatus.eAbortSleep) :
    vApplicationSleep b env lp x
      = { entry_frame lp with
          trace := [Call.critical_section_enter, Call.eTaskConfirmSleepModeStatus,
            Call.critical_section_exit env.critical_section_enter] } := by
  rw [vApplicationSleep_of_registered b env x ht hlp, critical_section_of_abort b env lp x hab]
  simp [Frame.run, wfi_if_at_end, entry_frame]

/-! ### Arithmetic -/

theorem u32_lt (n : Nat) : u32 n < 2 ^ 32 := Nat.mod_lt _ (by norm_num)

theorem u32_of_lt {n : Nat} (h : n < 2 ^ 32) : u32 n = n := Nat.mod_eq_of_lt h

theorem pdTICKS_TO_MS_lt (b : BuildConfig) (x : Nat) : pdTICKS_TO_MS b x < 2 ^ 32 :=
  lt_of_le_of_lt (Nat.div_le_self _ _) (u32_lt _)

theorem cyabs_rtos_get_sleep_latency_lt (b : BuildConfig) :
    cyabs_rtos_get_sleep_latency b < 2 ^ 32 := by
  unfold cyabs_rtos_get_sleep_latency
  split
  · exact u32_lt _
  · norm_num

theorem assign_deepsleep_latency_lt (b : BuildConfig) {l : Nat} (h : l < 2 ^ 32) :
    assign_deepsleep_latency b l < 2 ^ 32 := by
  unfold assign_deepsleep_latency
  split
  · exact u32_lt _
  · exact h

theorem assign_deepsleep_ram_latency_lt (b : BuildConfig) {l : Nat} (h : l < 2 ^ 32) :
    assign_deepsleep_ram_latency b l < 2 ^ 32 := by
  unfold assign_deepsleep_ram_latency
  split
  · exact u32_lt _
  · exact h

theorem cyabs_rtos_get_deepsleep_latency_lt (b : BuildConfig) (mode : deep_sleep_mode_t) :
    cyabs_rtos_get_deepsleep_latency b mode < 2 ^ 32 := by
  have h0 : assign_deepsleep_latency b 0 < 2 ^ 32 :=
    assign_deepsleep_latency_lt b (by norm_num)
  unfold cyabs_rtos_get_deepsleep_latency
  split_ifs
  · cases mode <;>
      first
      | exact assign_deepsleep_ram_latency_lt b h0
      | exact assign_deepsleep_latency_lt b h0
  · exact h0

/-- Without wrap-around: the subtraction of a smaller `uint32_t` value is the
difference of the numbers. -/
theorem u32_sub_of_le {a c : Nat} (ha : a < 2 ^ 32) (hca : c ≤ a) : u32_sub a c = a - c := by
  have hc : c < 2 ^ 32 := lt_of_le_of_lt hca ha
  unfold u32_sub
  rw [u32_of_lt ha, u32_of_lt hc]
  have h : a + 2 ^ 32 - c = (a - c) + 2 ^ 32 := by omega
  rw [h, Nat.add_mod_right]
  exact Nat.mod_eq_of_lt (by omega)

/-! ### The build flags -/

theorem tickless_of_deepsleep {b : BuildConfig} (hds : _ABS_RTOS_DEEPSLEEP_ENABLED b = true)
    (hbuild : build_error b = false) : _ABS_RTOS_TICKLESS_ENABLED b = true := by
  have h0 : b.configUSE_TICKLESS_IDLE ≠ 0 := by
    intro h0
    simp [_ABS_RTOS_DEEPSLEEP_ENABLED, h0] at hds
  simp [build_error, hds] at hbuild
  simp [_ABS_RTOS_TICKLESS_ENABLED, h0, hds, hbuild.1, hbuild.2]

theorem not_deepsleep_of_sleep {b : BuildConfig} (hsl : _ABS_RTOS_SLEEP_ENABLED b = true) :
    _ABS_RTOS_DEEPSLEEP_ENABLED b = false := by
  unfold _ABS_RTOS_SLEEP_ENABLED at hsl
  unfold _ABS_RTOS_DEEPSLEEP_ENABLED
  split_ifs at hsl ⊢
  all_goals simp_all

/-! ### The ladder -/

@[simp] theorem query_deepsleep_mode_lptimer (b : BuildConfig) (f : Frame) :
    (query_deepsleep_mode b f)._lptimer = f._lptimer := by
  unfold query_deepsleep_mode; split_ifs <;> rfl

@[simp] theorem query_deepsleep_mode_actual (b : BuildConfig) (f : Frame) :
    (query_deepsleep_mode b f).actual_idle_ms = f.actual_idle_ms := by
  unfold query_deepsleep_mode; split_ifs <;> rfl

@[simp] theorem query_deepsleep_mode_result (b : BuildConfig) (f : Frame) :
    (query_deepsleep_mode b f).result = f.result := by
  unfold query_deepsleep_mode; split_ifs <;> rfl

@[simp] theorem query_deepsleep_mode_wfi (b : BuildConfig) (f : Frame) :
    (query_deepsleep_mode b f).wfi_at_end = f.wfi_at_end := by
  unfold query_deepsleep_mode; split_ifs <;> rfl

@[simp] theorem query_deepsleep_mode_halted (b : BuildConfig) (f : Frame) :
    (query_deepsleep_mode b f).halted = f.halted := by
  unfold query_deepsleep_mode; split_ifs <;> rfl

/-- The calls of `query_deepsleep_mode`. -/
theorem query_deepsleep_mode_trace (b : BuildConfig) (f : Frame) :
    (query_deepsleep_mode b f).trace
      = f.trace ++ (if GET_DEEPSLEEP_MODE_AVAILABLE b then [Call.syspm_get_deepsleep_mode]
          else []) := by
  unfold query_deepsleep_mode; split_ifs <;> simp [Frame.call]

@[simp] theorem sleep_calls_query (b : BuildConfig) (f : Frame) :
    sleep_calls (query_deepsleep_mode b f).trace = sleep_calls f.trace := by
  rw [query_deepsleep_mode_trace]; split_ifs <;> simp [sleep_calls]

@[simp] theorem deepsleep_calls_query (b : BuildConfig) (f : Frame) :
    deepsleep_calls (query_deepsleep_mode b f).trace = deepsleep_calls f.trace := by
  rw [query_deepsleep_mode_trace]; split_ifs <;> simp [deepsleep_calls]

@[simp] theorem step_tick_calls_query (b : BuildConfig) (f : Frame) :
    step_tick_calls (query_deepsleep_mode b f).trace = step_tick_calls f.trace := by
  rw [query_deepsleep_mode_trace]; split_ifs <;> simp [step_tick_calls]

@[simp] theorem wfi_count_query (b : BuildConfig) (f : Frame) :
    wfi_count (query_deepsleep_mode b f).trace = wfi_count f.trace := by
  rw [query_deepsleep_mode_trace]; split_ifs <;> simp [wfi_count]

theorem sleep_calls_ladder_entry (lp : LPTimerPtr) : sleep_calls (ladder_entry lp).trace = [] := rfl

theorem deepsleep_calls_ladder_entry (lp : LPTimerPtr) :
    deepsleep_calls (ladder_entry lp).trace = [] := rfl

theorem step_tick_calls_ladder_entry (lp : LPTimerPtr) :
    step_tick_calls (ladder_entry lp).trace = [] := rfl

theorem wfi_count_ladder_entry (lp : LPTimerPtr) : wfi_count (ladder_entry lp).trace = 0 := rfl

/-! ### `vTaskStepTick` and the end of the function -/

@[simp] theorem call_tickless_sleep_halted (env : Env) (d : Nat) (f : Frame) :
    (call_tickless_sleep env d f).halted = f.halted := rfl

@[simp] theorem call_tickless_deepsleep_halted (env : Env) (d : Nat) (f : Frame) :
    (call_tickless_deepsleep env d f).halted = f.halted := rfl

@[simp] theorem deepsleep_locked_route_halted (b : BuildConfig) (env : Env) (r s : Nat)
    (f : Frame) : (deepsleep_locked_route b env r s f).halted = f.halted := by
  unfold deepsleep_locked_route
  split
  · split_ifs <;> rfl
  · rfl

@[simp] theorem sleep_section_halted (b : BuildConfig) (env : Env) (r s : Nat) (f : Frame) :
    (sleep_section b env r s f).halted = f.halted := by
  unfold sleep_section sleep_branch
  split_ifs <;> rfl

@[simp] theorem sleep_ladder_halted (b : BuildConfig) (env : Env) (r s : Nat) (f : Frame) :
    (sleep_ladder b env r s f).halted = f.halted := by
  unfold sleep_ladder deepsleep_branch
  split_ifs <;> simp

@[simp] theorem step_tick_actual (b : BuildConfig) (x : Nat) (f : Frame) :
    (step_tick b x f).actual_idle_ms = f.actual_idle_ms := by
  unfold step_tick CY_ASSERT Frame.run Frame.call
  split_ifs <;> rfl

@[simp] theorem step_tick_wfi (b : BuildConfig) (x : Nat) (f : Frame) :
    (step_tick b x f).wfi_at_end = f.wfi_at_end := by
  unfold step_tick CY_ASSERT Frame.run Frame.call
  split_ifs <;> rfl

/-- The calls of `step_tick` from a frame that is not halted. -/
theorem step_tick_trace (b : BuildConfig) (x : Nat) {f : Frame} (hf : f.halted = false) :
    (step_tick b x f).trace = f.trace ++
      (if f.actual_idle_ms > 0 then
        if f.actual_idle_ms ≤ pdTICKS_TO_MS b x then
          [Call.vTaskStepTick (b.convert_ms_to_ticks f.actual_idle_ms)]
        else if b.CY_ASSERT_halts then [Call.CY_ASSERT_failed AssertSite.actual_idle]
        else [Call.CY_ASSERT_failed AssertSite.actual_idle,
          Call.vTaskStepTick (b.convert_ms_to_ticks f.actual_idle_ms)]
      else []) := by
  unfold step_tick CY_ASSERT Frame.run Frame.call
  split_ifs <;> simp_all

/-- Whether `step_tick` stops the execution. -/
theorem step_tick_halted (b : BuildConfig) (x : Nat) {f : Frame} (hf : f.halted = false) :
    (step_tick b x f).halted
      = (decide (f.actual_idle_ms > pdTICKS_TO_MS b x) && b.CY_ASSERT_halts) := by
  unfold step_tick CY_ASSERT Frame.run Frame.call
  split_ifs <;> simp_all

@[simp] theorem epilogue_actual (env : Env) (f : Frame) :
    (epilogue env f).actual_idle_ms = f.actual_idle_ms := by
  simp only [epilogue, wfi_if_at_end, wfi_block, Frame.run, Frame.call]
  split_ifs <;> rfl

@[simp] theorem epilogue_wfi (env : Env) (f : Frame) :
    (epilogue env f).wfi_at_end = f.wfi_at_end := by
  simp only [epilogue, wfi_if_at_end, wfi_block, Frame.run, Frame.call]
  split_ifs <;> rfl

@[simp] theorem epilogue_halted (env : Env) (f : Frame) :
    (epilogue env f).halted = f.halted := by
  simp only [epilogue, wfi_if_at_end, wfi_block, Frame.run, Frame.call]
  split_ifs <;> simp_all

/-- The calls of `epilogue`. -/
theorem epilogue_trace (env : Env) (f : Frame) :
    (epilogue env f).trace = f.trace ++
      (if f.halted then []
       else if f.wfi_at_end then
         [Call.critical_section_exit env.critical_section_enter, Call.WFI]
       else [Call.critical_section_exit env.critical_section_enter]) := by
  rcases f with ⟨lp, a, r, w, tr, h⟩
  cases h <;> cases w <;> simp [epilogue, wfi_if_at_end, wfi_block, Frame.run, Frame.call]

@[simp] theorem sleep_calls_epilogue (env : Env) (f : Frame) :
    sleep_calls (epilogue env f).trace = sleep_calls f.trace := by
  rw [epilogue_trace]; split_ifs <;> simp [sleep_calls]

@[simp] theorem deepsleep_calls_epilogue (env : Env) (f : Frame) :
    deepsleep_calls (epilogue env f).trace = deepsleep_calls f.trace := by
  rw [epilogue_trace]; split_ifs <;> simp [deepsleep_calls]

@[simp] theorem step_tick_calls_epilogue (env : Env) (f : Frame) :
    step_tick_calls (epilogue env f).trace = step_tick_calls f.trace := by
  rw [epilogue_trace]; split_ifs <;> simp [step_tick_calls]

theorem wfi_count_epilogue (env : Env) (f : Frame) :
    wfi_count (epilogue env f).trace
      = wfi_count f.trace + (if f.halted = false ∧ f.wfi_at_end = true then 1 else 0) := by
  rw [epilogue_trace]; split_ifs <;> simp_all [wfi_count]

@[simp] theorem sleep_calls_step_tick (b : BuildConfig) (x : Nat) {f : Frame}
    (hf : f.halted = false) : sleep_calls (step_tick b x f).trace = sleep_calls f.trace := by
  rw [step_tick_trace b x hf]; split_ifs <;> simp [sleep_calls]

@[simp] theorem deepsleep_calls_step_tick (b : BuildConfig) (x : Nat) {f : Frame}
    (hf : f.halted = false) :
    deepsleep_calls (step_tick b x f).trace = deepsleep_calls f.trace := by
  rw [step_tick_trace b x hf]; split_ifs <;> simp [deepsleep_calls]

@[simp] theorem wfi_count_step_tick (b : BuildConfig) (x : Nat) {f : Frame}
    (hf : f.halted = false) : wfi_count (step_tick b x f).trace = wfi_count f.trace := by
  rw [step_tick_trace b x hf]; split_ifs <;> simp [wfi_count]

/-- The `vTaskStepTick` calls of `step_tick`. -/
theorem step_tick_calls_step_tick (b : BuildConfig) (x : Nat) {f : Frame}
    (hf : f.halted = false) :
    step_tick_calls (step_tick b x f).trace = step_tick_calls f.trace ++
      (if 0 < f.actual_idle_ms ∧
          (f.actual_idle_ms ≤ pdTICKS_TO_MS b x ∨ b.CY_ASSERT_halts = false) then
        [b.convert_ms_to_ticks f.actual_idle_ms]
      else []) := by
  rw [step_tick_trace b x hf]
  split_ifs
  all_goals simp_all [step_tick_calls]
  omega

theorem not_sleep_of_deepsleep {b : BuildConfig} (hds : _ABS_RTOS_DEEPSLEEP_ENABLED b = true) :
    _ABS_RTOS_SLEEP_ENABLED b = false := by
  cases h : _ABS_RTOS_SLEEP_ENABLED b
  · rfl
  · rw [not_deepsleep_of_sleep h] at hds
    exact absurd hds (by decide)

@[simp] theorem step_tick_calls_sleep_ladder (b : BuildConfig) (env : Env) (r s : Nat)
    (f : Frame) :
    step_tick_calls (sleep_ladder b env r s f).trace = step_tick_calls f.trace := by
  unfold sleep_ladder deepsleep_branch deepsleep_locked_route sleep_section sleep_branch
  cases DEEPSLEEP_LOCKED b <;> simp only [] <;> split_ifs <;>
    simp [call_tickless_sleep, call_tickless_deepsleep, step_tick_calls_append] <;>
    simp [step_tick_calls]

@[simp] theorem wfi_count_sleep_ladder (b : BuildConfig) (env : Env) (r s : Nat)
    (f : Frame) :
    wfi_count (sleep_ladder b env r s f).trace = wfi_count f.trace := by
  unfold sleep_ladder deepsleep_branch deepsleep_locked_route sleep_section sleep_branch
  cases DEEPSLEEP_LOCKED b <;> simp only [] <;> split_ifs <;>
    simp [call_tickless_sleep, call_tickless_deepsleep, wfi_count_append] <;>
    simp [wfi_count]

/-- The deep-sleep calls of the ladder. -/
theorem deepsleep_calls_sleep_ladder (b : BuildConfig) (env : Env) (r s : Nat) (f : Frame) :
    deepsleep_calls (sleep_ladder b env r s f).trace = deepsleep_calls f.trace ++
      (if _ABS_RTOS_DEEPSLEEP_ENABLED b = true ∧
          r > cyabs_rtos_get_deepsleep_latency b env.syspm_get_deepsleep_mode then
        [u32_sub r (cyabs_rtos_get_deepsleep_latency b env.syspm_get_deepsleep_mode)]
      else []) := by
  unfold sleep_ladder deepsleep_branch deepsleep_locked_route sleep_section sleep_branch
  cases DEEPSLEEP_LOCKED b <;> simp only [] <;> split_ifs <;>
    simp_all [call_tickless_sleep, call_tickless_deepsleep, deepsleep_calls_append] <;>
    simp [deepsleep_calls]

/-- A ladder that makes no call leaves `actual_idle_ms` and `wfi_at_end` as they were. -/
theorem sleep_ladder_of_no_attempt (b : BuildConfig) (env : Env) (r s : Nat) (f : Frame)
    (hs : sleep_calls (sleep_ladder b env r s f).trace = sleep_calls f.trace)
    (hd : deepsleep_calls (sleep_ladder b env r s f).trace = deepsleep_calls f.trace) :
    (sleep_ladder b env r s f).actual_idle_ms = f.actual_idle_ms ∧
    (sleep_ladder b env r s f).wfi_at_end = f.wfi_at_end := by
  revert hs hd
  unfold sleep_ladder deepsleep_branch deepsleep_locked_route sleep_section sleep_branch
  cases DEEPSLEEP_LOCKED b <;> simp only [] <;> split_ifs <;>
    simp [call_tickless_sleep, call_tickless_deepsleep, sleep_calls_append,
      deepsleep_calls_append] <;>
    simp [sleep_calls, deepsleep_calls]

/-! ### The ladder from `ladder_entry`, case by case -/

@[simp] theorem sleep_calls_deepsleep_mode_calls (b : BuildConfig) :
    sleep_calls (deepsleep_mode_calls b) = [] := by
  unfold deepsleep_mode_calls; split_ifs <;> rfl

@[simp] theorem deepsleep_calls_deepsleep_mode_calls (b : BuildConfig) :
    deepsleep_calls (deepsleep_mode_calls b) = [] := by
  unfold deepsleep_mode_calls; split_ifs <;> rfl

@[simp] theorem step_tick_calls_deepsleep_mode_calls (b : BuildConfig) :
    step_tick_calls (deepsleep_mode_calls b) = [] := by
  unfold deepsleep_mode_calls; split_ifs <;> rfl

@[simp] theorem wfi_count_deepsleep_mode_calls (b : BuildConfig) :
    wfi_count (deepsleep_mode_calls b) = 0 := by
  unfold deepsleep_mode_calls; split_ifs <;> rfl

theorem query_deepsleep_mode_ladder_entry (b : BuildConfig) (lp : LPTimerPtr) :
    query_deepsleep_mode b (ladder_entry lp)
      = { ladder_entry lp with
          trace := [Call.critical_section_enter, Call.eTaskConfirmSleepModeStatus]
            ++ deepsleep_mode_calls b } := by
  unfold query_deepsleep_mode deepsleep_mode_calls
  split_ifs <;> simp [Frame.call, ladder_entry]

/-- DeepSleep build, request above the deep-sleep latency, no route to Sleep: the
ladder is the deep-sleep call. -/
theorem sleep_ladder_deepsleep_only (b : BuildConfig) (env : Env) (lp : LPTimerPtr)
    (r s : Nat) (hds : _ABS_RTOS_DEEPSLEEP_ENABLED b = true)
    (hr : r > cyabs_rtos_get_deepsleep_latency b env.syspm_get_deepsleep_mode)
    (hroute : ¬ (DEEPSLEEP_LOCKED b = some (env.syspm_tickless_deepsleep lp
      (u32_sub r (cyabs_rtos_get_deepsleep_latency b env.syspm_get_deepsleep_mode)) 0).1
      ∧ r > s)) :
    sleep_ladder b env r s (ladder_entry lp)
      = { _lptimer := lp,
          actual_idle_ms := (env.syspm_tickless_deepsleep lp
            (u32_sub r (cyabs_rtos_get_deepsleep_latency b env.syspm_get_deepsleep_mode)) 0).2,
          result := (env.syspm_tickless_deepsleep lp
            (u32_sub r (cyabs_rtos_get_deepsleep_latency b env.syspm_get_deepsleep_mode)) 0).1,
          wfi_at_end := false,
          trace := [Call.critical_section_enter, Call.eTaskConfirmSleepModeStatus]
            ++ deepsleep_mode_calls b
            ++ [Call.syspm_tickless_deepsleep lp
              (u32_sub r (cyabs_rtos_get_deepsleep_latency b env.syspm_get_deepsleep_mode))],
          halted := false } := by
  rw [sleep_ladder, if_pos hds, query_deepsleep_mode_ladder_entry, deepsleep_branch, if_pos hr]
  unfold deepsleep_locked_route
  cases hL : DEEPSLEEP_LOCKED b with
  | none => simp [call_tickless_deepsleep, cyabs_rtos_get_lptimer, ladder_entry]
  | some code =>
    simp only [call_tickless_deepsleep, cyabs_rtos_get_lptimer, ladder_entry]
    rw [hL] at hroute
    split_ifs with h1 h2
    · exact absurd ⟨congrArg some h1, h2⟩ hroute
    · simp
    · simp

/-- DeepSleep build, request above both latencies, deep sleep answers
`DEEPSLEEP_LOCKED`: the ladder is the deep-sleep call followed by the sleep call. -/
theorem sleep_ladder_deepsleep_locked (b : BuildConfig) (env : Env) (lp : LPTimerPtr)
    (r s : Nat) (hds : _ABS_RTOS_DEEPSLEEP_ENABLED b = true)
    (hr : r > cyabs_rtos_get_deepsleep_latency b env.syspm_get_deepsleep_mode)
    (hL : DEEPSLEEP_LOCKED b = some (env.syspm_tickless_deepsleep lp
      (u32_sub r (cyabs_rtos_get_deepsleep_latency b env.syspm_get_deepsleep_mode)) 0).1)
    (hs : r > s) :
    sleep_ladder b env r s (ladder_entry lp)
      = { _lptimer := lp,
          actual_idle_ms := (env.syspm_tickless_sleep lp (u32_sub r s)
            (env.syspm_tickless_deepsleep lp
              (u32_sub r (cyabs_rtos_get_deepsleep_latency b env.syspm_get_deepsleep_mode))
              0).2).2,
          result := (env.syspm_tickless_sleep lp (u32_sub r s)
            (env.syspm_tickless_deepsleep lp
              (u32_sub r (cyabs_rtos_get_deepsleep_latency b env.syspm_get_deepsleep_mode))
              0).2).1,
          wfi_at_end := false,
          trace := [Call.critical_section_enter, Call.eTaskConfirmSleepModeStatus]
            ++ deepsleep_mode_calls b
            ++ [Call.syspm_tickless_deepsleep lp
                (u32_sub r (cyabs_rtos_get_deepsleep_latency b env.syspm_get_deepsleep_mode)),
              Call.syspm_tickless_sleep lp (u32_sub r s)],
          halted := false } := by
  rw [sleep_ladder, if_pos hds, query_deepsleep_mode_ladder_entry, deepsleep_branch, if_pos hr]
  unfold deepsleep_locked_route
  simp only [call_tickless_deepsleep, cyabs_rtos_get_lptimer, ladder_entry]
  rw [hL]
  simp [call_tickless_sleep, cyabs_rtos_get_lptimer, hs]

/-- DeepSleep build, request within the deep-sleep latency: the ladder makes no
attempt. -/
theorem sleep_ladder_deepsleep_short (b : BuildConfig) (env : Env) (lp : LPTimerPtr)
    (r s : Nat) (hds : _ABS_RTOS_DEEPSLEEP_ENABLED b = true)
    (hr : r ≤ cyabs_rtos_get_deepsleep_latency b env.syspm_get_deepsleep_mode) :
    sleep_ladder b env r s (ladder_entry lp)
      = { ladder_entry lp with
          trace := [Call.critical_section_enter, Call.eTaskConfirmSleepModeStatus]
            ++ deepsleep_mode_calls b } := by
  rw [sleep_ladder, if_pos hds, query_deepsleep_mode_ladder_entry, deepsleep_branch,
    if_neg (not_lt.mpr hr), sleep_section, not_sleep_of_deepsleep hds]
  rfl

/-- Sleep build, request above the sleep latency: the ladder is the sleep call. -/
theorem sleep_ladder_sleep (b : BuildConfig) (env : Env) (lp : LPTimerPtr)
    (r s : Nat) (hsl : _ABS_RTOS_SLEEP_ENABLED b = true) (hs : r > s) :
    sleep_ladder b env r s (ladder_entry lp)
      = { _lptimer := lp,
          actual_idle_ms := (env.syspm_tickless_sleep lp (u32_sub r s) 0).2,
          result := (env.syspm_tickless_sleep lp (u32_sub r s) 0).1,
          wfi_at_end := false,
          trace := [Call.critical_section_enter, Call.eTaskConfirmSleepModeStatus,
            Call.syspm_tickless_sleep lp (u32_sub r s)],
          halted := false } := by
  rw [sleep_ladder, not_deepsleep_of_sleep hsl]
  simp [sleep_section, hsl, sleep_branch, hs, call_tickless_sleep, cyabs_rtos_get_lptimer,
    ladder_entry]

/-- No DeepSleep, and no Sleep or a request within the sleep latency: the ladder does
nothing. -/
theorem sleep_ladder_idle (b : BuildConfig) (env : Env) (lp : LPTimerPtr)
    (r s : Nat) (hds : _ABS_RTOS_DEEPSLEEP_ENABLED b = false)
    (hs : _ABS_RTOS_SLEEP_ENABLED b = false ∨ r ≤ s) :
    sleep_ladder b env r s (ladder_entry lp) = ladder_entry lp := by
  rw [sleep_ladder, hds]
  rcases hs with hs | hs
  · simp [sleep_section, hs]
  · simp [sleep_section, sleep_branch, not_lt.mpr hs]

theorem ladder_entry_halted (lp : LPTimerPtr) : (ladder_entry lp).halted = false := rfl

theorem sleep_ladder_entry_halted (b : BuildConfig) (env : Env) (r s : Nat) (lp : LPTimerPtr) :
    (sleep_ladder b env r s (ladder_entry lp)).halted = false := by
  rw [sleep_ladder_halted]; rfl

theorem in_critical_section_append {tr : List Call} {c : Call} (rest : List Call)
    (h : in_critical_section tr c) : in_critical_section (tr ++ rest) c := by
  obtain ⟨pre, post, htr, hin, hout⟩ := h
  exact ⟨pre, post ++ rest, by simp [htr], hin, hout⟩

@[simp] theorem actual_idle_assert_failures_append (l r : List Call) :
    actual_idle_assert_failures (l ++ r)
      = actual_idle_assert_failures l + actual_idle_assert_failures r := by
  simp [actual_idle_assert_failures]

@[simp] theorem actual_idle_assert_failures_sleep_ladder (b : BuildConfig) (env : Env)
    (r s : Nat) (f : Frame) :
    actual_idle_assert_failures (sleep_ladder b env r s f).trace
      = actual_idle_assert_failures f.trace := by
  unfold sleep_ladder deepsleep_branch deepsleep_locked_route sleep_section sleep_branch
  cases DEEPSLEEP_LOCKED b <;> simp only [] <;> split_ifs <;>
    simp [call_tickless_sleep, call_tickless_deepsleep, actual_idle_assert_failures_append,
      query_deepsleep_mode_trace] <;>
    simp [actual_idle_assert_failures] <;> split_ifs <;> simp

@[simp] theorem actual_idle_assert_failures_epilogue (env : Env) (f : Frame) :
    actual_idle_assert_failures (epilogue env f).trace
      = actual_idle_assert_failures f.trace := by
  rw [epilogue_trace]; split_ifs <;> simp [actual_idle_assert_failures]

/-- The assertion of `step_tick` fails exactly when the elapsed time exceeds the
requested time. -/
theorem actual_idle_assert_failures_step_tick (b : BuildConfig) (x : Nat) {f : Frame}
    (hf : f.halted = false) :
    actual_idle_assert_failures (step_tick b x f).trace
      = actual_idle_assert_failures f.trace
        + (if f.actual_idle_ms > pdTICKS_TO_MS b x then 1 else 0) := by
  rw [step_tick_trace b x hf]
  split_ifs
  all_goals simp_all [actual_idle_assert_failures]
  all_goals omega

/-- What `lazy_lptimer_init` leaves when called at the entry. -/
theorem lazy_lptimer_init_entry (b : BuildConfig) (env : Env) (lp : LPTimerPtr) :
    (lazy_lptimer_init b env (entry_frame lp)).actual_idle_ms = 0 ∧
    (lazy_lptimer_init b env (entry_frame lp)).wfi_at_end = false ∧
    sleep_calls (lazy_lptimer_init b env (entry_frame lp)).trace = [] ∧
    deepsleep_calls (lazy_lptimer_init b env (entry_frame lp)).trace = [] ∧
    step_tick_calls (lazy_lptimer_init b env (entry_frame lp)).trace = [] ∧
    actual_idle_assert_failures (lazy_lptimer_init b env (entry_frame lp)).trace = 0 := by
  unfold lazy_lptimer_init CY_ASSERT
  simp only [Frame.call, entry_frame]
  split_ifs <;>
    simp [sleep_calls, deepsleep_calls, step_tick_calls, actual_idle_assert_failures]

/-- Every invocation either reaches `step_tick` from a frame `g` left by the ladder, in
which no `vTaskStepTick` call and no failure of the assertion on the elapsed time has
occurred yet, or ends with `actual_idle_ms = 0` and neither of them. -/
theorem vApplicationSleep_cases (b : BuildConfig) (env : Env) (lp : LPTimerPtr) (x : Nat) :
    (∃ g : Frame, vApplicationSleep b env lp x = epilogue env (step_tick b x g) ∧
      g.halted = false ∧ step_tick_calls g.trace = [] ∧
      actual_idle_assert_failures g.trace = 0 ∧
      (sleep_calls g.trace = [] → deepsleep_calls g.trace = [] → g.actual_idle_ms = 0)) ∨
    ((vApplicationSleep b env lp x).actual_idle_ms = 0 ∧
      step_tick_calls (vApplicationSleep b env lp x).trace = [] ∧
      actual_idle_assert_failures (vApplicationSleep b env lp x).trace = 0) := by
  cases ht : _ABS_RTOS_TICKLESS_ENABLED b
  · right
    rw [vApplicationSleep_of_not_tickless b env lp x ht]
    simp [wfi_block, Frame.call, entry_frame, step_tick_calls, actual_idle_assert_failures]
  · obtain ⟨ha, hw, hsc, hdc, hst, haf⟩ := lazy_lptimer_init_entry b env lp
    rw [vApplicationSleep, if_pos ht]
    generalize lazy_lptimer_init b env (entry_frame lp) = f1 at ha hw hsc hdc hst haf
    cases hh : f1.halted
    · rw [run_of_not_halted _ hh, lptimer_check]
      split_ifs with hlp
      · rw [critical_section]
        split_ifs with hc
        · left
          refine ⟨sleep_ladder b env (pdTICKS_TO_MS b x) (cyabs_rtos_get_sleep_latency b)
            { (f1.call Call.critical_section_enter).call Call.eTaskConfirmSleepModeStatus with
              wfi_at_end := true }, rfl, ?_, ?_, ?_, ?_⟩
          · rw [sleep_ladder_halted]; exact hh
          · rw [step_tick_calls_sleep_ladder]
            simp only [Frame.call, step_tick_calls_append, hst]
            rfl
          · rw [actual_idle_assert_failures_sleep_ladder]
            simp only [Frame.call, actual_idle_assert_failures_append, haf]
            rfl
          · intro h1 h2
            have hno := sleep_ladder_of_no_attempt b env (pdTICKS_TO_MS b x)
              (cyabs_rtos_get_sleep_latency b)
              { (f1.call Call.critical_section_enter).call Call.eTaskConfirmSleepModeStatus with
                wfi_at_end := true }
              (by rw [h1]; simp only [Frame.call, sleep_calls_append, hsc]; rfl)
              (by rw [h2]; simp only [Frame.call, deepsleep_calls_append, hdc]; rfl)
            rw [hno.1]
            exact ha
        · right
          have hh2 : ((f1.call Call.critical_section_enter).call
              Call.eTaskConfirmSleepModeStatus).halted = false := hh
          have hh3 : (((f1.call Call.critical_section_enter).call
              Call.eTaskConfirmSleepModeStatus).call
              (Call.critical_section_exit env.critical_section_enter)).halted = false := hh
          rw [run_of_not_halted _ hh2, run_of_not_halted _ hh3, wfi_if_at_end,
            if_neg (by simp [Frame.call, hw])]
          refine ⟨ha, ?_, ?_⟩
          · simp only [Frame.call, step_tick_calls_append, hst]
            rfl
          · simp only [Frame.call, actual_idle_assert_failures_append, haf]
            rfl
      · right
        have hh3 : ({ f1 with wfi_at_end := true } : Frame).halted = false := hh
        rw [run_of_not_halted _ hh3, wfi_if_at_end, if_pos rfl]
        refine ⟨ha, ?_, ?_⟩
        · simp only [wfi_block, Frame.call, step_tick_calls_append, hst]
          rfl
        · simp only [wfi_block, Frame.call, actual_idle_assert_failures_append, haf]
          rfl
    · right
      rw [run_of_halted _ hh, run_of_halted _ hh]
      exact ⟨ha, hst, haf⟩

/-! ### A call made before the entry stays at the head of the trace -/

theorem call_prepend (c d : Call) (f : Frame) :
    (f.prepend c).call d = (f.call d).prepend c := rfl

theorem run_prepend (c : Call) (f : Frame) (k : Frame → Frame)
    (hk : ∀ g : Frame, k (g.prepend c) = (k g).prepend c) :
    (f.prepend c).run k = (f.run k).prepend c := by
  unfold Frame.run
  have h : (f.prepend c).halted = f.halted := rfl
  rw [h]
  split_ifs
  · rfl
  · exact hk f

theorem CY_ASSERT_prepend (b : BuildConfig) (site : AssertSite) (cond : Bool) (c : Call)
    (f : Frame) : CY_ASSERT b site cond (f.prepend c) = (CY_ASSERT b site cond f).prepend c := by
  unfold CY_ASSERT
  split_ifs <;> rfl

theorem call_tickless_deepsleep_prepend (env : Env) (d : Nat) (c : Call) (f : Frame) :
    call_tickless_deepsleep env d (f.prepend c)
      = (call_tickless_deepsleep env d f).prepend c := rfl

theorem call_tickless_sleep_prepend (env : Env) (d : Nat) (c : Call) (f : Frame) :
    call_tickless_sleep env d (f.prepend c) = (call_tickless_sleep env d f).prepend c := rfl

theorem deepsleep_locked_route_prepend (b : BuildConfig) (env : Env) (r s : Nat) (c : Call)
    (f : Frame) :
    deepsleep_locked_route b env r s (f.prepend c)
      = (deepsleep_locked_route b env r s f).prepend c := by
  unfold deepsleep_locked_route
  have h : (f.prepend c).result = f.result := rfl
  split
  · rw [h]
    split_ifs <;> rfl
  · rfl

theorem sleep_section_prepend (b : BuildConfig) (env : Env) (r s : Nat) (c : Call)
    (f : Frame) :
    sleep_section b env r s (f.prepend c) = (sleep_section b env r s f).prepend c := by
  unfold sleep_section sleep_branch
  split_ifs <;> rfl

theorem query_deepsleep_mode_prepend (b : BuildConfig) (c : Call) (f : Frame) :
    query_deepsleep_mode b (f.prepend c) = (query_deepsleep_mode b f).prepend c := by
  unfold query_deepsleep_mode
  split_ifs <;> rfl

theorem sleep_ladder_prepend (b : BuildConfig) (env : Env) (r s : Nat) (c : Call)
    (f : Frame) :
    sleep_ladder b env r s (f.prepend c) = (sleep_ladder b env r s f).prepend c := by
  unfold sleep_ladder deepsleep_branch
  rw [query_deepsleep_mode_prepend]
  split_ifs
  · have h : ({ (query_deepsleep_mode b f).prepend c with wfi_at_end := false } : Frame)
        = ({ query_deepsleep_mode b f with wfi_at_end := false } : Frame).prepend c := rfl
    rw [h, call_tickless_deepsleep_prepend, deepsleep_locked_route_prepend]
  · exact sleep_section_prepend b env r s c _
  · exact sleep_section_prepend b env r s c f

theorem step_tick_prepend (b : BuildConfig) (x : Nat) (c : Call) (f : Frame) :
    step_tick b x (f.prepend c) = (step_tick b x f).prepend c := by
  unfold step_tick
  have h : (f.prepend c).actual_idle_ms = f.actual_idle_ms := rfl
  rw [h]
  split_ifs
  · rw [CY_ASSERT_prepend, run_prepend]
    intro g
    rfl
  · rfl

theorem sleep_confirmed_prepend (b : BuildConfig) (env : Env) (x : Nat) (c : Call)
    (f : Frame) :
    sleep_confirmed b env x (f.prepend c) = (sleep_confirmed b env x f).prepend c := by
  unfold sleep_confirmed
  have h : ({ f.prepend c with wfi_at_end := true } : Frame)
      = ({ f with wfi_at_end := true } : Frame).prepend c := rfl
  rw [h, sleep_ladder_prepend, step_tick_prepend]

theorem critical_section_prepend (b : BuildConfig) (env : Env) (x : Nat) (c : Call)
    (f : Frame) :
    critical_section b env x (f.prepend c) = (critical_section b env x f).prepend c := by
  unfold critical_section
  rw [call_prepend, call_prepend, sleep_confirmed_prepend]
  split_ifs
  · exact run_prepend c _ _ (fun g => rfl)
  · exact run_prepend c _ _ (fun g => rfl)

theorem lptimer_check_prepend (b : BuildConfig) (env : Env) (x : Nat) (c : Call)
    (f : Frame) :
    lptimer_check b env x (f.prepend c) = (lptimer_check b env x f).prepend c := by
  unfold lptimer_check
  have h : (f.prepend c)._lptimer = f._lptimer := rfl
  rw [h, critical_section_prepend]
  split_ifs <;> rfl

theorem wfi_if_at_end_prepend (c : Call) (f : Frame) :
    wfi_if_at_end (f.prepend c) = (wfi_if_at_end f).prepend c := by
  unfold wfi_if_at_end
  have h : (f.prepend c).wfi_at_end = f.wfi_at_end := rfl
  rw [h]
  split_ifs <;> rfl

/-- HAL API below 3, tickless build, no timer registered and a successful
`cyhal_lptimer_init`: the invocation is the call of `cyhal_lptimer_init` followed by
the invocation with the static timer registered. -/
theorem vApplicationSleep_of_lazy_success (b : BuildConfig) (env : Env) (x : Nat)
    (ht : _ABS_RTOS_TICKLESS_ENABLED b = true) (hhal : HAL_API_GE_3 b = false)
    (hinit : env.cyhal_lptimer_init = CY_RSLT_SUCCESS) :
    vApplicationSleep b env LPTimerPtr.NULL x
      = (vApplicationSleep b env LPTimerPtr.static_timer x).prepend Call.lptimer_init := by
  have h1 : lazy_lptimer_init b env (entry_frame LPTimerPtr.NULL)
      = (entry_frame LPTimerPtr.static_timer).prepend Call.lptimer_init := by
    simp [lazy_lptimer_init, hhal, cyabs_rtos_get_lptimer, entry_frame, Frame.call, hinit,
      Frame.prepend]
  have h2 : lazy_lptimer_init b env (entry_frame LPTimerPtr.static_timer)
      = entry_frame LPTimerPtr.static_timer :=
    lazy_lptimer_init_of_registered b env (by simp [entry_frame])
  rw [vApplicationSleep, if_pos ht, h1, vApplicationSleep, if_pos ht, h2,
    run_prepend _ _ _ (lptimer_check_prepend b env x Call.lptimer_init),
    run_prepend _ _ _ (wfi_if_at_end_prepend Call.lptimer_init)]

/-! ### The lazy construction and the registered timer -/

theorem lazy_lptimer_init_of_hal3 (b : BuildConfig) (env : Env) (f : Frame)
    (hhal : HAL_API_GE_3 b = true) : lazy_lptimer_init b env f = f := by
  simp [lazy_lptimer_init, hhal]

theorem lazy_lptimer_init_of_success (b : BuildConfig) (env : Env)
    (hhal : HAL_API_GE_3 b = false) (hinit : env.cyhal_lptimer_init = CY_RSLT_SUCCESS) :
    lazy_lptimer_init b env (entry_frame LPTimerPtr.NULL)
      = (entry_frame LPTimerPtr.static_timer).prepend Call.lptimer_init := by
  simp [lazy_lptimer_init, hhal, cyabs_rtos_get_lptimer, entry_frame, Frame.call, hinit,
    Frame.prepend]

theorem lazy_lptimer_init_of_failure (b : BuildConfig) (env : Env)
    (hhal : HAL_API_GE_3 b = false) (hinit : env.cyhal_lptimer_init ≠ CY_RSLT_SUCCESS) :
    lazy_lptimer_init b env (entry_frame LPTimerPtr.NULL)
      = { _lptimer := LPTimerPtr.NULL, actual_idle_ms := 0, result := env.cyhal_lptimer_init,
          wfi_at_end := false,
          trace := [Call.lptimer_init, Call.CY_ASSERT_failed AssertSite.lptimer_init],
          halted := b.CY_ASSERT_halts } := by
  simp [lazy_lptimer_init, hhal, cyabs_rtos_get_lptimer, entry_frame, Frame.call, hinit,
    CY_ASSERT]

@[simp] theorem call_tickless_sleep_lptimer (env : Env) (d : Nat) (f : Frame) :
    (call_tickless_sleep env d f)._lptimer = f._lptimer := rfl

@[simp] theorem call_tickless_deepsleep_lptimer (env : Env) (d : Nat) (f : Frame) :
    (call_tickless_deepsleep env d f)._lptimer = f._lptimer := rfl

@[simp] theorem sleep_ladder_lptimer (b : BuildConfig) (env : Env) (r s : Nat) (f : Frame) :
    (sleep_ladder b env r s f)._lptimer = f._lptimer := by
  unfold sleep_ladder deepsleep_branch deepsleep_locked_route sleep_section sleep_branch
  cases DEEPSLEEP_LOCKED b <;> simp only [] <;> split_ifs <;> simp

@[simp] theorem step_tick_lptimer (b : BuildConfig) (x : Nat) (f : Frame) :
    (step_tick b x f)._lptimer = f._lptimer := by
  unfold step_tick CY_ASSERT Frame.run Frame.call
  split_ifs <;> rfl

@[simp] theorem run_call_lptimer (f : Frame) (c : Call) :
    (f.run fun g => g.call c)._lptimer = f._lptimer := by
  unfold Frame.run Frame.call
  split_ifs <;> rfl

@[simp] theorem critical_section_lptimer (b : BuildConfig) (env : Env) (x : Nat) (f : Frame) :
    (critical_section b env x f)._lptimer = f._lptimer := by
  unfold critical_section
  rw [run_call_lptimer]
  split_ifs
  · simp [sleep_confirmed, Frame.call]
  · rfl

@[simp] theorem lptimer_check_lptimer (b : BuildConfig) (env : Env) (x : Nat) (f : Frame) :
    (lptimer_check b env x f)._lptimer = f._lptimer := by
  unfold lptimer_check
  split_ifs
  · exact critical_section_lptimer b env x f
  · rfl

@[simp] theorem wfi_if_at_end_lptimer (f : Frame) : (wfi_if_at_end f)._lptimer = f._lptimer := by
  unfold wfi_if_at_end wfi_block Frame.call
  split_ifs <;> rfl

/-- The only statement of `vApplicationSleep` that assigns `_lptimer` is the lazy
construction. -/
theorem vApplicationSleep_lptimer (b : BuildConfig) (env : Env) (lp : LPTimerPtr) (x : Nat) :
    (vApplicationSleep b env lp x)._lptimer
      = if _ABS_RTOS_TICKLESS_ENABLED b then
          (lazy_lptimer_init b env (entry_frame lp))._lptimer
        else lp := by
  unfold vApplicationSleep
  split_ifs
  · generalize lazy_lptimer_init b env (entry_frame lp) = f1
    unfold Frame.run
    split_ifs <;> simp
  · rfl

/-- Without a timer at line 352 the rest of the function is `wfi_at_end = true` and the
wait-for-interrupt. -/
theorem vApplicationSleep_of_no_lptimer (b : BuildConfig) (env : Env) (lp : LPTimerPtr)
    (x : Nat) (ht : _ABS_RTOS_TICKLESS_ENABLED b = true)
    (hh : (lazy_lptimer_init b env (entry_frame lp)).halted = false)
    (hnull : (lazy_lptimer_init b env (entry_frame lp))._lptimer = LPTimerPtr.NULL) :
    vApplicationSleep b env lp x
      = wfi_block { lazy_lptimer_init b env (entry_frame lp) with wfi_at_end := true } := by
  rw [vApplicationSleep, if_pos ht, run_of_not_halted _ hh, lptimer_check,
    if_neg (by simp [cyabs_rtos_get_lptimer, hnull])]
  have h2 : ({ lazy_lptimer_init b env (entry_frame lp) with wfi_at_end := true } :
      Frame).halted = false := hh
  rw [run_of_not_halted _ h2, wfi_if_at_end, if_pos rfl]

/-- The calls of the lazy construction. -/
theorem lazy_lptimer_init_trace (b : BuildConfig) (env : Env) (lp : LPTimerPtr) :
    (lazy_lptimer_init b env (entry_frame lp)).trace = [] ∨
    (lazy_lptimer_init b env (entry_frame lp)).trace = [Call.lptimer_init] ∨
    (lazy_lptimer_init b env (entry_frame lp)).trace
      = [Call.lptimer_init, Call.CY_ASSERT_failed AssertSite.lptimer_init] := by
  unfold lazy_lptimer_init CY_ASSERT
  simp only [Frame.call, entry_frame]
  split_ifs <;> simp

/-! ### The registration interface -/

theorem lptimer_ops_of_all_get (st : LPTimerPtr) (ops : List LptimerOp)
    (h : ops.all (fun op => decide (op = LptimerOp.get)) = true) : lptimer_ops st ops = st := by
  induction ops generalizing st with
  | nil => rfl
  | cons op ops ih =>
    rw [List.all_cons, Bool.and_eq_true] at h
    have hop : op = LptimerOp.get := of_decide_eq_true h.1
    subst hop
    exact ih st h.2

theorem lptimer_ops_of_some_set (st st2 : LPTimerPtr) (ops : List LptimerOp)
    (h : ops.all (fun op => decide (op = LptimerOp.get)) = false) :
    lptimer_ops st ops = lptimer_ops st2 ops := by
  induction ops generalizing st st2 with
  | nil => simp at h
  | cons op ops ih =>
    cases op with
    | set timer => rfl
    | get =>
      have h2 : ops.all (fun op => decide (op = LptimerOp.get)) = false := by
        simpa using h
      exact ih st st2 h2

theorem lptimer_ops_eq_last_registered (ops : List LptimerOp) :
    lptimer_ops LPTimerPtr.NULL ops = last_registered ops := by
  induction ops with
  | nil => rfl
  | cons op ops ih =>
    cases op with
    | get => exact ih
    | set timer =>
      unfold last_registered
      split_ifs with h
      · exact lptimer_ops_of_all_get timer ops h
      · rw [← ih]
        exact lptimer_ops_of_some_set _ _ ops (by simpa using h)

/-! ### The local `result` is read by the `DEEPSLEEP_LOCKED` test only -/

theorem set_result_self (f : Frame) : f.set_result f.result = f := rfl

theorem run_set_result (r : Nat) (f : Frame) (k : Frame → Frame)
    (hk : ∀ g : Frame, k (g.set_result r) = (k g).set_result r) :
    (f.set_result r).run k = (f.run k).set_result r := by
  unfold Frame.run
  have h : (f.set_result r).halted = f.halted := rfl
  rw [h]
  split_ifs
  · rfl
  · exact hk f

theorem step_tick_set_result (b : BuildConfig) (x r : Nat) (f : Frame) :
    step_tick b x (f.set_result r) = (step_tick b x f).set_result r := by
  unfold step_tick
  have h : (f.set_result r).actual_idle_ms = f.actual_idle_ms := rfl
  rw [h]
  split_ifs
  · have hc : ∀ c, CY_ASSERT b AssertSite.actual_idle c (f.set_result r)
        = (CY_ASSERT b AssertSite.actual_idle c f).set_result r := by
      intro c
      unfold CY_ASSERT
      split_ifs <;> rfl
    rw [hc, run_set_result]
    intro g
    rfl
  · rfl

theorem wfi_if_at_end_set_result (r : Nat) (f : Frame) :
    wfi_if_at_end (f.set_result r) = (wfi_if_at_end f).set_result r := by
  unfold wfi_if_at_end
  have h : (f.set_result r).wfi_at_end = f.wfi_at_end := rfl
  rw [h]
  split_ifs <;> rfl

/-- Without the DeepSleep branch the statuses returned by the tickless functions reach
the local `result` only. -/
theorem sleep_ladder_with_status (b : BuildConfig) (env : Env)
    (sd ss : LPTimerPtr → Nat → Nat → Nat) (r s : Nat) (f : Frame)
    (hds : _ABS_RTOS_DEEPSLEEP_ENABLED b = false) :
    ∃ res, sleep_ladder b (env.with_status sd ss) r s f
      = (sleep_ladder b env r s f).set_result res := by
  unfold sleep_ladder sleep_section sleep_branch
  rw [hds]
  simp only [Bool.false_eq_true, if_false]
  split_ifs
  · exact ⟨ss (cyabs_rtos_get_lptimer f._lptimer) (u32_sub r s) f.actual_idle_ms, rfl⟩
  · exact ⟨f.result, rfl⟩
  · exact ⟨f.result, rfl⟩

theorem critical_section_with_status (b : BuildConfig) (env : Env)
    (sd ss : LPTimerPtr → Nat → Nat → Nat) (x : Nat) (f : Frame)
    (hds : _ABS_RTOS_DEEPSLEEP_ENABLED b = false) :
    ∃ res, critical_section b (env.with_status sd ss) x f
      = (critical_section b env x f).set_result res := by
  unfold critical_section
  have h1 : (env.with_status sd ss).eTaskConfirmSleepModeStatus
      = env.eTaskConfirmSleepModeStatus := rfl
  have h2 : (env.with_status sd ss).critical_section_enter = env.critical_section_enter := rfl
  rw [h1, h2]
  split_ifs
  · obtain ⟨res, hres⟩ := sleep_ladder_with_status b env sd ss (pdTICKS_TO_MS b x)
      (cyabs_rtos_get_sleep_latency b)
      { (f.call Call.critical_section_enter).call Call.eTaskConfirmSleepModeStatus with
        wfi_at_end := true } hds
    refine ⟨res, ?_⟩
    unfold sleep_confirmed
    rw [hres, step_tick_set_result, run_set_result]
    intro g
    rfl
  · exact ⟨_, (set_result_self _).symm⟩

/-- In a build without the DeepSleep branch, replacing the statuses returned by the
tickless functions changes nothing but the local `result`. -/
theorem vApplicationSleep_with_status (b : BuildConfig) (env : Env)
    (sd ss : LPTimerPtr → Nat → Nat → Nat) (lp : LPTimerPtr) (x : Nat)
    (hds : _ABS_RTOS_DEEPSLEEP_ENABLED b = false) :
    ∃ res, vApplicationSleep b (env.with_status sd ss) lp x
      = (vApplicationSleep b env lp x).set_result res := by
  unfold vApplicationSleep
  split_ifs
  · have h1 : lazy_lptimer_init b (env.with_status sd ss) (entry_frame lp)
        = lazy_lptimer_init b env (entry_frame lp) := rfl
    rw [h1]
    generalize lazy_lptimer_init b env (entry_frame lp) = f1
    cases hh : f1.halted
    · rw [run_of_not_halted _ hh, run_of_not_halted _ hh]
      unfold lptimer_check
      split_ifs
      · obtain ⟨res, hres⟩ := critical_section_with_status b env sd ss x f1 hds
        refine ⟨res, ?_⟩
        rw [hres, run_set_result]
        exact wfi_if_at_end_set_result res
      · exact ⟨_, (set_result_self _).symm⟩
    · rw [run_of_halted _ hh, run_of_halted _ hh, run_of_halted _ hh, run_of_halted _ hh]
      exact ⟨_, (set_result_self _).symm⟩
  · exact ⟨_, (set_result_self _).symm⟩

/-! ### The shape of every invocation -/

/-- The five ways through `vApplicationSleep`: no tickless support; stopped by the
assertion of the lazy construction; no timer at line 352; sleep aborted by the
scheduler; sleep confirmed. -/
theorem vApplicationSleep_shape (b : BuildConfig) (env : Env) (lp : LPTimerPtr) (x : Nat) :
    (_ABS_RTOS_TICKLESS_ENABLED b = false ∧
      vApplicationSleep b env lp x = wfi_block (entry_frame lp)) ∨
    (_ABS_RTOS_TICKLESS_ENABLED b = true ∧
      (lazy_lptimer_init b env (entry_frame lp)).halted = true ∧
      vApplicationSleep b env lp x = lazy_lptimer_init b env (entry_frame lp)) ∨
    (_ABS_RTOS_TICKLESS_ENABLED b = true ∧
      (lazy_lptimer_init b env (entry_frame lp)).halted = false ∧
      (lazy_lptimer_init b env (entry_frame lp))._lptimer = LPTimerPtr.NULL ∧
      vApplicationSleep b env lp x
        = wfi_block { lazy_lptimer_init b env (entry_frame lp) with wfi_at_end := true }) ∨
    (_ABS_RTOS_TICKLESS_ENABLED b = true ∧
      (lazy_lptimer_init b env (entry_frame lp)).halted = false ∧
      (lazy_lptimer_init b env (entry_frame lp))._lptimer ≠ LPTimerPtr.NULL ∧
      env.eTaskConfirmSleepModeStatus = eSleepModeStatus.eAbortSleep ∧
      vApplicationSleep b env lp x
        = (((lazy_lptimer_init b env (entry_frame lp)).call Call.critical_section_enter).call
            Call.eTaskConfirmSleepModeStatus).call
            (Call.critical_section_exit env.critical_section_enter)) ∨
    (_ABS_RTOS_TICKLESS_ENABLED b = true ∧
      (lazy_lptimer_init b env (entry_frame lp)).halted = false ∧
      (lazy_lptimer_init b env (entry_frame lp))._lptimer ≠ LPTimerPtr.NULL ∧
      env.eTaskConfirmSleepModeStatus ≠ eSleepModeStatus.eAbortSleep ∧
      vApplicationSleep b env lp x
        = epilogue env (step_tick b x (sleep_ladder b env (pdTICKS_TO_MS b x)
            (cyabs_rtos_get_sleep_latency b)
            { ((lazy_lptimer_init b env (entry_frame lp)).call
                Call.critical_section_enter).call Call.eTaskConfirmSleepModeStatus with
              wfi_at_end := true }))) := by
  cases ht : _ABS_RTOS_TICKLESS_ENABLED b
  · left
    exact ⟨rfl, vApplicationSleep_of_not_tickless b env lp x ht⟩
  · right
    obtain ⟨_, hw, _, _, _, _⟩ := lazy_lptimer_init_entry b env lp
    cases hh : (lazy_lptimer_init b env (entry_frame lp)).halted
    · right
      by_cases hnull : (lazy_lptimer_init b env (entry_frame lp))._lptimer = LPTimerPtr.NULL
      · left
        exact ⟨rfl, rfl, hnull, vApplicationSleep_of_no_lptimer b env lp x ht hh hnull⟩
      · right
        have hcheck : LPTimerPtr.NULL
            ≠ cyabs_rtos_get_lptimer (lazy_lptimer_init b env (entry_frame lp))._lptimer :=
          fun h => hnull h.symm
        rw [vApplicationSleep, if_pos ht, run_of_not_halted _ hh, lptimer_check,
          if_pos hcheck, critical_section]
        by_cases hc : env.eTaskConfirmSleepModeStatus = eSleepModeStatus.eAbortSleep
        · left
          refine ⟨rfl, rfl, hnull, hc, ?_⟩
          rw [if_neg (not_not.mpr hc)]
          have hh2 : (((lazy_lptimer_init b env (entry_frame lp)).call
              Call.critical_section_enter).call Call.eTaskConfirmSleepModeStatus).halted
              = false := hh
          have hh3 : ((((lazy_lptimer_init b env (entry_frame lp)).call
              Call.critical_section_enter).call Call.eTaskConfirmSleepModeStatus).call
              (Call.critical_section_exit env.critical_section_enter)).halted = false := hh
          rw [run_of_not_halted _ hh2, run_of_not_halted _ hh3, wfi_if_at_end,
            if_neg (by simp [Frame.call, hw])]
        · right
          refine ⟨rfl, rfl, hnull, hc, ?_⟩
          rw [if_pos hc]
          rfl
    · left
      refine ⟨rfl, rfl, ?_⟩
      rw [vApplicationSleep, if_pos ht, run_of_halted _ hh, run_of_halted _ hh]

/-- An elapsed time after the ladder comes from an attempt, which has cleared
`wfi_at_end`. -/
theorem sleep_ladder_wfi_of_elapsed (b : BuildConfig) (env : Env) (r s : Nat) (f : Frame)
    (ha : f.actual_idle_ms = 0)
    (hne : (sleep_ladder b env r s f).actual_idle_ms ≠ 0) :
    (sleep_ladder b env r s f).wfi_at_end = false := by
  revert hne
  unfold sleep_ladder deepsleep_branch deepsleep_locked_route sleep_section sleep_branch
  cases DEEPSLEEP_LOCKED b <;> simp only [] <;> split_ifs <;>
    simp [call_tickless_sleep, call_tickless_deepsleep, ha]

theorem all_ladder_call_mode_calls (b : BuildConfig) :
    (deepsleep_mode_calls b).all Call.ladder_call = true := by
  unfold deepsleep_mode_calls
  split_ifs <;> rfl

theorem deepsleep_locked_route_adds (b : BuildConfig) (env : Env) (r s : Nat) (f : Frame) :
    ∃ l : List Call, (deepsleep_locked_route b env r s f).trace = f.trace ++ l ∧
      l.all Call.ladder_call = true := by
  unfold deepsleep_locked_route
  split
  · split_ifs
    · exact ⟨[_], rfl, rfl⟩
    · exact ⟨[], (List.append_nil _).symm, rfl⟩
    · exact ⟨[], (List.append_nil _).symm, rfl⟩
  · exact ⟨[], (List.append_nil _).symm, rfl⟩

theorem sleep_section_adds (b : BuildConfig) (env : Env) (r s : Nat) (f : Frame) :
    ∃ l : List Call, (sleep_section b env r s f).trace = f.trace ++ l ∧
      l.all Call.ladder_call = true := by
  unfold sleep_section sleep_branch
  split_ifs
  · exact ⟨[_], rfl, rfl⟩
  · exact ⟨[], (List.append_nil _).symm, rfl⟩
  · exact ⟨[], (List.append_nil _).symm, rfl⟩

/-- What the ladder adds to the trace: calls of the mode query and of the two tickless
functions. -/
theorem sleep_ladder_adds (b : BuildConfig) (env : Env) (r s : Nat) (f : Frame) :
    ∃ l : List Call, (sleep_ladder b env r s f).trace = f.trace ++ l ∧
      l.all Call.ladder_call = true := by
  unfold sleep_ladder deepsleep_branch
  split_ifs
  · obtain ⟨l, hl, hall⟩ := deepsleep_locked_route_adds b env r s
      (call_tickless_deepsleep env
        (u32_sub r (cyabs_rtos_get_deepsleep_latency b env.syspm_get_deepsleep_mode))
        { query_deepsleep_mode b f with wfi_at_end := false })
    refine ⟨deepsleep_mode_calls b ++ (Call.syspm_tickless_deepsleep
      (cyabs_rtos_get_lptimer f._lptimer)
      (u32_sub r (cyabs_rtos_get_deepsleep_latency b env.syspm_get_deepsleep_mode)) :: l),
      ?_, ?_⟩
    · rw [hl]
      simp [call_tickless_deepsleep, query_deepsleep_mode_trace, deepsleep_mode_calls]
    · rw [List.all_append, all_ladder_call_mode_calls, List.all_cons, hall]
      rfl
  · obtain ⟨l, hl, hall⟩ := sleep_section_adds b env r s (query_deepsleep_mode b f)
    refine ⟨deepsleep_mode_calls b ++ l, ?_, ?_⟩
    · rw [hl]
      simp [query_deepsleep_mode_trace, deepsleep_mode_calls]
    · rw [List.all_append, all_ladder_call_mode_calls, hall]
      rfl
  · exact sleep_section_adds b env r s f

theorem ladder_call_facts {c : Call} (h : c.ladder_call = true) :
    c ≠ Call.critical_section_enter ∧ c.leaves_section = false ∧ c ≠ Call.WFI := by
  cases c <;> simp_all [Call.ladder_call, Call.leaves_section]

/-! ### Counting the enters and the exits of a trace -/

theorem enter_count_of_bracketed {token : Nat} {tr : List Call}
    (h : critical_section_bracketed token tr) : enter_count tr = 1 ∧ exit_count tr = 1 := by
  obtain ⟨pre, mid, post, htr, hout, hmid⟩ := h
  have hpre : ∀ c ∈ pre, c ≠ Call.critical_section_enter ∧ c.leaves_section = false :=
    fun c hc => ⟨(hout c (List.mem_append_left _ hc)).1, (hout c (List.mem_append_left _ hc)).2.1⟩
  have hpost : ∀ c ∈ post, c ≠ Call.critical_section_enter ∧ c.leaves_section = false :=
    fun c hc =>
      ⟨(hout c (List.mem_append_right _ hc)).1, (hout c (List.mem_append_right _ hc)).2.1⟩
  have e1 : List.count Call.critical_section_enter pre = 0 :=
    List.count_eq_zero.mpr (fun hc => (hpre _ hc).1 rfl)
  have e2 : List.count Call.critical_section_enter mid = 0 :=
    List.count_eq_zero.mpr (fun hc => (hmid _ hc).1 rfl)
  have e3 : List.count Call.critical_section_enter post = 0 :=
    List.count_eq_zero.mpr (fun hc => (hpost _ hc).1 rfl)
  have x1 : List.countP Call.leaves_section pre = 0 :=
    List.countP_eq_zero.mpr (fun c hc => by simp [(hpre c hc).2])
  have x2 : List.countP Call.leaves_section mid = 0 :=
    List.countP_eq_zero.mpr (fun c hc => by simp [(hmid c hc).2])
  have x3 : List.countP Call.leaves_section post = 0 :=
    List.countP_eq_zero.mpr (fun c hc => by simp [(hpost c hc).2])
  subst htr
  constructor
  · simp [enter_count, List.count_append, List.count_cons, e1, e2, e3]
  · simp [exit_count, List.countP_append, List.countP_cons, x1, x2, x3, Call.leaves_section]

theorem enter_count_of_open {tr : List Call}
    (h : critical_section_open tr) : enter_count tr = 1 ∧ exit_count tr = 0 := by
  obtain ⟨pre, mid, htr, hpre, hmid⟩ := h
  have e1 : List.count Call.critical_section_enter pre = 0 :=
    List.count_eq_zero.mpr (fun hc => (hpre _ hc).1 rfl)
  have e2 : List.count Call.critical_section_enter mid = 0 :=
    List.count_eq_zero.mpr (fun hc => (hmid _ hc).1 rfl)
  have x1 : List.countP Call.leaves_section pre = 0 :=
    List.countP_eq_zero.mpr (fun c hc => by simp [(hpre c hc).2.1])
  have x2 : List.countP Call.leaves_section mid = 0 :=
    List.countP_eq_zero.mpr (fun c hc => by simp [(hmid c hc).2])
  subst htr
  constructor
  · simp [enter_count, List.count_append, List.count_cons, e1, e2]
  · simp [exit_count, List.countP_append, List.countP_cons, x1, x2, Call.leaves_section]

/-- The calls of the lazy construction need no critical section. -/
theorem lazy_lptimer_init_outside (b : BuildConfig) (env : Env) (lp : LPTimerPtr) :
    ∀ c ∈ (lazy_lptimer_init b env (entry_frame lp)).trace,
      c ≠ Call.critical_section_enter ∧ c.leaves_section = false ∧
      c.needs_section = false ∧ c ≠ Call.WFI := by
  intro c hc
  rcases lazy_lptimer_init_trace b env lp with h | h | h <;> rw [h] at hc
  · simp at hc
  · simp at hc; subst hc; simp [Call.leaves_section, Call.needs_section]
  · simp at hc
    rcases hc with hc | hc <;> subst hc <;> simp [Call.leaves_section, Call.needs_section]

/-- The calls that `step_tick` adds are neither an enter nor an exit. -/
theorem step_tick_adds (b : BuildConfig) (x : Nat) {f : Frame} (hf : f.halted = false) :
    ∃ l : List Call, (step_tick b x f).trace = f.trace ++ l ∧
      ∀ c ∈ l, c ≠ Call.critical_section_enter ∧ c.leaves_section = false := by
  refine ⟨_, step_tick_trace b x hf, ?_⟩
  intro c hc
  split_ifs at hc <;> simp at hc
  · subst hc; simp [Call.leaves_section]
  · subst hc; simp [Call.leaves_section]
  · rcases hc with hc | hc <;> subst hc <;> simp [Call.leaves_section]

/-! ### The body under given idle-mode macros -/

/-- At the macros of lines 48-57 the body is `vApplicationSleep`. -/
theorem vApplicationSleep_under_idle_macros (b : BuildConfig) (env : Env) (lp : LPTimerPtr)
    (x : Nat) : vApplicationSleep_under (idle_macros b) b env lp x = vApplicationSleep b env lp x :=
  rfl

theorem pdTICKS_TO_MS_of_lt (b : BuildConfig) {x : Nat} (hx : x < 2 ^ 32) :
    pdTICKS_TO_MS b x = (x * 1000 % 2 ^ 32) / b.configTICK_RATE_HZ := by
  unfold pdTICKS_TO_MS
  rw [u32_of_lt hx]
  rfl

theorem pdTICKS_TO_MS_of_no_wrap (b : BuildConfig) {x : Nat} (hx : x * 1000 < 2 ^ 32) :
    pdTICKS_TO_MS b x = x * 1000 / b.configTICK_RATE_HZ := by
  have hx2 : x < 2 ^ 32 := by omega
  rw [pdTICKS_TO_MS_of_lt b hx2, Nat.mod_eq_of_lt hx]

/-! ### The RAM-retention sequences -/

theorem count_map_in_hook {c : DsramCall} (hc : ∀ i, c ≠ DsramCall.in_hook i)
    (l : List HookInstr) : (l.map DsramCall.in_hook).count c = 0 := by
  refine List.count_eq_zero.mpr (fun h => ?_)
  obtain ⟨i, _, hi⟩ := List.mem_map.mp h
  exact hc i hi.symm

theorem Cy_SysPm_StoreDSContext_Wfi_trace (hook : DsramHook) (m : DsramMachine) :
    (Cy_SysPm_StoreDSContext_Wfi hook (dsram_entry m)).trace
      = [DsramCall.System_Store_NVIC_Reg, DsramCall.Cy_SysLib_ClearDSRAMWarmBootEntryStatus,
          DsramCall.vStoreDSRAMContextWithWFI]
        ++ (hook (machine_at_store_hook m)).2.map DsramCall.in_hook
        ++ [DsramCall.System_Restore_NVIC_Reg] := by
  simp [Cy_SysPm_StoreDSContext_Wfi, System_Store_NVIC_Reg, System_Restore_NVIC_Reg,
    Cy_SysLib_ClearDSRAMWarmBootEntryStatus, DsramState.call, DsramState.hook, dsram_entry,
    machine_at_store_hook]

theorem cyabs_rtos_exit_dsram_trace (setup : DsramMachine → DsramMachine) (hook : DsramHook)
    (m : DsramMachine) :
    (cyabs_rtos_exit_dsram setup hook (dsram_entry m)).trace
      = [DsramCall.vPortSetupTimerInterrupt, DsramCall.vRestoreDSRAMContext]
        ++ (hook (setup m)).2.map DsramCall.in_hook := by
  simp [cyabs_rtos_exit_dsram, DsramState.call, DsramState.hook, dsram_entry]

/-! ### Bits -/

theorem and_eq_left_iff_testBit (a b : Nat) :
    a &&& b = a ↔ ∀ i, a.testBit i = true → b.testBit i = true := by
  constructor
  · intro h i hi
    have := congrArg (fun n => Nat.testBit n i) h
    simp only [Nat.testBit_and, hi, Bool.true_and] at this
    exact this
  · intro h
    apply Nat.eq_of_testBit_eq
    intro i
    rw [Nat.testBit_and]
    cases hi : a.testBit i
    · rfl
    · rw [h i hi]
      rfl

theorem and_pos_iff_testBit (a b : Nat) :
    a &&& b > 0 ↔ ∃ i, a.testBit i = true ∧ b.testBit i = true := by
  constructor
  · intro h
    obtain ⟨i, hi⟩ := Nat.ne_zero_implies_bit_true (Nat.pos_iff_ne_zero.mp h)
    rw [Nat.testBit_and, Bool.and_eq_true] at hi
    exact ⟨i, hi⟩
  · rintro ⟨i, ha, hb⟩
    apply Nat.pos_of_ne_zero
    intro h0
    have := congrArg (fun n => Nat.testBit n i) h0
    simp [Nat.testBit_and, ha, hb] at this

/-! ### The stack depth -/

theorem stack_deapth_of_no_wrap (p : FreeRtosPort) {stack_size : Nat}
    (h : stack_size + (p.sizeof_StackType_t - 1) < 2 ^ 32) :
    stack_deapth p stack_size
      = (stack_size + (p.sizeof_StackType_t - 1)) / p.sizeof_StackType_t := by
  have hpow : (2 : Nat) ^ 32 ≤ 2 ^ (max 32 p.size_t_bits) :=
    Nat.pow_le_pow_right (by norm_num) (le_max_left _ _)
  unfold stack_deapth
  rw [Nat.mod_eq_of_lt (lt_of_lt_of_le h hpow)]
  exact u32_of_lt (lt_of_le_of_lt (Nat.div_le_self _ _) h)

/-! ### The WICED semaphore -/

theorem cy_rtos_semaphore_set_cases (env : WicedEnv) (s : cy_semaphore_t)
    (hobj : s.semaphore ≠ none) :
    (s.count ≥ s.max_count ∧
      cy_rtos_semaphore_set env (some s) = (cy_rslt_t.CY_RTOS_GENERAL_ERROR, some s, [])) ∨
    (s.count < s.max_count ∧
      convert_return_type (env.wiced_rtos_set_semaphore s.semaphore)
        = cy_rslt_t.CY_RSLT_SUCCESS ∧
      cy_rtos_semaphore_set env (some s)
        = (cy_rslt_t.CY_RSLT_SUCCESS, some { s with count := u32 (s.count + 1) },
            [WicedCall.wiced_rtos_set_semaphore s.semaphore])) ∨
    (s.count < s.max_count ∧
      convert_return_type (env.wiced_rtos_set_semaphore s.semaphore)
        ≠ cy_rslt_t.CY_RSLT_SUCCESS ∧
      cy_rtos_semaphore_set env (some s)
        = (cy_rslt_t.CY_RTOS_GENERAL_ERROR, some s,
            [WicedCall.wiced_rtos_set_semaphore s.semaphore])) := by
  simp only [cy_rtos_semaphore_set, if_neg hobj]
  by_cases h1 : s.count ≥ s.max_count
  · left
    exact ⟨h1, if_pos h1⟩
  · right
    rw [if_neg h1]
    by_cases h2 : cy_rslt_t.CY_RSLT_SUCCESS
        = convert_return_type (env.wiced_rtos_set_semaphore s.semaphore)
    · left
      exact ⟨not_le.mp h1, h2.symm, if_pos h2⟩
    · right
      exact ⟨not_le.mp h1, fun h => h2 h.symm, if_neg h2⟩

theorem cy_rtos_semaphore_get_cases (env : WicedEnv) (s : cy_semaphore_t) (timeout_ms : Nat)
    (hobj : s.semaphore ≠ none) :
    (cy_rtos_semaphore_get env (some s) timeout_ms
        = (cy_rslt_t.CY_RSLT_SUCCESS, some { s with count := u32_sub s.count 1 },
            [WicedCall.wiced_rtos_get_semaphore s.semaphore timeout_ms])) ∨
    ((cy_rtos_semaphore_get env (some s) timeout_ms).1 ≠ cy_rslt_t.CY_RSLT_SUCCESS ∧
      (cy_rtos_semaphore_get env (some s) timeout_ms).2
        = (some s, [WicedCall.wiced_rtos_get_semaphore s.semaphore timeout_ms])) := by
  simp only [cy_rtos_semaphore_get, if_neg hobj]
  by_cases h1 : wiced_result_t.WICED_NO_INSTANCE
      = env.wiced_rtos_get_semaphore s.semaphore timeout_ms
  · right
    rw [if_pos h1]
    exact ⟨(fun h => by cases h), rfl⟩
  · rw [if_neg h1]
    by_cases h2 : cy_rslt_t.CY_RSLT_SUCCESS
        = convert_return_type (env.wiced_rtos_get_semaphore s.semaphore timeout_ms)
    · left
      rw [if_pos h2]
    · right
      rw [if_neg h2]
      exact ⟨fun h => h2 h.symm, rfl⟩

/-! ### The final wait-for-interrupt in a tickless build -/

/-- C1: for every expected idle time and every build configuration, when a timer is
registered and `eTaskConfirmSleepModeStatus()` returns `eAbortSleep`, the invocation
makes no tickless sleep call, no tickless deep-sleep call and no `vTaskStepTick` call. -/
theorem abort_sleep_makes_no_attempt (b : BuildConfig) (env : Env) (lp : LPTimerPtr)
    (xExpectedIdleTime : Nat) (hlp : lp ≠ LPTimerPtr.NULL)
    (hab : env.eTaskConfirmSleepModeStatus = eSleepModeStatus.eAbortSleep) :
    sleep_calls (vApplicationSleep b env lp xExpectedIdleTime).trace = [] ∧
    deepsleep_calls (vApplicationSleep b env lp xExpectedIdleTime).trace = [] ∧
    step_tick_calls (vApplicationSleep b env lp xExpectedIdleTime).trace = [] := by
  cases ht : _ABS_RTOS_TICKLESS_ENABLED b
  · rw [vApplicationSleep_of_not_tickless b env lp _ ht]
    simp [wfi_block, Frame.call, entry_frame, sleep_calls, deepsleep_calls, step_tick_calls]
  · rw [vApplicationSleep_of_abort b env _ ht hlp hab]
    simp [sleep_calls, deepsleep_calls, step_tick_calls]

/-- Witness of C1: the DeepSleep build, 500 ticks of expected idle time, a registered
timer and a scheduler that aborts the sleep. -/
theorem abort_sleep_makes_no_attempt_witness :
    sleep_calls (vApplicationSleep deepsleep_build
      (fixed_env eSleepModeStatus.eAbortSleep (0, 45) (0, 45)) (LPTimerPtr.app 1) 500).trace = [] ∧
    deepsleep_calls (vApplicationSleep deepsleep_build
      (fixed_env eSleepModeStatus.eAbortSleep (0, 45) (0, 45)) (LPTimerPtr.app 1) 500).trace = [] ∧
    step_tick_calls (vApplicationSleep deepsleep_build
      (fixed_env eSleepModeStatus.eAbortSleep (0, 45) (0, 45)) (LPTimerPtr.app 1) 500).trace = [] :=
  abort_sleep_makes_no_attempt deepsleep_build
    (fixed_env eSleepModeStatus.eAbortSleep (0, 45) (0, 45)) (LPTimerPtr.app 1) 500
    (by decide) rfl

/-- C2: in a DeepSleep build that compiles, with a timer registered and the sleep
confirmed, the tickless deep-sleep function is called if and only if
`requested_idle_ms > deep_sleep_latency`; it is then called once, with
`requested_idle_ms - deep_sleep_latency`, which is positive and is the value the
`uint32_t` subtraction yields (no wrap-around). -/
theorem deepsleep_attempt_iff_above_latency (b : BuildConfig) (env : Env) (lp : LPTimerPtr)
    (xExpectedIdleTime : Nat)
    (hds : _ABS_RTOS_DEEPSLEEP_ENABLED b = true) (hbuild : build_error b = false)
    (hlp : lp ≠ LPTimerPtr.NULL)
    (hc : env.eTaskConfirmSleepModeStatus ≠ eSleepModeStatus.eAbortSleep) :
    (deepsleep_calls (vApplicationSleep b env lp xExpectedIdleTime).trace ≠ [] ↔
      pdTICKS_TO_MS b xExpectedIdleTime
        > cyabs_rtos_get_deepsleep_latency b env.syspm_get_deepsleep_mode) ∧
    (pdTICKS_TO_MS b xExpectedIdleTime
        > cyabs_rtos_get_deepsleep_latency b env.syspm_get_deepsleep_mode →
      deepsleep_calls (vApplicationSleep b env lp xExpectedIdleTime).trace
        = [pdTICKS_TO_MS b xExpectedIdleTime
            - cyabs_rtos_get_deepsleep_latency b env.syspm_get_deepsleep_mode] ∧
      u32_sub (pdTICKS_TO_MS b xExpectedIdleTime)
          (cyabs_rtos_get_deepsleep_latency b env.syspm_get_deepsleep_mode)
        = pdTICKS_TO_MS b xExpectedIdleTime
            - cyabs_rtos_get_deepsleep_latency b env.syspm_get_deepsleep_mode ∧
      0 < pdTICKS_TO_MS b xExpectedIdleTime
            - cyabs_rtos_get_deepsleep_latency b env.syspm_get_deepsleep_mode) := by
  have hcalls : deepsleep_calls (vApplicationSleep b env lp xExpectedIdleTime).trace
      = if pdTICKS_TO_MS b xExpectedIdleTime
            > cyabs_rtos_get_deepsleep_latency b env.syspm_get_deepsleep_mode then
          [u32_sub (pdTICKS_TO_MS b xExpectedIdleTime)
            (cyabs_rtos_get_deepsleep_latency b env.syspm_get_deepsleep_mode)]
        else [] := by
    rw [vApplicationSleep_of_confirmed b env _ (tickless_of_deepsleep hds hbuild) hlp hc,
      deepsleep_calls_epilogue,
      deepsleep_calls_step_tick b _ (sleep_ladder_entry_halted b env _ _ lp),
      deepsleep_calls_sleep_ladder, deepsleep_calls_ladder_entry]
    simp [hds]
  refine ⟨?_, ?_⟩
  · rw [hcalls]
    split_ifs with h <;> simp [h]
  · intro h
    have hsub := u32_sub_of_le (pdTICKS_TO_MS_lt b xExpectedIdleTime) (le_of_lt h)
    refine ⟨?_, hsub, Nat.sub_pos_of_lt h⟩
    rw [hcalls, if_pos h, hsub]

/-- Witness of C2: the DeepSleep build with 500 ticks (50 ms) and a latency of 40 ms. -/
theorem deepsleep_attempt_iff_above_latency_witness :
    deepsleep_calls (vApplicationSleep deepsleep_build
      (fixed_env eSleepModeStatus.eStandardSleep (0, 45) (0, 0)) (LPTimerPtr.app 1) 500).trace
      = [10] :=
  ((deepsleep_attempt_iff_above_latency deepsleep_build
    (fixed_env eSleepModeStatus.eStandardSleep (0, 45) (0, 0)) (LPTimerPtr.app 1) 500
    (by decide) (by decide) (by decide) (by decide)).2 (by decide)).1

/-- C3: in a DeepSleep build whose HAL defines `DEEPSLEEP_LOCKED`, when the deep-sleep
attempt returns that code: if `requested_idle_ms > sleep_latency` the tickless sleep
function is called exactly once, with `requested_idle_ms - sleep_latency`, in the same
invocation and inside the critical section; otherwise it is not called. -/
theorem locked_deepsleep_falls_back_to_sleep (b : BuildConfig) (env : Env) (lp : LPTimerPtr)
    (xExpectedIdleTime locked : Nat)
    (hds : _ABS_RTOS_DEEPSLEEP_ENABLED b = true) (hbuild : build_error b = false)
    (hlp : lp ≠ LPTimerPtr.NULL)
    (hc : env.eTaskConfirmSleepModeStatus ≠ eSleepModeStatus.eAbortSleep)
    (hL : DEEPSLEEP_LOCKED b = some locked)
    (hr : pdTICKS_TO_MS b xExpectedIdleTime
      > cyabs_rtos_get_deepsleep_latency b env.syspm_get_deepsleep_mode)
    (hdeep : (env.syspm_tickless_deepsleep lp
      (pdTICKS_TO_MS b xExpectedIdleTime
        - cyabs_rtos_get_deepsleep_latency b env.syspm_get_deepsleep_mode) 0).1 = locked) :
    (pdTICKS_TO_MS b xExpectedIdleTime > cyabs_rtos_get_sleep_latency b →
      sleep_calls (vApplicationSleep b env lp xExpectedIdleTime).trace
        = [pdTICKS_TO_MS b xExpectedIdleTime - cyabs_rtos_get_sleep_latency b] ∧
      in_critical_section (vApplicationSleep b env lp xExpectedIdleTime).trace
        (Call.syspm_tickless_sleep lp
          (pdTICKS_TO_MS b xExpectedIdleTime - cyabs_rtos_get_sleep_latency b))) ∧
    (pdTICKS_TO_MS b xExpectedIdleTime ≤ cyabs_rtos_get_sleep_latency b →
      sleep_calls (vApplicationSleep b env lp xExpectedIdleTime).trace = []) := by
  have hsubd := u32_sub_of_le (pdTICKS_TO_MS_lt b xExpectedIdleTime) (le_of_lt hr)
  have hF := vApplicationSleep_of_confirmed b env xExpectedIdleTime
    (tickless_of_deepsleep hds hbuild) hlp hc
  refine ⟨fun hs => ?_, fun hs => ?_⟩
  · have hsubs := u32_sub_of_le (pdTICKS_TO_MS_lt b xExpectedIdleTime) (le_of_lt hs)
    have hlad := sleep_ladder_deepsleep_locked b env lp (pdTICKS_TO_MS b xExpectedIdleTime)
      (cyabs_rtos_get_sleep_latency b) hds hr (by rw [hsubd, hdeep, hL]) hs
    rw [hsubd, hsubs] at hlad
    have hh := sleep_ladder_entry_halted b env (pdTICKS_TO_MS b xExpectedIdleTime)
      (cyabs_rtos_get_sleep_latency b) lp
    refine ⟨?_, ?_⟩
    · rw [hF, sleep_calls_epilogue, sleep_calls_step_tick b _ hh, hlad]
      simp only [sleep_calls_append, sleep_calls_deepsleep_mode_calls]
      simp [sleep_calls]
    · rw [hF, epilogue_trace, step_tick_trace b _ hh]
      refine in_critical_section_append _ (in_critical_section_append _ ?_)
      rw [hlad]
      refine ⟨[Call.critical_section_enter, Call.eTaskConfirmSleepModeStatus]
            ++ deepsleep_mode_calls b
            ++ [Call.syspm_tickless_deepsleep lp (pdTICKS_TO_MS b xExpectedIdleTime
                - cyabs_rtos_get_deepsleep_latency b env.syspm_get_deepsleep_mode)],
        [], ?_, by simp, ?_⟩
      · simp
      · intro t
        unfold deepsleep_mode_calls
        split_ifs <;> simp
  · have hlad := sleep_ladder_deepsleep_only b env lp (pdTICKS_TO_MS b xExpectedIdleTime)
      (cyabs_rtos_get_sleep_latency b) hds hr (fun h => absurd h.2 (not_lt.mpr hs))
    have hh := sleep_ladder_entry_halted b env (pdTICKS_TO_MS b xExpectedIdleTime)
      (cyabs_rtos_get_sleep_latency b) lp
    rw [hF, sleep_calls_epilogue, sleep_calls_step_tick b _ hh, hlad]
    simp only [sleep_calls_append, sleep_calls_deepsleep_mode_calls]
    simp [sleep_calls]

/-- Witness of C3: the DeepSleep build, 50 ms requested, deep sleep answers
`DEEPSLEEP_LOCKED`; the sleep call is made with 45 ms. -/
theorem locked_deepsleep_falls_back_to_sleep_witness :
    sleep_calls (vApplicationSleep deepsleep_build
      (fixed_env eSleepModeStatus.eStandardSleep (67109635, 0) (0, 45))
      (LPTimerPtr.app 1) 500).trace = [45] :=
  ((locked_deepsleep_falls_back_to_sleep deepsleep_build
    (fixed_env eSleepModeStatus.eStandardSleep (67109635, 0) (0, 45)) (LPTimerPtr.app 1) 500
    67109635 (by decide) (by decide) (by decide) (by decide) (by decide) (by decide)
    (by decide)).1 (by decide)).1

/-- C4, counterexample: in the DeepSleep build with 50 ms requested, the deep-sleep
attempt is made (10 ms) and returns a failure that is neither success nor
`DEEPSLEEP_LOCKED`, with no elapsed time; `wfi_at_end` is false at the end and no
wait-for-interrupt is executed. -/
theorem general_failure_rearms_wfi_counterexample :
    _ABS_RTOS_DEEPSLEEP_ENABLED deepsleep_build = true ∧
    DEEPSLEEP_LOCKED deepsleep_build ≠ some 67109633 ∧
    (vApplicationSleep deepsleep_build
      (fixed_env eSleepModeStatus.eStandardSleep (67109633, 0) (0, 0))
      (LPTimerPtr.app 1) 500).trace
      = [Call.critical_section_enter, Call.eTaskConfirmSleepModeStatus,
          Call.syspm_get_deepsleep_mode, Call.syspm_tickless_deepsleep (LPTimerPtr.app 1) 10,
          Call.critical_section_exit 7] ∧
    (vApplicationSleep deepsleep_build
      (fixed_env eSleepModeStatus.eStandardSleep (67109633, 0) (0, 0))
      (LPTimerPtr.app 1) 500).wfi_at_end = false := by
  decide

/-- C4, amended: in a DeepSleep build, when the deep-sleep attempt is made and returns
a failure other than `DEEPSLEEP_LOCKED` without elapsed time, `wfi_at_end` stays false:
the invocation makes no sleep call and no `vTaskStepTick` call, leaves the critical
section and returns without a wait-for-interrupt. -/
theorem failed_deepsleep_ends_without_wfi (b : BuildConfig) (env : Env) (lp : LPTimerPtr)
    (xExpectedIdleTime : Nat)
    (hds : _ABS_RTOS_DEEPSLEEP_ENABLED b = true) (hbuild : build_error b = false)
    (hlp : lp ≠ LPTimerPtr.NULL)
    (hc : env.eTaskConfirmSleepModeStatus ≠ eSleepModeStatus.eAbortSleep)
    (hr : pdTICKS_TO_MS b xExpectedIdleTime
      > cyabs_rtos_get_deepsleep_latency b env.syspm_get_deepsleep_mode)
    (hfail : (env.syspm_tickless_deepsleep lp
      (pdTICKS_TO_MS b xExpectedIdleTime
        - cyabs_rtos_get_deepsleep_latency b env.syspm_get_deepsleep_mode) 0).1
      ≠ CY_RSLT_SUCCESS)
    (hnl : DEEPSLEEP_LOCKED b ≠ some (env.syspm_tickless_deepsleep lp
      (pdTICKS_TO_MS b xExpectedIdleTime
        - cyabs_rtos_get_deepsleep_latency b env.syspm_get_deepsleep_mode) 0).1)
    (hzero : (env.syspm_tickless_deepsleep lp
      (pdTICKS_TO_MS b xExpectedIdleTime
        - cyabs_rtos_get_deepsleep_latency b env.syspm_get_deepsleep_mode) 0).2 = 0) :
    (vApplicationSleep b env lp xExpectedIdleTime).wfi_at_end = false ∧
    wfi_count (vApplicationSleep b env lp xExpectedIdleTime).trace = 0 ∧
    sleep_calls (vApplicationSleep b env lp xExpectedIdleTime).trace = [] ∧
    step_tick_calls (vApplicationSleep b env lp xExpectedIdleTime).trace = [] ∧
    (vApplicationSleep b env lp xExpectedIdleTime).trace
      = [Call.critical_section_enter, Call.eTaskConfirmSleepModeStatus]
        ++ deepsleep_mode_calls b
        ++ [Call.syspm_tickless_deepsleep lp (pdTICKS_TO_MS b xExpectedIdleTime
              - cyabs_rtos_get_deepsleep_latency b env.syspm_get_deepsleep_mode),
            Call.critical_section_exit env.critical_section_enter] := by
  have _ := hfail
  have hsubd := u32_sub_of_le (pdTICKS_TO_MS_lt b xExpectedIdleTime) (le_of_lt hr)
  have hF := vApplicationSleep_of_confirmed b env xExpectedIdleTime
    (tickless_of_deepsleep hds hbuild) hlp hc
  have hlad := sleep_ladder_deepsleep_only b env lp (pdTICKS_TO_MS b xExpectedIdleTime)
    (cyabs_rtos_get_sleep_latency b) hds hr (by rw [hsubd]; exact fun h => hnl h.1)
  rw [hsubd, hzero] at hlad
  have hst : step_tick b xExpectedIdleTime (sleep_ladder b env (pdTICKS_TO_MS b xExpectedIdleTime)
      (cyabs_rtos_get_sleep_latency b) (ladder_entry lp))
      = sleep_ladder b env (pdTICKS_TO_MS b xExpectedIdleTime)
          (cyabs_rtos_get_sleep_latency b) (ladder_entry lp) := by
    rw [hlad]; simp [step_tick]
  have htr : (vApplicationSleep b env lp xExpectedIdleTime).trace
      = [Call.critical_section_enter, Call.eTaskConfirmSleepModeStatus]
        ++ deepsleep_mode_calls b
        ++ [Call.syspm_tickless_deepsleep lp (pdTICKS_TO_MS b xExpectedIdleTime
              - cyabs_rtos_get_deepsleep_latency b env.syspm_get_deepsleep_mode),
            Call.critical_section_exit env.critical_section_enter] := by
    rw [hF, hst, epilogue_trace, hlad]; simp
  refine ⟨?_, ?_, ?_, ?_, htr⟩
  · rw [hF, hst, epilogue_wfi, hlad]
  · rw [htr]; simp only [wfi_count_append, wfi_count_deepsleep_mode_calls]; simp [wfi_count]
  · rw [htr]; simp only [sleep_calls_append, sleep_calls_deepsleep_mode_calls]; simp [sleep_calls]
  · rw [htr]; simp only [step_tick_calls_append, step_tick_calls_deepsleep_mode_calls]; simp [step_tick_calls]

/-- Witness of C4 (amended): the input of the counterexample. -/
theorem failed_deepsleep_ends_without_wfi_witness :
    wfi_count (vApplicationSleep deepsleep_build
      (fixed_env eSleepModeStatus.eStandardSleep (67109633, 0) (0, 0))
      (LPTimerPtr.app 1) 500).trace = 0 :=
  (failed_deepsleep_ends_without_wfi deepsleep_build
    (fixed_env eSleepModeStatus.eStandardSleep (67109633, 0) (0, 0)) (LPTimerPtr.app 1) 500
    (by decide) (by decide) (by decide) (by decide) (by decide) (by decide) (by decide)
    (by decide)).2.1

/-- C5, counterexample: in the Sleep build with 50 ms requested and a sleep latency of
5 ms, the sleep call is made (45 ms) and returns a failure; `wfi_at_end` is false at
the end and no wait-for-interrupt is executed. -/
theorem failed_sleep_keeps_wfi_counterexample :
    _ABS_RTOS_SLEEP_ENABLED sleep_build = true ∧
    (vApplicationSleep sleep_build
      (fixed_env eSleepModeStatus.eStandardSleep (0, 0) (67109633, 0))
      (LPTimerPtr.app 1) 500).trace
      = [Call.critical_section_enter, Call.eTaskConfirmSleepModeStatus,
          Call.syspm_tickless_sleep (LPTimerPtr.app 1) 45, Call.critical_section_exit 7] ∧
    (vApplicationSleep sleep_build
      (fixed_env eSleepModeStatus.eStandardSleep (0, 0) (67109633, 0))
      (LPTimerPtr.app 1) 500).wfi_at_end = false := by
  decide

/-- C5, amended: in a Sleep build, whenever the Sleep branch is taken
(`requested_idle_ms > sleep_latency`), the tickless sleep function is called once with
`requested_idle_ms - sleep_latency` and, whatever it returns, `wfi_at_end` is false at
the final step: no wait-for-interrupt is executed. -/
theorem sleep_attempt_ends_without_wfi (b : BuildConfig) (env : Env) (lp : LPTimerPtr)
    (xExpectedIdleTime : Nat)
    (hsl : _ABS_RTOS_SLEEP_ENABLED b = true) (ht : _ABS_RTOS_TICKLESS_ENABLED b = true)
    (hlp : lp ≠ LPTimerPtr.NULL)
    (hc : env.eTaskConfirmSleepModeStatus ≠ eSleepModeStatus.eAbortSleep)
    (hs : pdTICKS_TO_MS b xExpectedIdleTime > cyabs_rtos_get_sleep_latency b) :
    sleep_calls (vApplicationSleep b env lp xExpectedIdleTime).trace
      = [pdTICKS_TO_MS b xExpectedIdleTime - cyabs_rtos_get_sleep_latency b] ∧
    (vApplicationSleep b env lp xExpectedIdleTime).wfi_at_end = false ∧
    wfi_count (vApplicationSleep b env lp xExpectedIdleTime).trace = 0 := by
  have hsubs := u32_sub_of_le (pdTICKS_TO_MS_lt b xExpectedIdleTime) (le_of_lt hs)
  have hF := vApplicationSleep_of_confirmed b env xExpectedIdleTime ht hlp hc
  have hlad := sleep_ladder_sleep b env lp (pdTICKS_TO_MS b xExpectedIdleTime)
    (cyabs_rtos_get_sleep_latency b) hsl hs
  rw [hsubs] at hlad
  have hh := sleep_ladder_entry_halted b env (pdTICKS_TO_MS b xExpectedIdleTime)
    (cyabs_rtos_get_sleep_latency b) lp
  refine ⟨?_, ?_, ?_⟩
  · rw [hF, sleep_calls_epilogue, sleep_calls_step_tick b _ hh, hlad]
    simp [sleep_calls]
  · rw [hF, epilogue_wfi, step_tick_wfi, hlad]
  · rw [hF, wfi_count_epilogue, step_tick_wfi, wfi_count_step_tick b _ hh, hlad]
    simp [wfi_count]

/-- Witness of C5 (amended): the input of the counterexample. -/
theorem sleep_attempt_ends_without_wfi_witness :
    wfi_count (vApplicationSleep sleep_build
      (fixed_env eSleepModeStatus.eStandardSleep (0, 0) (67109633, 0))
      (LPTimerPtr.app 1) 500).trace = 0 :=
  (sleep_attempt_ends_without_wfi sleep_build
    (fixed_env eSleepModeStatus.eStandardSleep (0, 0) (67109633, 0)) (LPTimerPtr.app 1) 500
    (by decide) (by decide) (by decide) (by decide) (by decide)).2.2

/-- C6, counterexample: 50 ms requested, sleep latency 5 ms, deep-sleep latency 40 ms;
deep sleep answers `DEEPSLEEP_LOCKED`, the sleep call is made with 45 ms and fails with
no elapsed time; `wfi_at_end` is false at the end and no wait-for-interrupt is
executed. -/
theorem locked_then_failed_sleep_counterexample :
    (vApplicationSleep deepsleep_build
      (fixed_env eSleepModeStatus.eStandardSleep (67109635, 0) (67109633, 0))
      (LPTimerPtr.app 1) 500).trace
      = [Call.critical_section_enter, Call.eTaskConfirmSleepModeStatus,
          Call.syspm_get_deepsleep_mode, Call.syspm_tickless_deepsleep (LPTimerPtr.app 1) 10,
          Call.syspm_tickless_sleep (LPTimerPtr.app 1) 45, Call.critical_section_exit 7] ∧
    (vApplicationSleep deepsleep_build
      (fixed_env eSleepModeStatus.eStandardSleep (67109635, 0) (67109633, 0))
      (LPTimerPtr.app 1) 500).wfi_at_end = false := by
  decide

/-- C6, amended: in a DeepSleep build whose HAL defines `DEEPSLEEP_LOCKED`, with
`requested_idle_ms` above both latencies: if the deep-sleep attempt returns
`DEEPSLEEP_LOCKED`, the tickless sleep function is called with
`requested_idle_ms - sleep_latency`; if that call fails with no elapsed time, the cycle
ends with `wfi_at_end = false`, no wait-for-interrupt is executed and `vTaskStepTick`
is not called. -/
theorem locked_then_failed_sleep_ends_without_wfi (b : BuildConfig) (env : Env)
    (lp : LPTimerPtr) (xExpectedIdleTime locked : Nat)
    (hds : _ABS_RTOS_DEEPSLEEP_ENABLED b = true) (hbuild : build_error b = false)
    (hlp : lp ≠ LPTimerPtr.NULL)
    (hc : env.eTaskConfirmSleepModeStatus ≠ eSleepModeStatus.eAbortSleep)
    (hL : DEEPSLEEP_LOCKED b = some locked)
    (hr : pdTICKS_TO_MS b xExpectedIdleTime
      > cyabs_rtos_get_deepsleep_latency b env.syspm_get_deepsleep_mode)
    (hs : pdTICKS_TO_MS b xExpectedIdleTime > cyabs_rtos_get_sleep_latency b)
    (hdeep : (env.syspm_tickless_deepsleep lp
      (pdTICKS_TO_MS b xExpectedIdleTime
        - cyabs_rtos_get_deepsleep_latency b env.syspm_get_deepsleep_mode) 0).1 = locked)
    (hfail : (env.syspm_tickless_sleep lp
      (pdTICKS_TO_MS b xExpectedIdleTime - cyabs_rtos_get_sleep_latency b)
      (env.syspm_tickless_deepsleep lp
        (pdTICKS_TO_MS b xExpectedIdleTime
          - cyabs_rtos_get_deepsleep_latency b env.syspm_get_deepsleep_mode) 0).2).1
      ≠ CY_RSLT_SUCCESS)
    (hzero : (env.syspm_tickless_sleep lp
      (pdTICKS_TO_MS b xExpectedIdleTime - cyabs_rtos_get_sleep_latency b)
      (env.syspm_tickless_deepsleep lp
        (pdTICKS_TO_MS b xExpectedIdleTime
          - cyabs_rtos_get_deepsleep_latency b env.syspm_get_deepsleep_mode) 0).2).2 = 0) :
    sleep_calls (vApplicationSleep b env lp xExpectedIdleTime).trace
      = [pdTICKS_TO_MS b xExpectedIdleTime - cyabs_rtos_get_sleep_latency b] ∧
    (vApplicationSleep b env lp xExpectedIdleTime).wfi_at_end = false ∧
    wfi_count (vApplicationSleep b env lp xExpectedIdleTime).trace = 0 ∧
    step_tick_calls (vApplicationSleep b env lp xExpectedIdleTime).trace = [] := by
  have _ := hfail
  have hsubd := u32_sub_of_le (pdTICKS_TO_MS_lt b xExpectedIdleTime) (le_of_lt hr)
  have hsubs := u32_sub_of_le (pdTICKS_TO_MS_lt b xExpectedIdleTime) (le_of_lt hs)
  have hF := vApplicationSleep_of_confirmed b env xExpectedIdleTime
    (tickless_of_deepsleep hds hbuild) hlp hc
  have hlad := sleep_ladder_deepsleep_locked b env lp (pdTICKS_TO_MS b xExpectedIdleTime)
    (cyabs_rtos_get_sleep_latency b) hds hr (by rw [hsubd, hdeep, hL]) hs
  rw [hsubd, hsubs, hzero] at hlad
  have hh := sleep_ladder_entry_halted b env (pdTICKS_TO_MS b xExpectedIdleTime)
    (cyabs_rtos_get_sleep_latency b) lp
  refine ⟨?_, ?_, ?_, ?_⟩
  · rw [hF, sleep_calls_epilogue, sleep_calls_step_tick b _ hh, hlad]
    simp only [sleep_calls_append, sleep_calls_deepsleep_mode_calls]
    simp [sleep_calls]
  · rw [hF, epilogue_wfi, step_tick_wfi, hlad]
  · rw [hF, wfi_count_epilogue, step_tick_wfi, wfi_count_step_tick b _ hh, hlad]
    simp only [wfi_count_append, wfi_count_deepsleep_mode_calls]
    simp [wfi_count]
  · rw [hF, step_tick_calls_epilogue, step_tick_calls_step_tick b _ hh, hlad]
    simp only [step_tick_calls_append, step_tick_calls_deepsleep_mode_calls]
    simp [step_tick_calls]

/-- Witness of C6 (amended): 50 ms requested, sleep latency 5 ms, deep-sleep latency
40 ms; the sleep window is 45 ms. -/
theorem locked_then_failed_sleep_ends_without_wfi_witness :
    sleep_calls (vApplicationSleep deepsleep_build
      (fixed_env eSleepModeStatus.eStandardSleep (67109635, 0) (67109633, 0))
      (LPTimerPtr.app 1) 500).trace = [45] ∧
    wfi_count (vApplicationSleep deepsleep_build
      (fixed_env eSleepModeStatus.eStandardSleep (67109635, 0) (67109633, 0))
      (LPTimerPtr.app 1) 500).trace = 0 :=
  have h := locked_then_failed_sleep_ends_without_wfi deepsleep_build
    (fixed_env eSleepModeStatus.eStandardSleep (67109635, 0) (67109633, 0))
    (LPTimerPtr.app 1) 500 67109635
    (by decide) (by decide) (by decide) (by decide) (by decide) (by decide) (by decide)
    (by decide) (by decide) (by decide)
  ⟨h.1, h.2.2.1⟩

/-- C7: in a DeepSleep build with a timer registered, the sleep confirmed and
`requested_idle_ms > deep_sleep_latency`: when the deep-sleep attempt returns
`CY_RSLT_SUCCESS` (a code different from `DEEPSLEEP_LOCKED`) with
`0 < actual_idle_ms <= requested_idle_ms`, the deep-sleep function was called with
`requested_idle_ms - deep_sleep_latency`, no sleep call is made, `vTaskStepTick` is
called exactly once with `convert_ms_to_ticks(actual_idle_ms)`, `wfi_at_end` stays
false and no wait-for-interrupt is executed. -/
theorem successful_deepsleep_steps_tick (b : BuildConfig) (env : Env) (lp : LPTimerPtr)
    (xExpectedIdleTime : Nat)
    (hds : _ABS_RTOS_DEEPSLEEP_ENABLED b = true) (hbuild : build_error b = false)
    (hlp : lp ≠ LPTimerPtr.NULL)
    (hc : env.eTaskConfirmSleepModeStatus ≠ eSleepModeStatus.eAbortSleep)
    (hcode : DEEPSLEEP_LOCKED b ≠ some CY_RSLT_SUCCESS)
    (hr : pdTICKS_TO_MS b xExpectedIdleTime
      > cyabs_rtos_get_deepsleep_latency b env.syspm_get_deepsleep_mode)
    (hok : (env.syspm_tickless_deepsleep lp
      (pdTICKS_TO_MS b xExpectedIdleTime
        - cyabs_rtos_get_deepsleep_latency b env.syspm_get_deepsleep_mode) 0).1
      = CY_RSLT_SUCCESS)
    (hpos : 0 < (env.syspm_tickless_deepsleep lp
      (pdTICKS_TO_MS b xExpectedIdleTime
        - cyabs_rtos_get_deepsleep_latency b env.syspm_get_deepsleep_mode) 0).2)
    (hle : (env.syspm_tickless_deepsleep lp
      (pdTICKS_TO_MS b xExpectedIdleTime
        - cyabs_rtos_get_deepsleep_latency b env.syspm_get_deepsleep_mode) 0).2
      ≤ pdTICKS_TO_MS b xExpectedIdleTime) :
    deepsleep_calls (vApplicationSleep b env lp xExpectedIdleTime).trace
      = [pdTICKS_TO_MS b xExpectedIdleTime
          - cyabs_rtos_get_deepsleep_latency b env.syspm_get_deepsleep_mode] ∧
    sleep_calls (vApplicationSleep b env lp xExpectedIdleTime).trace = [] ∧
    step_tick_calls (vApplicationSleep b env lp xExpectedIdleTime).trace
      = [b.convert_ms_to_ticks (env.syspm_tickless_deepsleep lp
          (pdTICKS_TO_MS b xExpectedIdleTime
            - cyabs_rtos_get_deepsleep_latency b env.syspm_get_deepsleep_mode) 0).2] ∧
    (vApplicationSleep b env lp xExpectedIdleTime).wfi_at_end = false ∧
    wfi_count (vApplicationSleep b env lp xExpectedIdleTime).trace = 0 := by
  have hsubd := u32_sub_of_le (pdTICKS_TO_MS_lt b xExpectedIdleTime) (le_of_lt hr)
  have hF := vApplicationSleep_of_confirmed b env xExpectedIdleTime
    (tickless_of_deepsleep hds hbuild) hlp hc
  have hlad := sleep_ladder_deepsleep_only b env lp (pdTICKS_TO_MS b xExpectedIdleTime)
    (cyabs_rtos_get_sleep_latency b) hds hr
    (by rw [hsubd, hok]; exact fun h => hcode h.1)
  rw [hsubd] at hlad
  have hh := sleep_ladder_entry_halted b env (pdTICKS_TO_MS b xExpectedIdleTime)
    (cyabs_rtos_get_sleep_latency b) lp
  refine ⟨?_, ?_, ?_, ?_, ?_⟩
  · rw [hF, deepsleep_calls_epilogue, deepsleep_calls_step_tick b _ hh, hlad]
    simp only [deepsleep_calls_append, deepsleep_calls_deepsleep_mode_calls]
    simp [deepsleep_calls]
  · rw [hF, sleep_calls_epilogue, sleep_calls_step_tick b _ hh, hlad]
    simp only [sleep_calls_append, sleep_calls_deepsleep_mode_calls]
    simp [sleep_calls]
  · rw [hF, step_tick_calls_epilogue, step_tick_calls_step_tick b _ hh, hlad]
    simp only [step_tick_calls_append, step_tick_calls_deepsleep_mode_calls]
    simp [step_tick_calls, hpos, hle]
  · rw [hF, epilogue_wfi, step_tick_wfi, hlad]
  · rw [hF, wfi_count_epilogue, step_tick_wfi, wfi_count_step_tick b _ hh, hlad]
    simp only [wfi_count_append, wfi_count_deepsleep_mode_calls]
    simp [wfi_count]

/-- Witness of C7: 500 ticks are 50 ms, the deep-sleep latency is 40 ms, the window is
10 ms, deep sleep succeeds with 45 ms, fed back as 450 ticks. -/
theorem successful_deepsleep_steps_tick_witness :
    deepsleep_calls (vApplicationSleep deepsleep_build
      (fixed_env eSleepModeStatus.eStandardSleep (0, 45) (0, 0)) (LPTimerPtr.app 1) 500).trace
      = [10] ∧
    step_tick_calls (vApplicationSleep deepsleep_build
      (fixed_env eSleepModeStatus.eStandardSleep (0, 45) (0, 0)) (LPTimerPtr.app 1) 500).trace
      = [450] :=
  have h := successful_deepsleep_steps_tick deepsleep_build
    (fixed_env eSleepModeStatus.eStandardSleep (0, 45) (0, 0)) (LPTimerPtr.app 1) 500
    (by decide) (by decide) (by decide) (by decide) (by decide) (by decide) (by decide)
    (by decide) (by decide)
  ⟨h.1, h.2.2.1⟩

/-- C8: for every predicted idle time, with fatal assertions every `actual_idle_ms`
handed to `vTaskStepTick` is at most `pdTICKS_TO_MS(xExpectedIdleTime)`; the assertion
on the elapsed time fails exactly when `actual_idle_ms` exceeds that value; and a value
equal to the requested milliseconds passes (and, when positive, is handed over). -/
theorem elapsed_time_assertion_boundary (b : BuildConfig) (env : Env) (lp : LPTimerPtr)
    (xExpectedIdleTime : Nat) :
    (b.CY_ASSERT_halts = true →
      step_tick_calls (vApplicationSleep b env lp xExpectedIdleTime).trace = [] ∨
      (step_tick_calls (vApplicationSleep b env lp xExpectedIdleTime).trace
          = [b.convert_ms_to_ticks
              (vApplicationSleep b env lp xExpectedIdleTime).actual_idle_ms] ∧
        (vApplicationSleep b env lp xExpectedIdleTime).actual_idle_ms
          ≤ pdTICKS_TO_MS b xExpectedIdleTime)) ∧
    (0 < actual_idle_assert_failures (vApplicationSleep b env lp xExpectedIdleTime).trace ↔
      (vApplicationSleep b env lp xExpectedIdleTime).actual_idle_ms
        > pdTICKS_TO_MS b xExpectedIdleTime) ∧
    ((vApplicationSleep b env lp xExpectedIdleTime).actual_idle_ms
        = pdTICKS_TO_MS b xExpectedIdleTime →
      actual_idle_assert_failures (vApplicationSleep b env lp xExpectedIdleTime).trace = 0 ∧
      (0 < (vApplicationSleep b env lp xExpectedIdleTime).actual_idle_ms →
        step_tick_calls (vApplicationSleep b env lp xExpectedIdleTime).trace
          = [b.convert_ms_to_ticks
              (vApplicationSleep b env lp xExpectedIdleTime).actual_idle_ms])) := by
  rcases vApplicationSleep_cases b env lp xExpectedIdleTime with
    ⟨g, hF, hh, hst, haf, _⟩ | ⟨ha, hst, haf⟩
  · rw [hF]
    simp only [epilogue_actual, step_tick_actual, step_tick_calls_epilogue,
      actual_idle_assert_failures_epilogue, step_tick_calls_step_tick b _ hh,
      actual_idle_assert_failures_step_tick b _ hh, hst, haf, List.nil_append, Nat.zero_add]
    refine ⟨fun hhalt => ?_, ?_, fun heq => ⟨?_, fun hpos => ?_⟩⟩
    · split_ifs with hcond
      · right
        exact ⟨rfl, hcond.2.resolve_right (by simp [hhalt])⟩
      · left; rfl
    · split_ifs with hgt <;> simp [hgt]
    · rw [if_neg (by omega)]
    · rw [if_pos ⟨hpos, Or.inl (le_of_eq heq)⟩]
  · rw [ha, hst, haf]
    refine ⟨fun _ => Or.inl rfl, by simp, fun heq => ⟨rfl, fun hpos => absurd hpos (lt_irrefl 0)⟩⟩

/-- Witness of C8: fatal assertions, 50 ms requested, deep sleep reports exactly 50 ms:
the assertion passes and 500 ticks are handed to `vTaskStepTick`. -/
theorem elapsed_time_assertion_boundary_witness :
    actual_idle_assert_failures (vApplicationSleep deepsleep_build
      (fixed_env eSleepModeStatus.eStandardSleep (0, 50) (0, 0)) (LPTimerPtr.app 1) 500).trace
      = 0 ∧
    step_tick_calls (vApplicationSleep deepsleep_build
      (fixed_env eSleepModeStatus.eStandardSleep (0, 50) (0, 0)) (LPTimerPtr.app 1) 500).trace
      = [500] :=
  have h := (elapsed_time_assertion_boundary deepsleep_build
    (fixed_env eSleepModeStatus.eStandardSleep (0, 50) (0, 0)) (LPTimerPtr.app 1) 500).2.2
    (by decide)
  ⟨h.1, h.2 (by decide)⟩

/-- C9: in every invocation `vTaskStepTick` is called at most once; when it is called,
its argument is `convert_ms_to_ticks(actual_idle_ms)` and `actual_idle_ms` is positive;
when the attempts left `actual_idle_ms = 0`, or when no attempt was made, it is not
called. -/
theorem step_tick_at_most_once (b : BuildConfig) (env : Env) (lp : LPTimerPtr)
    (xExpectedIdleTime : Nat) :
    (step_tick_calls (vApplicationSleep b env lp xExpectedIdleTime).trace = [] ∨
      (step_tick_calls (vApplicationSleep b env lp xExpectedIdleTime).trace
          = [b.convert_ms_to_ticks
              (vApplicationSleep b env lp xExpectedIdleTime).actual_idle_ms] ∧
        0 < (vApplicationSleep b env lp xExpectedIdleTime).actual_idle_ms)) ∧
    ((vApplicationSleep b env lp xExpectedIdleTime).actual_idle_ms = 0 →
      step_tick_calls (vApplicationSleep b env lp xExpectedIdleTime).trace = []) ∧
    (sleep_calls (vApplicationSleep b env lp xExpectedIdleTime).trace = [] →
      deepsleep_calls (vApplicationSleep b env lp xExpectedIdleTime).trace = [] →
      step_tick_calls (vApplicationSleep b env lp xExpectedIdleTime).trace = []) := by
  rcases vApplicationSleep_cases b env lp xExpectedIdleTime with
    ⟨g, hF, hh, hst, _, hno⟩ | ⟨_, hst, _⟩
  · rw [hF]
    simp only [epilogue_actual, step_tick_actual, step_tick_calls_epilogue,
      sleep_calls_epilogue, deepsleep_calls_epilogue, sleep_calls_step_tick b _ hh,
      deepsleep_calls_step_tick b _ hh, step_tick_calls_step_tick b _ hh, hst,
      List.nil_append]
    refine ⟨?_, fun h0 => ?_, fun h1 h2 => ?_⟩
    · split_ifs with hcond
      · right; exact ⟨rfl, hcond.1⟩
      · left; rfl
    · rw [if_neg (by omega)]
    · rw [if_neg (by rw [hno h1 h2]; simp)]
  · rw [hst]
    exact ⟨Or.inl rfl, fun _ => rfl, fun _ _ => rfl⟩

/-- Witness of C9: a deep-sleep attempt that leaves `actual_idle_ms = 0`. -/
theorem step_tick_at_most_once_witness :
    step_tick_calls (vApplicationSleep deepsleep_build
      (fixed_env eSleepModeStatus.eStandardSleep (67109633, 0) (0, 0))
      (LPTimerPtr.app 1) 500).trace = [] :=
  (step_tick_at_most_once deepsleep_build
    (fixed_env eSleepModeStatus.eStandardSleep (67109633, 0) (0, 0))
    (LPTimerPtr.app 1) 500).2.1 (by decide)

/-- C10: with a timer registered and the sleep confirmed, if `requested_idle_ms` is at
most `sleep_latency` and at most `deep_sleep_latency`, the invocation calls neither
tickless function nor `vTaskStepTick`, and executes exactly one wait-for-interrupt. -/
theorem short_idle_only_waits (b : BuildConfig) (env : Env) (lp : LPTimerPtr)
    (xExpectedIdleTime : Nat) (hlp : lp ≠ LPTimerPtr.NULL)
    (hc : env.eTaskConfirmSleepModeStatus ≠ eSleepModeStatus.eAbortSleep)
    (hs : pdTICKS_TO_MS b xExpectedIdleTime ≤ cyabs_rtos_get_sleep_latency b)
    (hd : pdTICKS_TO_MS b xExpectedIdleTime
      ≤ cyabs_rtos_get_deepsleep_latency b env.syspm_get_deepsleep_mode) :
    sleep_calls (vApplicationSleep b env lp xExpectedIdleTime).trace = [] ∧
    deepsleep_calls (vApplicationSleep b env lp xExpectedIdleTime).trace = [] ∧
    step_tick_calls (vApplicationSleep b env lp xExpectedIdleTime).trace = [] ∧
    wfi_count (vApplicationSleep b env lp xExpectedIdleTime).trace = 1 := by
  cases ht : _ABS_RTOS_TICKLESS_ENABLED b
  · rw [vApplicationSleep_of_not_tickless b env lp _ ht]
    simp [wfi_block, Frame.call, entry_frame, sleep_calls, deepsleep_calls, step_tick_calls,
      wfi_count]
  · have hF := vApplicationSleep_of_confirmed b env xExpectedIdleTime ht hlp hc
    have hh := sleep_ladder_entry_halted b env (pdTICKS_TO_MS b xExpectedIdleTime)
      (cyabs_rtos_get_sleep_latency b) lp
    have hlad : ∃ l, sleep_ladder b env (pdTICKS_TO_MS b xExpectedIdleTime)
        (cyabs_rtos_get_sleep_latency b) (ladder_entry lp)
          = { ladder_entry lp with
              trace := [Call.critical_section_enter, Call.eTaskConfirmSleepModeStatus] ++ l } ∧
        sleep_calls l = [] ∧ deepsleep_calls l = [] ∧ step_tick_calls l = [] ∧
        wfi_count l = 0 := by
      cases hds : _ABS_RTOS_DEEPSLEEP_ENABLED b
      · exact ⟨[], sleep_ladder_idle b env lp _ _ hds (Or.inr hs), rfl, rfl, rfl, rfl⟩
      · exact ⟨deepsleep_mode_calls b, sleep_ladder_deepsleep_short b env lp _ _ hds hd,
          by simp, by simp, by simp, by simp⟩
    obtain ⟨l, hl, h1, h2, h3, h4⟩ := hlad
    refine ⟨?_, ?_, ?_, ?_⟩
    · rw [hF, sleep_calls_epilogue, sleep_calls_step_tick b _ hh, hl]
      simp only [ladder_entry, sleep_calls_append, h1]
      simp [sleep_calls]
    · rw [hF, deepsleep_calls_epilogue, deepsleep_calls_step_tick b _ hh, hl]
      simp only [ladder_entry, deepsleep_calls_append, h2]
      simp [deepsleep_calls]
    · rw [hF, step_tick_calls_epilogue, step_tick_calls_step_tick b _ hh, hl]
      simp only [ladder_entry, step_tick_calls_append, h3]
      simp [step_tick_calls]
    · rw [hF, wfi_count_epilogue, step_tick_wfi, wfi_count_step_tick b _ hh,
        step_tick_halted b _ hh, hl]
      simp only [ladder_entry, wfi_count_append, h4]
      simp [wfi_count]

/-- Witness of C10: the DeepSleep build with a sleep latency of 60 ms and a deep-sleep
latency of 70 ms, 50 ms requested. -/
theorem short_idle_only_waits_witness :
    wfi_count (vApplicationSleep
      { deepsleep_build with CY_CFG_PWR_SLEEP_LATENCY := some 60,
                             CY_CFG_PWR_DEEPSLEEP_LATENCY := some 70 }
      (fixed_env eSleepModeStatus.eStandardSleep (0, 45) (0, 45)) (LPTimerPtr.app 1) 500).trace
      = 1 :=
  (short_idle_only_waits
    { deepsleep_build with CY_CFG_PWR_SLEEP_LATENCY := some 60,
                           CY_CFG_PWR_DEEPSLEEP_LATENCY := some 70 }
    (fixed_env eSleepModeStatus.eStandardSleep (0, 45) (0, 45)) (LPTimerPtr.app 1) 500
    (by decide) (by decide) (by decide) (by decide)).2.2.2

/-- C12: in a DeepSleep build, once the deep-sleep function has been called and has
returned a result other than `DEEPSLEEP_LOCKED`, the tickless sleep function is not
called in that invocation; a sleep call after a deep-sleep attempt implies that the
attempt returned `DEEPSLEEP_LOCKED` (and that `requested_idle_ms > sleep_latency`). -/
theorem sleep_after_deepsleep_only_when_locked (b : BuildConfig) (env : Env)
    (lp : LPTimerPtr) (xExpectedIdleTime : Nat)
    (hds : _ABS_RTOS_DEEPSLEEP_ENABLED b = true) (hbuild : build_error b = false)
    (hlp : lp ≠ LPTimerPtr.NULL)
    (hc : env.eTaskConfirmSleepModeStatus ≠ eSleepModeStatus.eAbortSleep)
    (hr : pdTICKS_TO_MS b xExpectedIdleTime
      > cyabs_rtos_get_deepsleep_latency b env.syspm_get_deepsleep_mode) :
    deepsleep_calls (vApplicationSleep b env lp xExpectedIdleTime).trace
      = [pdTICKS_TO_MS b xExpectedIdleTime
          - cyabs_rtos_get_deepsleep_latency b env.syspm_get_deepsleep_mode] ∧
    (DEEPSLEEP_LOCKED b ≠ some (env.syspm_tickless_deepsleep lp
        (pdTICKS_TO_MS b xExpectedIdleTime
          - cyabs_rtos_get_deepsleep_latency b env.syspm_get_deepsleep_mode) 0).1 →
      sleep_calls (vApplicationSleep b env lp xExpectedIdleTime).trace = []) ∧
    (sleep_calls (vApplicationSleep b env lp xExpectedIdleTime).trace ≠ [] →
      DEEPSLEEP_LOCKED b = some (env.syspm_tickless_deepsleep lp
        (pdTICKS_TO_MS b xExpectedIdleTime
          - cyabs_rtos_get_deepsleep_latency b env.syspm_get_deepsleep_mode) 0).1 ∧
      pdTICKS_TO_MS b xExpectedIdleTime > cyabs_rtos_get_sleep_latency b) := by
  have hsubd := u32_sub_of_le (pdTICKS_TO_MS_lt b xExpectedIdleTime) (le_of_lt hr)
  have hF := vApplicationSleep_of_confirmed b env xExpectedIdleTime
    (tickless_of_deepsleep hds hbuild) hlp hc
  have hh := sleep_ladder_entry_halted b env (pdTICKS_TO_MS b xExpectedIdleTime)
    (cyabs_rtos_get_sleep_latency b) lp
  have hnone : ∀ hroute : ¬ (DEEPSLEEP_LOCKED b = some (env.syspm_tickless_deepsleep lp
        (pdTICKS_TO_MS b xExpectedIdleTime
          - cyabs_rtos_get_deepsleep_latency b env.syspm_get_deepsleep_mode) 0).1
        ∧ pdTICKS_TO_MS b xExpectedIdleTime > cyabs_rtos_get_sleep_latency b),
      sleep_calls (vApplicationSleep b env lp xExpectedIdleTime).trace = [] := by
    intro hroute
    have hlad := sleep_ladder_deepsleep_only b env lp (pdTICKS_TO_MS b xExpectedIdleTime)
      (cyabs_rtos_get_sleep_latency b) hds hr (by rw [hsubd]; exact hroute)
    rw [hF, sleep_calls_epilogue, sleep_calls_step_tick b _ hh, hlad]
    simp only [sleep_calls_append, sleep_calls_deepsleep_mode_calls]
    simp [sleep_calls]
  refine ⟨?_, fun hnl => hnone (fun h => hnl h.1), fun hne => ?_⟩
  · rw [hF, deepsleep_calls_epilogue, deepsleep_calls_step_tick b _ hh,
      deepsleep_calls_sleep_ladder, deepsleep_calls_ladder_entry, if_pos ⟨hds, hr⟩, hsubd]
    rfl
  · by_contra hroute
    exact hne (hnone hroute)

/-- Witness of C12: the deep-sleep attempt returns a failure that is not
`DEEPSLEEP_LOCKED`; no sleep call follows. -/
theorem sleep_after_deepsleep_only_when_locked_witness :
    sleep_calls (vApplicationSleep deepsleep_build
      (fixed_env eSleepModeStatus.eStandardSleep (67109633, 0) (0, 45))
      (LPTimerPtr.app 1) 500).trace = [] :=
  (sleep_after_deepsleep_only_when_locked deepsleep_build
    (fixed_env eSleepModeStatus.eStandardSleep (67109633, 0) (0, 45)) (LPTimerPtr.app 1) 500
    (by decide) (by decide) (by decide) (by decide) (by decide)).2.1 (by decide)

/-- C13, counterexample: in the Sleep build with fatal assertions and 50 ms requested,
the sleep call returns a failure and leaves `actual_idle_ms = 60`: the assertion of
line 455 fails and stops the invocation, and `vTaskStepTick` is not called. -/
theorem status_does_not_gate_step_tick_counterexample :
    (vApplicationSleep sleep_build
      (fixed_env eSleepModeStatus.eStandardSleep (0, 0) (67109633, 60))
      (LPTimerPtr.app 1) 500).actual_idle_ms = 60 ∧
    (vApplicationSleep sleep_build
      (fixed_env eSleepModeStatus.eStandardSleep (0, 0) (67109633, 60))
      (LPTimerPtr.app 1) 500).trace
      = [Call.critical_section_enter, Call.eTaskConfirmSleepModeStatus,
          Call.syspm_tickless_sleep (LPTimerPtr.app 1) 45,
          Call.CY_ASSERT_failed AssertSite.actual_idle] ∧
    step_tick_calls (vApplicationSleep sleep_build
      (fixed_env eSleepModeStatus.eStandardSleep (0, 0) (67109633, 60))
      (LPTimerPtr.app 1) 500).trace = [] := by
  decide

/-- C13, amended: the status returned by a tickless attempt does not gate the
reconciliation: whatever the statuses, when the attempts leave `actual_idle_ms > 0`, and
that value is at most `pdTICKS_TO_MS(xExpectedIdleTime)` or assertions are not fatal,
`vTaskStepTick` is called with `convert_ms_to_ticks(actual_idle_ms)`; and two runs of a
Sleep build that differ only in the returned statuses make the same sequence of calls
and leave the same `actual_idle_ms`. -/
theorem status_does_not_gate_step_tick (b : BuildConfig) (env : Env) (lp : LPTimerPtr)
    (xExpectedIdleTime : Nat) :
    (0 < (vApplicationSleep b env lp xExpectedIdleTime).actual_idle_ms →
      (vApplicationSleep b env lp xExpectedIdleTime).actual_idle_ms
          ≤ pdTICKS_TO_MS b xExpectedIdleTime ∨ b.CY_ASSERT_halts = false →
      step_tick_calls (vApplicationSleep b env lp xExpectedIdleTime).trace
        = [b.convert_ms_to_ticks
            (vApplicationSleep b env lp xExpectedIdleTime).actual_idle_ms]) ∧
    (_ABS_RTOS_SLEEP_ENABLED b = true →
      ∀ deep_status sleep_status : LPTimerPtr → Nat → Nat → Nat,
        (vApplicationSleep b (env.with_status deep_status sleep_status) lp
            xExpectedIdleTime).trace
          = (vApplicationSleep b env lp xExpectedIdleTime).trace ∧
        (vApplicationSleep b (env.with_status deep_status sleep_status) lp
            xExpectedIdleTime).actual_idle_ms
          = (vApplicationSleep b env lp xExpectedIdleTime).actual_idle_ms) := by
  refine ⟨fun hpos hok => ?_, fun hsl sd ss => ?_⟩
  · rcases vApplicationSleep_cases b env lp xExpectedIdleTime with
      ⟨g, hF, hh, hst, _, _⟩ | ⟨ha, _, _⟩
    · rw [hF] at hpos hok ⊢
      simp only [epilogue_actual, step_tick_actual] at hpos hok
      simp only [epilogue_actual, step_tick_actual, step_tick_calls_epilogue,
        step_tick_calls_step_tick b _ hh, hst, List.nil_append]
      rw [if_pos ⟨hpos, hok⟩]
    · rw [ha] at hpos
      exact absurd hpos (lt_irrefl 0)
  · obtain ⟨res, hres⟩ := vApplicationSleep_with_status b env sd ss lp xExpectedIdleTime
      (not_deepsleep_of_sleep hsl)
    rw [hres]
    exact ⟨rfl, rfl⟩

/-- Witness of C13 (amended): in the Sleep build the sleep call fails and leaves
`actual_idle_ms = 45` of the 50 ms requested; 450 ticks are handed to `vTaskStepTick`. -/
theorem status_does_not_gate_step_tick_witness :
    step_tick_calls (vApplicationSleep sleep_build
      (fixed_env eSleepModeStatus.eStandardSleep (0, 0) (67109633, 45))
      (LPTimerPtr.app 1) 500).trace = [450] :=
  (status_does_not_gate_step_tick sleep_build
    (fixed_env eSleepModeStatus.eStandardSleep (0, 0) (67109633, 45))
    (LPTimerPtr.app 1) 500).1 (by decide) (Or.inl (by decide))

/-- C14: when no timer is available at line 352 (`cyabs_rtos_get_lptimer()` is `NULL`
after the lazy construction, if any), the invocation does not enter the critical
section, does not call `eTaskConfirmSleepModeStatus`, makes no sleep or deep-sleep call,
does not call `vTaskStepTick` and executes exactly one wait-for-interrupt, for every
expected idle time. -/
theorem no_lptimer_only_waits (b : BuildConfig) (env : Env) (lp : LPTimerPtr)
    (xExpectedIdleTime : Nat)
    (hnone : lptimer_at_decision b env lp = some LPTimerPtr.NULL) :
    Call.critical_section_enter ∉ (vApplicationSleep b env lp xExpectedIdleTime).trace ∧
    Call.eTaskConfirmSleepModeStatus ∉ (vApplicationSleep b env lp xExpectedIdleTime).trace ∧
    sleep_calls (vApplicationSleep b env lp xExpectedIdleTime).trace = [] ∧
    deepsleep_calls (vApplicationSleep b env lp xExpectedIdleTime).trace = [] ∧
    step_tick_calls (vApplicationSleep b env lp xExpectedIdleTime).trace = [] ∧
    wfi_count (vApplicationSleep b env lp xExpectedIdleTime).trace = 1 := by
  unfold lptimer_at_decision at hnone
  split_ifs at hnone with ht hh
  have hh2 : (lazy_lptimer_init b env (entry_frame lp)).halted = false := by
    simpa using hh
  have hnull : (lazy_lptimer_init b env (entry_frame lp))._lptimer = LPTimerPtr.NULL := by
    simpa [cyabs_rtos_get_lptimer] using hnone
  rw [vApplicationSleep_of_no_lptimer b env lp _ ht hh2 hnull]
  simp only [wfi_block, Frame.call]
  rcases lazy_lptimer_init_trace b env lp with h | h | h <;> rw [h] <;>
    simp [sleep_calls, deepsleep_calls, step_tick_calls, wfi_count]

/-- Witness of C14: a HAL API 3 build (no lazy construction) without a registered
timer. -/
theorem no_lptimer_only_waits_witness :
    wfi_count (vApplicationSleep hal3_deepsleep_build
      (fixed_env eSleepModeStatus.eStandardSleep (0, 45) (0, 45)) LPTimerPtr.NULL 500).trace
      = 1 :=
  (no_lptimer_only_waits hal3_deepsleep_build
    (fixed_env eSleepModeStatus.eStandardSleep (0, 45) (0, 45)) LPTimerPtr.NULL 500
    (by decide)).2.2.2.2.2

/-- C15, counterexample: in the HAL API 2 DeepSleep build an invocation that starts
without a registered timer constructs one: `_lptimer` is the static timer afterwards,
and the invocation enters the critical section and attempts deep sleep. -/
theorem absent_lptimer_idempotence_counterexample :
    HAL_API_GE_3 deepsleep_build = false ∧
    (vApplicationSleep deepsleep_build
      (fixed_env eSleepModeStatus.eStandardSleep (0, 45) (0, 0)) LPTimerPtr.NULL 500)._lptimer
      = LPTimerPtr.static_timer ∧
    (vApplicationSleep deepsleep_build
      (fixed_env eSleepModeStatus.eStandardSleep (0, 45) (0, 0)) LPTimerPtr.NULL 500).trace
      = [Call.lptimer_init, Call.critical_section_enter, Call.eTaskConfirmSleepModeStatus,
          Call.syspm_get_deepsleep_mode,
          Call.syspm_tickless_deepsleep LPTimerPtr.static_timer 10,
          Call.vTaskStepTick 450, Call.critical_section_exit 7] := by
  decide

/-- C15, amended: in a build without lazy construction (HAL API 3 or later, or without
`_ABS_RTOS_TICKLESS_ENABLED`), an invocation that starts without a registered timer
leaves `_lptimer` absent and is a plain wait-for-interrupt, so any number of repeated
invocations behave identically; in a tickless build for HAL API below 3 the invocation
first calls `cyhal_lptimer_init`, and `_lptimer` stays absent exactly when that call
fails. -/
theorem absent_lptimer_idempotence (b : BuildConfig) :
    (∀ (env : Env) (x : Nat),
      HAL_API_GE_3 b = true ∨ _ABS_RTOS_TICKLESS_ENABLED b = false →
      (vApplicationSleep b env LPTimerPtr.NULL x)._lptimer = LPTimerPtr.NULL ∧
      (vApplicationSleep b env LPTimerPtr.NULL x).trace = [Call.WFI]) ∧
    (∀ (env : Nat → Env) (x : Nat → Nat) (n : Nat),
      HAL_API_GE_3 b = true ∨ _ABS_RTOS_TICKLESS_ENABLED b = false →
      repeated_lptimer b env x n LPTimerPtr.NULL = LPTimerPtr.NULL ∧
      (vApplicationSleep b (env n) (repeated_lptimer b env x n LPTimerPtr.NULL) (x n)).trace
        = [Call.WFI]) ∧
    (∀ (env : Env) (x : Nat),
      HAL_API_GE_3 b = false → _ABS_RTOS_TICKLESS_ENABLED b = true →
      ((vApplicationSleep b env LPTimerPtr.NULL x)._lptimer = LPTimerPtr.NULL ↔
        env.cyhal_lptimer_init ≠ CY_RSLT_SUCCESS)) := by
  have hone : ∀ (env : Env) (x : Nat),
      HAL_API_GE_3 b = true ∨ _ABS_RTOS_TICKLESS_ENABLED b = false →
      (vApplicationSleep b env LPTimerPtr.NULL x)._lptimer = LPTimerPtr.NULL ∧
      (vApplicationSleep b env LPTimerPtr.NULL x).trace = [Call.WFI] := by
    intro env x h
    cases ht : _ABS_RTOS_TICKLESS_ENABLED b
    · rw [vApplicationSleep_of_not_tickless b env _ x ht]
      exact ⟨rfl, rfl⟩
    · have hhal : HAL_API_GE_3 b = true := by
        rcases h with h | h
        · exact h
        · rw [ht] at h; exact absurd h (by decide)
      have hl := lazy_lptimer_init_of_hal3 b env (entry_frame LPTimerPtr.NULL) hhal
      rw [vApplicationSleep_of_no_lptimer b env _ x ht (by rw [hl]; rfl) (by rw [hl]; rfl), hl]
      exact ⟨rfl, rfl⟩
  refine ⟨hone, ?_, ?_⟩
  · intro env x n h
    have hst : ∀ m, repeated_lptimer b env x m LPTimerPtr.NULL = LPTimerPtr.NULL := by
      intro m
      induction m with
      | zero => rfl
      | succ m ih =>
        rw [repeated_lptimer, ih]
        exact (hone (env m) (x m) h).1
    rw [hst n]
    exact ⟨rfl, (hone (env n) (x n) h).2⟩
  · intro env x hhal ht
    rw [vApplicationSleep_lptimer, if_pos ht]
    by_cases hinit : env.cyhal_lptimer_init = CY_RSLT_SUCCESS
    · rw [lazy_lptimer_init_of_success b env hhal hinit]
      simp [Frame.prepend, entry_frame, hinit]
    · rw [lazy_lptimer_init_of_failure b env hhal hinit]
      simp [hinit]

/-- Witness of C15 (amended): three invocations of the HAL API 3 build without a
registered timer. -/
theorem absent_lptimer_idempotence_witness :
    repeated_lptimer hal3_deepsleep_build
      (fun _ => fixed_env eSleepModeStatus.eStandardSleep (0, 45) (0, 45)) (fun _ => 500) 3
      LPTimerPtr.NULL = LPTimerPtr.NULL :=
  ((absent_lptimer_idempotence hal3_deepsleep_build).2.1
    (fun _ => fixed_env eSleepModeStatus.eStandardSleep (0, 45) (0, 45)) (fun _ => 500) 3
    (Or.inl (by decide))).1

/-- C16: in a tickless build for HAL API below 3, without a registered timer: when
`cyhal_lptimer_init` fails, the failure goes to `CY_ASSERT(false)`, `_lptimer` stays
`NULL` and, when the assertion does not halt, the invocation makes no sleep attempt and
ends with a wait-for-interrupt; when it succeeds, the static timer becomes `_lptimer`
and the invocation continues as an invocation with that timer registered. -/
theorem lazy_lptimer_construction (b : BuildConfig) (env : Env) (xExpectedIdleTime : Nat)
    (ht : _ABS_RTOS_TICKLESS_ENABLED b = true) (hhal : HAL_API_GE_3 b = false) :
    (env.cyhal_lptimer_init ≠ CY_RSLT_SUCCESS →
      (vApplicationSleep b env LPTimerPtr.NULL xExpectedIdleTime)._lptimer = LPTimerPtr.NULL ∧
      (b.CY_ASSERT_halts = false →
        (vApplicationSleep b env LPTimerPtr.NULL xExpectedIdleTime).trace
          = [Call.lptimer_init, Call.CY_ASSERT_failed AssertSite.lptimer_init, Call.WFI]) ∧
      (b.CY_ASSERT_halts = true →
        (vApplicationSleep b env LPTimerPtr.NULL xExpectedIdleTime).trace
          = [Call.lptimer_init, Call.CY_ASSERT_failed AssertSite.lptimer_init])) ∧
    (env.cyhal_lptimer_init = CY_RSLT_SUCCESS →
      (vApplicationSleep b env LPTimerPtr.NULL xExpectedIdleTime)._lptimer
        = LPTimerPtr.static_timer ∧
      vApplicationSleep b env LPTimerPtr.NULL xExpectedIdleTime
        = (vApplicationSleep b env LPTimerPtr.static_timer xExpectedIdleTime).prepend
            Call.lptimer_init) := by
  refine ⟨fun hinit => ⟨?_, fun hnh => ?_, fun hhalt => ?_⟩, fun hinit => ⟨?_, ?_⟩⟩
  · rw [vApplicationSleep_lptimer, if_pos ht, lazy_lptimer_init_of_failure b env hhal hinit]
  · have hl := lazy_lptimer_init_of_failure b env hhal hinit
    rw [vApplicationSleep_of_no_lptimer b env _ _ ht (by rw [hl]; exact hnh)
      (by rw [hl]), hl]
    rfl
  · have hl := lazy_lptimer_init_of_failure b env hhal hinit
    have hh : (lazy_lptimer_init b env (entry_frame LPTimerPtr.NULL)).halted = true := by
      rw [hl]; exact hhalt
    rw [vApplicationSleep, if_pos ht, run_of_halted _ hh, run_of_halted _ hh, hl]
  · rw [vApplicationSleep_lptimer, if_pos ht, lazy_lptimer_init_of_success b env hhal hinit]
    rfl
  · exact vApplicationSleep_of_lazy_success b env _ ht hhal hinit

/-- Witness of C16: the HAL API 2 DeepSleep build, `cyhal_lptimer_init` fails and the
assertion is fatal. -/
theorem lazy_lptimer_construction_witness :
    (vApplicationSleep deepsleep_build
      (fixed_env_init 67109633 eSleepModeStatus.eStandardSleep (0, 45) (0, 45))
      LPTimerPtr.NULL 500).trace
      = [Call.lptimer_init, Call.CY_ASSERT_failed AssertSite.lptimer_init] :=
  ((lazy_lptimer_construction deepsleep_build
    (fixed_env_init 67109633 eSleepModeStatus.eStandardSleep (0, 45) (0, 45)) 500
    (by decide) (by decide)).1 (by decide)).2.2 (by decide)

/-- C17: `cyabs_rtos_get_lptimer()` returns `NULL` before any registration; after
`cyabs_rtos_set_lptimer(h)` it returns `h`, for every `h` (`NULL` included); the getter
leaves `_lptimer` as it is; after any sequence of calls the getter returns the handle
registered last, or `NULL` when none was. -/
theorem lptimer_registration (h st : LPTimerPtr) (ops : List LptimerOp) :
    cyabs_rtos_get_lptimer _lptimer_initial = LPTimerPtr.NULL ∧
    cyabs_rtos_get_lptimer (cyabs_rtos_set_lptimer h st) = h ∧
    (lptimer_op st (LptimerOp.set h)).1 = h ∧
    lptimer_op st LptimerOp.get = (st, some st) ∧
    cyabs_rtos_get_lptimer (lptimer_ops _lptimer_initial ops) = last_registered ops :=
  ⟨rfl, rfl, rfl, rfl, lptimer_ops_eq_last_registered ops⟩

/-- C18: `cyabs_rtos_get_deepsleep_latency()` returns `CY_CFG_PWR_DEEPSLEEP_RAM_LATENCY`
when the deep-sleep mode query is available, answers `DEEPSLEEP_RAM` and that constant
is configured; in every other case (another mode, an unrecognised value, no query, no
RAM constant) it returns `CY_CFG_PWR_DEEPSLEEP_LATENCY`, or 0 when that is not
configured. A constant below `2^32` is returned unchanged, and the only trace of the
function in the frame is its call of the mode query. -/
theorem deepsleep_latency_selection (b : BuildConfig) (mode : deep_sleep_mode_t) (f : Frame) :
    (∀ ram : Nat, GET_DEEPSLEEP_MODE_AVAILABLE b = true →
      mode = deep_sleep_mode_t.DEEPSLEEP_RAM → b.CY_CFG_PWR_DEEPSLEEP_RAM_LATENCY = some ram →
      cyabs_rtos_get_deepsleep_latency b mode = u32 ram ∧
      (ram < 2 ^ 32 → cyabs_rtos_get_deepsleep_latency b mode = ram)) ∧
    (GET_DEEPSLEEP_MODE_AVAILABLE b = false ∨ mode ≠ deep_sleep_mode_t.DEEPSLEEP_RAM ∨
        b.CY_CFG_PWR_DEEPSLEEP_RAM_LATENCY = none →
      (∀ plain : Nat, b.CY_CFG_PWR_DEEPSLEEP_LATENCY = some plain →
        cyabs_rtos_get_deepsleep_latency b mode = u32 plain ∧
        (plain < 2 ^ 32 → cyabs_rtos_get_deepsleep_latency b mode = plain)) ∧
      (b.CY_CFG_PWR_DEEPSLEEP_LATENCY = none → cyabs_rtos_get_deepsleep_latency b mode = 0)) ∧
    query_deepsleep_mode b f = { f with trace := f.trace ++ deepsleep_mode_calls b } := by
  refine ⟨fun ram hav hmode hram => ?_, fun hother => ⟨fun plain hplain => ?_, fun hplain => ?_⟩,
    ?_⟩
  · have h : cyabs_rtos_get_deepsleep_latency b mode = u32 ram := by
      subst hmode
      simp [cyabs_rtos_get_deepsleep_latency, hav, assign_deepsleep_ram_latency, hram]
    exact ⟨h, fun hlt => by rw [h, u32_of_lt hlt]⟩
  · have h : cyabs_rtos_get_deepsleep_latency b mode = u32 plain := by
      unfold cyabs_rtos_get_deepsleep_latency
      rcases hother with hav | hmode | hram
      · simp [hav, assign_deepsleep_latency, hplain]
      · split_ifs
        · cases mode <;>
            simp_all [assign_deepsleep_latency, assign_deepsleep_ram_latency]
        · simp [assign_deepsleep_latency, hplain]
      · split_ifs
        · cases mode <;>
            simp [assign_deepsleep_latency, assign_deepsleep_ram_latency, hplain, hram]
        · simp [assign_deepsleep_latency, hplain]
    exact ⟨h, fun hlt => by rw [h, u32_of_lt hlt]⟩
  · unfold cyabs_rtos_get_deepsleep_latency
    rcases hother with hav | hmode | hram
    · simp [hav, assign_deepsleep_latency, hplain]
    · split_ifs
      · cases mode <;>
          simp_all [assign_deepsleep_latency, assign_deepsleep_ram_latency]
      · simp [assign_deepsleep_latency, hplain]
    · split_ifs
      · cases mode <;>
          simp [assign_deepsleep_latency, assign_deepsleep_ram_latency, hplain, hram]
      · simp [assign_deepsleep_latency, hplain]
  · unfold query_deepsleep_mode deepsleep_mode_calls
    split_ifs <;> simp [Frame.call]

/-- Witness of C18: RAM retention selected, with a RAM latency of 70 ms next to the
plain latency of 40 ms. -/
theorem deepsleep_latency_selection_witness :
    cyabs_rtos_get_deepsleep_latency
      { deepsleep_build with CY_CFG_PWR_DEEPSLEEP_RAM_LATENCY := some 70 }
      deep_sleep_mode_t.DEEPSLEEP_RAM = 70 :=
  ((deepsleep_latency_selection
    { deepsleep_build with CY_CFG_PWR_DEEPSLEEP_RAM_LATENCY := some 70 }
    deep_sleep_mode_t.DEEPSLEEP_RAM (entry_frame LPTimerPtr.NULL)).1 70
    (by decide) rfl rfl).2 (by decide)

/-- C19, counterexample: in the DeepSleep build with fatal assertions and a registered
timer, deep sleep reports 60 ms of the 50 ms requested: the assertion of line 455 stops
the invocation inside the critical section, and `critical_section_exit` is not called. -/
theorem critical_section_brackets_calls_counterexample :
    (vApplicationSleep deepsleep_build
      (fixed_env eSleepModeStatus.eStandardSleep (0, 60) (0, 0)) (LPTimerPtr.app 1) 500).trace
      = [Call.critical_section_enter, Call.eTaskConfirmSleepModeStatus,
          Call.syspm_get_deepsleep_mode, Call.syspm_tickless_deepsleep (LPTimerPtr.app 1) 10,
          Call.CY_ASSERT_failed AssertSite.actual_idle] ∧
    exit_count (vApplicationSleep deepsleep_build
      (fixed_env eSleepModeStatus.eStandardSleep (0, 60) (0, 0)) (LPTimerPtr.app 1) 500).trace
      = 0 := by
  decide

/-- C19, amended: in every invocation with a timer at line 352 that is not stopped by a
fatal assertion, the trace has exactly one `critical_section_enter` and exactly one
`critical_section_exit`, the exit receives the value returned by the enter, and every
`eTaskConfirmSleepModeStatus`, tickless sleep or deep-sleep call and the
`vTaskStepTick` call lie strictly between them; when the fatal assertion of line 455
stops the invocation, those calls still follow the one enter and no exit is made. -/
theorem critical_section_brackets_calls (b : BuildConfig) (env : Env) (lp h : LPTimerPtr)
    (xExpectedIdleTime : Nat)
    (hpresent : lptimer_at_decision b env lp = some h) (hh : h ≠ LPTimerPtr.NULL) :
    ((vApplicationSleep b env lp xExpectedIdleTime).halted = false →
      critical_section_bracketed env.critical_section_enter
        (vApplicationSleep b env lp xExpectedIdleTime).trace ∧
      enter_count (vApplicationSleep b env lp xExpectedIdleTime).trace = 1 ∧
      exit_count (vApplicationSleep b env lp xExpectedIdleTime).trace = 1) ∧
    ((vApplicationSleep b env lp xExpectedIdleTime).halted = true →
      critical_section_open (vApplicationSleep b env lp xExpectedIdleTime).trace ∧
      enter_count (vApplicationSleep b env lp xExpectedIdleTime).trace = 1 ∧
      exit_count (vApplicationSleep b env lp xExpectedIdleTime).trace = 0) := by
  have hmain :
      ((vApplicationSleep b env lp xExpectedIdleTime).halted = false →
        critical_section_bracketed env.critical_section_enter
          (vApplicationSleep b env lp xExpectedIdleTime).trace) ∧
      ((vApplicationSleep b env lp xExpectedIdleTime).halted = true →
        critical_section_open (vApplicationSleep b env lp xExpectedIdleTime).trace) := by
    have hout := lazy_lptimer_init_outside b env lp
    have hpre : ∀ c ∈ (lazy_lptimer_init b env (entry_frame lp)).trace,
        c ≠ Call.critical_section_enter ∧ c.leaves_section = false ∧
        c.needs_section = false := fun c hc => ⟨(hout c hc).1, (hout c hc).2.1, (hout c hc).2.2.1⟩
    unfold lptimer_at_decision at hpresent
    rcases vApplicationSleep_shape b env lp xExpectedIdleTime with
      ⟨ht, _⟩ | ⟨_, hhalt, _⟩ | ⟨_, _, hnull, _⟩ | ⟨_, hnh, _, _, hF⟩ | ⟨_, hnh, _, _, hF⟩
    · rw [ht] at hpresent
      simp at hpresent
    · simp [hhalt] at hpresent
    · split_ifs at hpresent
      simp only [Option.some.injEq, cyabs_rtos_get_lptimer] at hpresent
      exact absurd (hpresent.symm.trans hnull) hh
    · rw [hF]
      refine ⟨fun _ => ⟨(lazy_lptimer_init b env (entry_frame lp)).trace,
        [Call.eTaskConfirmSleepModeStatus], [], by simp [Frame.call], ?_, ?_⟩, fun hhalt => ?_⟩
      · simpa using hpre
      · intro c hc
        simp at hc
        subst hc
        simp [Call.leaves_section]
      · rw [show ((((lazy_lptimer_init b env (entry_frame lp)).call
            Call.critical_section_enter).call Call.eTaskConfirmSleepModeStatus).call
            (Call.critical_section_exit env.critical_section_enter)).halted
            = (lazy_lptimer_init b env (entry_frame lp)).halted from rfl, hnh] at hhalt
        exact absurd hhalt (by decide)
    · have hgh : (sleep_ladder b env (pdTICKS_TO_MS b xExpectedIdleTime)
          (cyabs_rtos_get_sleep_latency b)
          { ((lazy_lptimer_init b env (entry_frame lp)).call
              Call.critical_section_enter).call Call.eTaskConfirmSleepModeStatus with
            wfi_at_end := true }).halted = false := by
        rw [sleep_ladder_halted]; exact hnh
      obtain ⟨l, hl, hall⟩ := sleep_ladder_adds b env (pdTICKS_TO_MS b xExpectedIdleTime)
        (cyabs_rtos_get_sleep_latency b)
        { ((lazy_lptimer_init b env (entry_frame lp)).call
            Call.critical_section_enter).call Call.eTaskConfirmSleepModeStatus with
          wfi_at_end := true }
      obtain ⟨st, hst, hstall⟩ := step_tick_adds b xExpectedIdleTime hgh
      have hmid : ∀ c ∈ Call.eTaskConfirmSleepModeStatus :: (l ++ st),
          c ≠ Call.critical_section_enter ∧ c.leaves_section = false := by
        intro c hc
        rcases List.mem_cons.mp hc with hc | hc
        · subst hc; simp [Call.leaves_section]
        · rcases List.mem_append.mp hc with hc | hc
          · have := ladder_call_facts (List.all_eq_true.mp hall c hc)
            exact ⟨this.1, this.2.1⟩
          · exact hstall c hc
      have htr : (step_tick b xExpectedIdleTime (sleep_ladder b env
          (pdTICKS_TO_MS b xExpectedIdleTime) (cyabs_rtos_get_sleep_latency b)
          { ((lazy_lptimer_init b env (entry_frame lp)).call
              Call.critical_section_enter).call Call.eTaskConfirmSleepModeStatus with
            wfi_at_end := true })).trace
          = (lazy_lptimer_init b env (entry_frame lp)).trace
            ++ Call.critical_section_enter :: (Call.eTaskConfirmSleepModeStatus :: (l ++ st)) := by
        rw [hst, hl]
        simp [Frame.call]
      rw [hF, epilogue_halted, epilogue_trace, htr]
      refine ⟨fun hnot => ?_, fun hhalt => ?_⟩
      · rw [hnot]
        simp only [Bool.false_eq_true, if_false]
        split_ifs
        · refine ⟨(lazy_lptimer_init b env (entry_frame lp)).trace,
            Call.eTaskConfirmSleepModeStatus :: (l ++ st), [Call.WFI], by simp, ?_, hmid⟩
          intro c hc
          rcases List.mem_append.mp hc with hc | hc
          · exact hpre c hc
          · simp at hc; subst hc; simp [Call.leaves_section, Call.needs_section]
        · refine ⟨(lazy_lptimer_init b env (entry_frame lp)).trace,
            Call.eTaskConfirmSleepModeStatus :: (l ++ st), [], by simp, ?_, hmid⟩
          simpa using hpre
      · rw [hhalt]
        simp only [if_true, List.append_nil]
        exact ⟨(lazy_lptimer_init b env (entry_frame lp)).trace,
          Call.eTaskConfirmSleepModeStatus :: (l ++ st), rfl, hpre, hmid⟩
  refine ⟨fun hnot => ?_, fun hhalt => ?_⟩
  · have hb := hmain.1 hnot
    exact ⟨hb, enter_count_of_bracketed hb⟩
  · have ho := hmain.2 hhalt
    exact ⟨ho, enter_count_of_open ho⟩

/-- Witness of C19 (amended): the DeepSleep build, a registered timer, a successful deep
sleep of 45 ms. -/
theorem critical_section_brackets_calls_witness :
    enter_count (vApplicationSleep deepsleep_build
      (fixed_env eSleepModeStatus.eStandardSleep (0, 45) (0, 0)) (LPTimerPtr.app 1) 500).trace
      = 1 ∧
    exit_count (vApplicationSleep deepsleep_build
      (fixed_env eSleepModeStatus.eStandardSleep (0, 45) (0, 0)) (LPTimerPtr.app 1) 500).trace
      = 1 :=
  ((critical_section_brackets_calls deepsleep_build
    (fixed_env eSleepModeStatus.eStandardSleep (0, 45) (0, 0)) (LPTimerPtr.app 1)
    (LPTimerPtr.app 1) 500 (by decide) (by decide)).1 (by decide)).2

/-- C20: every invocation executes at most one wait-for-interrupt; in a build with
`_ABS_RTOS_TICKLESS_ENABLED`, where `wfi_at_end` exists, it is executed if and only if
`wfi_at_end` is true at the end (without that macro it is always executed); and it is
the last call of the trace, after the `critical_section_exit` when the critical section
was entered, never between the enter and the exit. -/
theorem wfi_at_most_once_after_exit (b : BuildConfig) (env : Env) (lp : LPTimerPtr)
    (xExpectedIdleTime : Nat) :
    wfi_count (vApplicationSleep b env lp xExpectedIdleTime).trace ≤ 1 ∧
    (_ABS_RTOS_TICKLESS_ENABLED b = true →
      (wfi_count (vApplicationSleep b env lp xExpectedIdleTime).trace = 1 ↔
        (vApplicationSleep b env lp xExpectedIdleTime).wfi_at_end = true)) ∧
    (_ABS_RTOS_TICKLESS_ENABLED b = false →
      wfi_count (vApplicationSleep b env lp xExpectedIdleTime).trace = 1) ∧
    (wfi_count (vApplicationSleep b env lp xExpectedIdleTime).trace = 1 →
      ∃ pre : List Call,
        (vApplicationSleep b env lp xExpectedIdleTime).trace = pre ++ [Call.WFI] ∧
        Call.WFI ∉ pre ∧
        (Call.critical_section_enter ∈ pre →
          ∃ pre2 : List Call,
            pre = pre2 ++ [Call.critical_section_exit env.critical_section_enter])) := by
  have hout := lazy_lptimer_init_outside b env lp
  have hw1 : wfi_count (lazy_lptimer_init b env (entry_frame lp)).trace = 0 :=
    List.count_eq_zero.mpr (fun hc => (hout _ hc).2.2.2 rfl)
  obtain ⟨ha0, hw0, _, _, _, _⟩ := lazy_lptimer_init_entry b env lp
  rcases vApplicationSleep_shape b env lp xExpectedIdleTime with
    ⟨ht, hF⟩ | ⟨ht, _, hF⟩ | ⟨ht, _, _, hF⟩ | ⟨ht, _, _, _, hF⟩ | ⟨ht, hnh, _, _, hF⟩
  · rw [hF]
    refine ⟨by simp [wfi_block, Frame.call, entry_frame, wfi_count], fun h => ?_,
      fun _ => by simp [wfi_block, Frame.call, entry_frame, wfi_count],
      fun _ => ⟨[], rfl, by simp, fun h => absurd h (by simp)⟩⟩
    rw [ht] at h
    exact absurd h (by decide)
  · rw [hF, hw1, hw0]
    refine ⟨by omega, fun _ => by simp, fun h => ?_, fun h => absurd h (by decide)⟩
    rw [ht] at h
    exact absurd h (by decide)
  · rw [hF]
    have htr : (wfi_block { lazy_lptimer_init b env (entry_frame lp) with
        wfi_at_end := true }).trace
        = (lazy_lptimer_init b env (entry_frame lp)).trace ++ [Call.WFI] := rfl
    have hc1 : wfi_count (wfi_block { lazy_lptimer_init b env (entry_frame lp) with
        wfi_at_end := true }).trace = 1 := by
      rw [htr, wfi_count_append, hw1]
      rfl
    refine ⟨by omega, fun _ => ⟨fun _ => rfl, fun _ => hc1⟩, fun _ => hc1,
      fun _ => ⟨_, htr, fun hc => (hout _ hc).2.2.2 rfl, fun hc => absurd rfl (hout _ hc).1⟩⟩
  · rw [hF]
    have hc0 : wfi_count ((((lazy_lptimer_init b env (entry_frame lp)).call
        Call.critical_section_enter).call Call.eTaskConfirmSleepModeStatus).call
        (Call.critical_section_exit env.critical_section_enter)).trace = 0 := by
      simp only [Frame.call, wfi_count_append, hw1]
      rfl
    have hwf : ((((lazy_lptimer_init b env (entry_frame lp)).call
        Call.critical_section_enter).call Call.eTaskConfirmSleepModeStatus).call
        (Call.critical_section_exit env.critical_section_enter)).wfi_at_end = false := hw0
    rw [hc0, hwf]
    refine ⟨by omega, fun _ => by simp, fun h => ?_, fun h => absurd h (by decide)⟩
    rw [ht] at h
    exact absurd h (by decide)
  · have hgh : (sleep_ladder b env (pdTICKS_TO_MS b xExpectedIdleTime)
        (cyabs_rtos_get_sleep_latency b)
        { ((lazy_lptimer_init b env (entry_frame lp)).call
            Call.critical_section_enter).call Call.eTaskConfirmSleepModeStatus with
          wfi_at_end := true }).halted = false := by
      rw [sleep_ladder_halted]; exact hnh
    have hg0 : wfi_count (sleep_ladder b env (pdTICKS_TO_MS b xExpectedIdleTime)
        (cyabs_rtos_get_sleep_latency b)
        { ((lazy_lptimer_init b env (entry_frame lp)).call
            Call.critical_section_enter).call Call.eTaskConfirmSleepModeStatus with
          wfi_at_end := true }).trace = 0 := by
      rw [wfi_count_sleep_ladder]
      simp only [Frame.call, wfi_count_append, hw1]
      rfl
    have hel := sleep_ladder_wfi_of_elapsed b env (pdTICKS_TO_MS b xExpectedIdleTime)
      (cyabs_rtos_get_sleep_latency b)
      { ((lazy_lptimer_init b env (entry_frame lp)).call
          Call.critical_section_enter).call Call.eTaskConfirmSleepModeStatus with
        wfi_at_end := true } ha0
    have hst0 := wfi_count_step_tick b xExpectedIdleTime hgh
    have hsth := step_tick_halted b xExpectedIdleTime hgh
    rw [hF]
    generalize sleep_ladder b env (pdTICKS_TO_MS b xExpectedIdleTime)
      (cyabs_rtos_get_sleep_latency b)
      { ((lazy_lptimer_init b env (entry_frame lp)).call
          Call.critical_section_enter).call Call.eTaskConfirmSleepModeStatus with
        wfi_at_end := true } = g at hg0 hel hst0 hsth
    have hnothalted : g.wfi_at_end = true →
        (step_tick b xExpectedIdleTime g).halted = false := by
      intro hw
      have hz : g.actual_idle_ms = 0 := by
        by_contra hne
        rw [hel hne] at hw
        exact absurd hw (by decide)
      rw [hsth, hz]
      simp
    have hcount : wfi_count (epilogue env (step_tick b xExpectedIdleTime g)).trace
        = if g.wfi_at_end = true then 1 else 0 := by
      rw [wfi_count_epilogue, hst0, hg0, step_tick_wfi]
      by_cases hw : g.wfi_at_end = true
      · simp [hw, hnothalted hw]
      · simp [hw]
    rw [hcount, epilogue_wfi, step_tick_wfi]
    refine ⟨by split_ifs <;> omega, fun _ => by split_ifs with hw <;> simp [hw], fun h => ?_,
      fun h1 => ?_⟩
    · rw [ht] at h
      exact absurd h (by decide)
    · have hw : g.wfi_at_end = true := by
        by_contra hw
        rw [if_neg hw] at h1
        exact absurd h1 (by decide)
      have hstw : (step_tick b xExpectedIdleTime g).wfi_at_end = true := by
        rw [step_tick_wfi]; exact hw
      refine ⟨(step_tick b xExpectedIdleTime g).trace
          ++ [Call.critical_section_exit env.critical_section_enter], ?_, ?_,
        fun _ => ⟨_, rfl⟩⟩
      · rw [epilogue_trace, hnothalted hw, hstw]
        simp
      · intro hmem
        rcases List.mem_append.mp hmem with hmem | hmem
        · have : wfi_count (step_tick b xExpectedIdleTime g).trace = 0 := by
            rw [hst0, hg0]
          exact (List.count_eq_zero.mp this) hmem
        · simp at hmem

/-- Witness of C20: a request within both latencies ends with the one
wait-for-interrupt, after the exit of the critical section. -/
theorem wfi_at_most_once_after_exit_witness :
    wfi_count (vApplicationSleep deepsleep_build
      (fixed_env eSleepModeStatus.eStandardSleep (0, 0) (0, 0)) (LPTimerPtr.app 1) 40).trace
      = 1 :=
  ((wfi_at_most_once_after_exit deepsleep_build
    (fixed_env eSleepModeStatus.eStandardSleep (0, 0) (0, 0)) (LPTimerPtr.app 1) 40).2.1
    (by decide)).2 (by decide)

/-- C25: `_ABS_RTOS_DEEPSLEEP_ENABLED` and `_ABS_RTOS_SLEEP_ENABLED` are never both
defined, whatever the value of `CY_CFG_PWR_SYS_IDLE_MODE`; in a DeepSleep build the
stand-alone Sleep branch is not compiled, and an invocation with a registered timer, a
confirmed sleep and `sleep_latency < requested_idle_ms <= deep_sleep_latency` makes no
backend call: it enters the critical section, queries the sleep status (and the
deep-sleep mode, where available), leaves the critical section and waits for an
interrupt. -/
theorem capability_flags_exclusive (b : BuildConfig) (env : Env) (lp : LPTimerPtr)
    (xExpectedIdleTime : Nat) :
    (∀ v, ¬ (_ABS_RTOS_DEEPSLEEP_ENABLED { b with CY_CFG_PWR_SYS_IDLE_MODE := v } = true ∧
      _ABS_RTOS_SLEEP_ENABLED { b with CY_CFG_PWR_SYS_IDLE_MODE := v } = true)) ∧
    (_ABS_RTOS_DEEPSLEEP_ENABLED b = true → _ABS_RTOS_SLEEP_ENABLED b = false) ∧
    (_ABS_RTOS_DEEPSLEEP_ENABLED b = true → build_error b = false →
      lp ≠ LPTimerPtr.NULL →
      env.eTaskConfirmSleepModeStatus ≠ eSleepModeStatus.eAbortSleep →
      cyabs_rtos_get_sleep_latency b < pdTICKS_TO_MS b xExpectedIdleTime →
      pdTICKS_TO_MS b xExpectedIdleTime
        ≤ cyabs_rtos_get_deepsleep_latency b env.syspm_get_deepsleep_mode →
      (vApplicationSleep b env lp xExpectedIdleTime).trace
          = [Call.critical_section_enter, Call.eTaskConfirmSleepModeStatus]
            ++ deepsleep_mode_calls b
            ++ [Call.critical_section_exit env.critical_section_enter, Call.WFI] ∧
        sleep_calls (vApplicationSleep b env lp xExpectedIdleTime).trace = [] ∧
        deepsleep_calls (vApplicationSleep b env lp xExpectedIdleTime).trace = [] ∧
        step_tick_calls (vApplicationSleep b env lp xExpectedIdleTime).trace = [] ∧
        wfi_count (vApplicationSleep b env lp xExpectedIdleTime).trace = 1) := by
  refine ⟨fun v h => ?_, not_sleep_of_deepsleep, fun hds hbuild hlp hc _ hd => ?_⟩
  · rw [not_sleep_of_deepsleep h.1] at h
    exact absurd h.2 (by decide)
  · have hF := vApplicationSleep_of_confirmed b env xExpectedIdleTime
      (tickless_of_deepsleep hds hbuild) hlp hc
    have hlad := sleep_ladder_deepsleep_short b env lp (pdTICKS_TO_MS b xExpectedIdleTime)
      (cyabs_rtos_get_sleep_latency b) hds hd
    have htr : (vApplicationSleep b env lp xExpectedIdleTime).trace
        = [Call.critical_section_enter, Call.eTaskConfirmSleepModeStatus]
          ++ deepsleep_mode_calls b
          ++ [Call.critical_section_exit env.critical_section_enter, Call.WFI] := by
      rw [hF, hlad]
      simp [epilogue, step_tick, wfi_if_at_end, wfi_block, Frame.run, Frame.call, ladder_entry]
    rw [htr]
    refine ⟨rfl, ?_, ?_, ?_, ?_⟩
    · simp only [sleep_calls_append, sleep_calls_deepsleep_mode_calls]
      simp [sleep_calls]
    · simp only [deepsleep_calls_append, deepsleep_calls_deepsleep_mode_calls]
      simp [deepsleep_calls]
    · simp only [step_tick_calls_append, step_tick_calls_deepsleep_mode_calls]
      simp [step_tick_calls]
    · simp only [wfi_count_append, wfi_count_deepsleep_mode_calls]
      simp [wfi_count]

/-- Witness of C25: the DeepSleep build with 20 ms requested, a sleep latency of 5 ms and
a deep-sleep latency of 40 ms. -/
theorem capability_flags_exclusive_witness :
    wfi_count (vApplicationSleep deepsleep_build
      (fixed_env eSleepModeStatus.eStandardSleep (0, 15) (0, 15)) (LPTimerPtr.app 1) 200).trace
      = 1 :=
  ((capability_flags_exclusive deepsleep_build
    (fixed_env eSleepModeStatus.eStandardSleep (0, 15) (0, 15)) (LPTimerPtr.app 1) 200).2.2
    (by decide) (by decide) (by decide) (by decide) (by decide) (by decide)).2.2.2.2

/-- C26: for a 32-bit tick count `x` and a tick rate between 1 and `2^32 - 1`,
`pdTICKS_TO_MS x` is `((x * 1000) mod 2^32) / configTICK_RATE_HZ`; it equals
`x * 1000 / configTICK_RATE_HZ` when `x * 1000 < 2^32`, it is monotone on that range, and
when `x * 1000 >= 2^32` it is strictly smaller than `x * 1000 / configTICK_RATE_HZ`. -/
theorem pdTICKS_TO_MS_exact_until_wrap (b : BuildConfig) (x y : Nat)
    (hx : x < 2 ^ 32) (hz : 0 < b.configTICK_RATE_HZ) (hzu : b.configTICK_RATE_HZ < 2 ^ 32) :
    pdTICKS_TO_MS b x = (x * 1000 % 2 ^ 32) / b.configTICK_RATE_HZ ∧
    (x * 1000 < 2 ^ 32 → pdTICKS_TO_MS b x = x * 1000 / b.configTICK_RATE_HZ) ∧
    (x ≤ y → y * 1000 < 2 ^ 32 → pdTICKS_TO_MS b x ≤ pdTICKS_TO_MS b y) ∧
    (2 ^ 32 ≤ x * 1000 → pdTICKS_TO_MS b x < x * 1000 / b.configTICK_RATE_HZ) := by
  refine ⟨pdTICKS_TO_MS_of_lt b hx, pdTICKS_TO_MS_of_no_wrap b, fun hxy hy => ?_, fun hw => ?_⟩
  · have hx1 : x * 1000 < 2 ^ 32 := lt_of_le_of_lt (Nat.mul_le_mul_right 1000 hxy) hy
    rw [pdTICKS_TO_MS_of_no_wrap b hx1, pdTICKS_TO_MS_of_no_wrap b hy]
    exact Nat.div_le_div_right (Nat.mul_le_mul_right 1000 hxy)
  · rw [pdTICKS_TO_MS_of_lt b hx]
    have hdm := Nat.div_add_mod (x * 1000) (2 ^ 32)
    have hq : 1 ≤ x * 1000 / 2 ^ 32 := (Nat.one_le_div_iff (by norm_num)).mpr hw
    have hge : x * 1000 % 2 ^ 32 + b.configTICK_RATE_HZ ≤ x * 1000 := by
      have h2 : 2 ^ 32 * 1 ≤ 2 ^ 32 * (x * 1000 / 2 ^ 32) := Nat.mul_le_mul_left _ hq
      omega
    calc (x * 1000 % 2 ^ 32) / b.configTICK_RATE_HZ
        < (x * 1000 % 2 ^ 32) / b.configTICK_RATE_HZ + 1 := Nat.lt_succ_self _
      _ = (x * 1000 % 2 ^ 32 + b.configTICK_RATE_HZ) / b.configTICK_RATE_HZ :=
          (Nat.add_div_right _ hz).symm
      _ ≤ x * 1000 / b.configTICK_RATE_HZ := Nat.div_le_div_right hge

/-- Witness of C26: 5 000 000 ticks at 10 kHz are 500 000 ms; the product wraps and the
conversion gives 70 503 ms. -/
theorem pdTICKS_TO_MS_exact_until_wrap_witness :
    pdTICKS_TO_MS deepsleep_build 5000000 = 70503 ∧
    pdTICKS_TO_MS deepsleep_build 5000000 < 5000000 * 1000 / 10000 :=
  ⟨(pdTICKS_TO_MS_exact_until_wrap deepsleep_build 5000000 0 (by decide) (by decide)
      (by decide)).1,
   (pdTICKS_TO_MS_exact_until_wrap deepsleep_build 5000000 0 (by decide) (by decide)
      (by decide)).2.2.2 (by decide)⟩

/-- C21: `Cy_SysPm_StoreDSContext_Wfi` calls `System_Store_NVIC_Reg`,
`Cy_SysLib_ClearDSRAMWarmBootEntryStatus`, the hook `vStoreDSRAMContextWithWFI` and
`System_Restore_NVIC_Reg`, each exactly once and in this order, for every hook; with the
default hook these four calls are the whole trace, the NVIC state after the sequence is
the state at entry and the warm-boot flag is cleared. -/
theorem store_sequence_order (hook : DsramHook) (m : DsramMachine) :
    (Cy_SysPm_StoreDSContext_Wfi hook (dsram_entry m)).trace
      = [DsramCall.System_Store_NVIC_Reg, DsramCall.Cy_SysLib_ClearDSRAMWarmBootEntryStatus,
          DsramCall.vStoreDSRAMContextWithWFI]
        ++ (hook (machine_at_store_hook m)).2.map DsramCall.in_hook
        ++ [DsramCall.System_Restore_NVIC_Reg] ∧
    (Cy_SysPm_StoreDSContext_Wfi hook (dsram_entry m)).trace.count
      DsramCall.System_Store_NVIC_Reg = 1 ∧
    (Cy_SysPm_StoreDSContext_Wfi hook (dsram_entry m)).trace.count
      DsramCall.Cy_SysLib_ClearDSRAMWarmBootEntryStatus = 1 ∧
    (Cy_SysPm_StoreDSContext_Wfi hook (dsram_entry m)).trace.count
      DsramCall.vStoreDSRAMContextWithWFI = 1 ∧
    (Cy_SysPm_StoreDSContext_Wfi hook (dsram_entry m)).trace.count
      DsramCall.System_Restore_NVIC_Reg = 1 ∧
    (Cy_SysPm_StoreDSContext_Wfi vStoreDSRAMContextWithWFI (dsram_entry m)).trace
      = [DsramCall.System_Store_NVIC_Reg, DsramCall.Cy_SysLib_ClearDSRAMWarmBootEntryStatus,
          DsramCall.vStoreDSRAMContextWithWFI, DsramCall.System_Restore_NVIC_Reg] ∧
    (Cy_SysPm_StoreDSContext_Wfi vStoreDSRAMContextWithWFI (dsram_entry m)).machine.nvic
      = m.nvic ∧
    (Cy_SysPm_StoreDSContext_Wfi vStoreDSRAMContextWithWFI
      (dsram_entry m)).machine.warm_boot_entry = false := by
  refine ⟨Cy_SysPm_StoreDSContext_Wfi_trace hook m, ?_, ?_, ?_, ?_, rfl, rfl, rfl⟩ <;>
    rw [Cy_SysPm_StoreDSContext_Wfi_trace, List.count_append, List.count_append,
      count_map_in_hook (by intro i h; cases h)] <;>
    rfl

/-- C22, counterexample: with the default hook the store sequence executes no
wait-for-interrupt instruction at all. -/
theorem store_sequence_wfi_counterexample :
    DsramCall.in_hook HookInstr.WFI ∉
      (Cy_SysPm_StoreDSContext_Wfi vStoreDSRAMContextWithWFI
        (dsram_entry
          { nvic := 5, nvic_holder := 0, warm_boot_entry := true, tick_timer := 0 })).trace := by
  decide

/-- C22, amended: between the call of the hook and `System_Restore_NVIC_Reg` the store
sequence executes exactly the instructions of the hook, so a wait-for-interrupt is
executed there if and only if the hook executes one; the default hook is a no-op and
executes none. -/
theorem store_sequence_wfi_from_hook (hook : DsramHook) (m : DsramMachine) :
    (Cy_SysPm_StoreDSContext_Wfi hook (dsram_entry m)).trace
      = [DsramCall.System_Store_NVIC_Reg, DsramCall.Cy_SysLib_ClearDSRAMWarmBootEntryStatus,
          DsramCall.vStoreDSRAMContextWithWFI]
        ++ (hook (machine_at_store_hook m)).2.map DsramCall.in_hook
        ++ [DsramCall.System_Restore_NVIC_Reg] ∧
    (DsramCall.in_hook HookInstr.WFI ∈ (Cy_SysPm_StoreDSContext_Wfi hook (dsram_entry m)).trace
      ↔ HookInstr.WFI ∈ (hook (machine_at_store_hook m)).2) ∧
    vStoreDSRAMContextWithWFI m = (m, []) ∧
    DsramCall.in_hook HookInstr.WFI ∉
      (Cy_SysPm_StoreDSContext_Wfi vStoreDSRAMContextWithWFI (dsram_entry m)).trace := by
  refine ⟨Cy_SysPm_StoreDSContext_Wfi_trace hook m, ?_, rfl, ?_⟩
  · rw [Cy_SysPm_StoreDSContext_Wfi_trace]
    simp
  · rw [Cy_SysPm_StoreDSContext_Wfi_trace]
    simp [vStoreDSRAMContextWithWFI]

/-- C23: `cyabs_rtos_exit_dsram` calls `vPortSetupTimerInterrupt` and then the hook
`vRestoreDSRAMContext`, each exactly once, for every hook; with the default hook these
two calls are the whole trace and the machine is the one `vPortSetupTimerInterrupt`
leaves. -/
theorem exit_dsram_order (vPortSetupTimerInterrupt : DsramMachine → DsramMachine)
    (hook : DsramHook) (m : DsramMachine) :
    (cyabs_rtos_exit_dsram vPortSetupTimerInterrupt hook (dsram_entry m)).trace
      = [DsramCall.vPortSetupTimerInterrupt, DsramCall.vRestoreDSRAMContext]
        ++ (hook (vPortSetupTimerInterrupt m)).2.map DsramCall.in_hook ∧
    (cyabs_rtos_exit_dsram vPortSetupTimerInterrupt hook (dsram_entry m)).machine
      = (hook (vPortSetupTimerInterrupt m)).1 ∧
    (cyabs_rtos_exit_dsram vPortSetupTimerInterrupt hook (dsram_entry m)).trace.count
      DsramCall.vPortSetupTimerInterrupt = 1 ∧
    (cyabs_rtos_exit_dsram vPortSetupTimerInterrupt hook (dsram_entry m)).trace.count
      DsramCall.vRestoreDSRAMContext = 1 ∧
    (cyabs_rtos_exit_dsram vPortSetupTimerInterrupt vRestoreDSRAMContext
      (dsram_entry m)).trace
      = [DsramCall.vPortSetupTimerInterrupt, DsramCall.vRestoreDSRAMContext] ∧
    (cyabs_rtos_exit_dsram vPortSetupTimerInterrupt vRestoreDSRAMContext
      (dsram_entry m)).machine = vPortSetupTimerInterrupt m := by
  refine ⟨cyabs_rtos_exit_dsram_trace _ hook m, rfl, ?_, ?_, rfl, rfl⟩ <;>
    rw [cyabs_rtos_exit_dsram_trace, List.count_append,
      count_map_in_hook (by intro i h; cases h)] <;>
    rfl

/-- C27: with `event` and `waitfor` not `NULL`, `cy_rtos_waitbits_event` calls
`xEventGroupWaitBits` once, stores the returned bits in `*waitfor`, and returns
`CY_RSLT_SUCCESS` if and only if every requested bit is among the returned bits, or
`allset` is false and some requested bit is among them; otherwise it returns
`CY_RTOS_TIMEOUT`; a request for no bit succeeds. With `event` or `waitfor` `NULL` it
returns `CY_RTOS_BAD_PARAM`, makes no call and leaves `*waitfor` alone. -/
theorem waitbits_event_result (p : FreeRtosPort) (env : FreeRtosEnv) (ev bits : Nat)
    (event waitfor : Option Nat) (clear allset : Bool) (timeout : Nat) (st : FreeRtosState) :
    (cy_rtos_waitbits_event p env (some ev) (some bits) clear allset timeout st).2.1
      = some (u32 (env.xEventGroupWaitBits ev bits clear allset (p.pdMS_TO_TICKS timeout))) ∧
    (cy_rtos_waitbits_event p env (some ev) (some bits) clear allset timeout st).2.2.calls
      = st.calls ++ [FreeRtosCall.xEventGroupWaitBits ev bits clear allset
          (p.pdMS_TO_TICKS timeout)] ∧
    ((cy_rtos_waitbits_event p env (some ev) (some bits) clear allset timeout st).1
        = cy_rslt_t.CY_RSLT_SUCCESS ↔
      (∀ i, bits.testBit i = true →
        (u32 (env.xEventGroupWaitBits ev bits clear allset
          (p.pdMS_TO_TICKS timeout))).testBit i = true) ∨
      (allset = false ∧ ∃ i, bits.testBit i = true ∧
        (u32 (env.xEventGroupWaitBits ev bits clear allset
          (p.pdMS_TO_TICKS timeout))).testBit i = true)) ∧
    ((cy_rtos_waitbits_event p env (some ev) (some bits) clear allset timeout st).1
        ≠ cy_rslt_t.CY_RSLT_SUCCESS →
      (cy_rtos_waitbits_event p env (some ev) (some bits) clear allset timeout st).1
        = cy_rslt_t.CY_RTOS_TIMEOUT) ∧
    (cy_rtos_waitbits_event p env (some ev) (some 0) clear allset timeout st).1
      = cy_rslt_t.CY_RSLT_SUCCESS ∧
    cy_rtos_waitbits_event p env none waitfor clear allset timeout st
      = (cy_rslt_t.CY_RTOS_BAD_PARAM, waitfor, st) ∧
    cy_rtos_waitbits_event p env event none clear allset timeout st
      = (cy_rslt_t.CY_RTOS_BAD_PARAM, none, st) := by
  refine ⟨rfl, rfl, ?_, ?_, ?_, ?_, ?_⟩
  · rw [← and_eq_left_iff_testBit, ← and_pos_iff_testBit]
    simp only [cy_rtos_waitbits_event]
    generalize bits &&& u32 (env.xEventGroupWaitBits ev bits clear allset
      (p.pdMS_TO_TICKS timeout)) = n
    cases allset
    · simp only [gt_iff_lt, Bool.not_false, Bool.and_true, Bool.or_eq_true, decide_eq_true_eq,
        true_and]
      split_ifs with h
      · simp [h]
      · simp [h]
    · simp
  · simp only [cy_rtos_waitbits_event]
    split_ifs <;> simp
  · simp [cy_rtos_waitbits_event]
  · cases waitfor <;> rfl
  · cases event <;> rfl

/-- Witness of C27: bits 1 and 2 requested with `allset` false, bits 0 and 2 returned:
bit 2 is among them and the call succeeds. -/
theorem waitbits_event_result_witness :
    (cy_rtos_waitbits_event cortex_m_port (fixed_kernel 1 5) (some 1) (some 6) false false 10
      { last_error := 0, calls := [] }).1 = cy_rslt_t.CY_RSLT_SUCCESS :=
  (waitbits_event_result cortex_m_port (fixed_kernel 1 5) 1 6 none none false false 10
    { last_error := 0, calls := [] }).2.2.1.mpr (Or.inr ⟨rfl, 2, by decide, by decide⟩)

/-- C28, counterexample: on a port with a 32-bit `size_t` and 4-byte stack words, a
stack size of `2^32 - 1` bytes makes the sum wrap and `xTaskCreate` is called with a
depth of 0 words. -/
theorem create_thread_depth_counterexample :
    (cy_rtos_create_thread cortex_m_port (fixed_kernel 1 0) (some 1) 4294967295 2
      { last_error := 0, calls := [] })
      = (cy_rslt_t.CY_RSLT_SUCCESS,
          { last_error := 1, calls := [FreeRtosCall.xTaskCreate 0 2] }) ∧
    ¬ (4294967295 ≤ 0 * cortex_m_port.sizeof_StackType_t) := by
  decide

/-- C28, amended: `cy_rtos_create_thread` returns `CY_RTOS_BAD_PARAM` if and only if
`thread` is `NULL` or `stack_size < CY_RTOS_MIN_STACK_SIZE`, and then makes no call and
leaves `last_error` alone; otherwise it calls `xTaskCreate` once, with the depth of
line 75, records the return in `last_error` and returns `CY_RSLT_SUCCESS` iff the
return is `pdPASS`, `CY_RTOS_NO_MEMORY` iff it is
`errCOULD_NOT_ALLOCATE_REQUIRED_MEMORY`, and `CY_RTOS_GENERAL_ERROR` for every other
value. The depth is `stack_size / sizeof(StackType_t)` rounded up whenever
`stack_size + sizeof(StackType_t) - 1 < 2^32`. -/
theorem create_thread_result (p : FreeRtosPort) (env : FreeRtosEnv) (thread : Option Nat)
    (stack_size priority : Nat) (st : FreeRtosState) (hsz : 0 < p.sizeof_StackType_t) :
    ((cy_rtos_create_thread p env thread stack_size priority st).1
        = cy_rslt_t.CY_RTOS_BAD_PARAM ↔
      thread = none ∨ stack_size < p.CY_RTOS_MIN_STACK_SIZE) ∧
    (thread = none ∨ stack_size < p.CY_RTOS_MIN_STACK_SIZE →
      (cy_rtos_create_thread p env thread stack_size priority st).2 = st) ∧
    (¬ (thread = none ∨ stack_size < p.CY_RTOS_MIN_STACK_SIZE) →
      (cy_rtos_create_thread p env thread stack_size priority st).2.calls
        = st.calls ++ [FreeRtosCall.xTaskCreate (stack_deapth p stack_size) priority] ∧
      (cy_rtos_create_thread p env thread stack_size priority st).2.last_error
        = env.xTaskCreate (stack_deapth p stack_size) priority ∧
      ((cy_rtos_create_thread p env thread stack_size priority st).1
          = cy_rslt_t.CY_RSLT_SUCCESS ↔
        env.xTaskCreate (stack_deapth p stack_size) priority = pdPASS) ∧
      ((cy_rtos_create_thread p env thread stack_size priority st).1
          = cy_rslt_t.CY_RTOS_NO_MEMORY ↔
        env.xTaskCreate (stack_deapth p stack_size) priority
          = errCOULD_NOT_ALLOCATE_REQUIRED_MEMORY) ∧
      (env.xTaskCreate (stack_deapth p stack_size) priority ≠ pdPASS →
        env.xTaskCreate (stack_deapth p stack_size) priority
          ≠ errCOULD_NOT_ALLOCATE_REQUIRED_MEMORY →
        (cy_rtos_create_thread p env thread stack_size priority st).1
          = cy_rslt_t.CY_RTOS_GENERAL_ERROR)) ∧
    (stack_size + (p.sizeof_StackType_t - 1) < 2 ^ 32 →
      stack_size ≤ stack_deapth p stack_size * p.sizeof_StackType_t ∧
      stack_deapth p stack_size * p.sizeof_StackType_t
        < stack_size + p.sizeof_StackType_t) := by
  have hne : pdPASS ≠ errCOULD_NOT_ALLOCATE_REQUIRED_MEMORY := by decide
  refine ⟨?_, fun hbad => ?_, fun hok => ?_, fun hw => ?_⟩
  · by_cases h1 : thread = none ∨ stack_size < p.CY_RTOS_MIN_STACK_SIZE
    · rw [cy_rtos_create_thread, if_pos h1]
      exact ⟨fun _ => h1, fun _ => rfl⟩
    · rw [cy_rtos_create_thread, if_neg h1]
      refine ⟨fun h => ?_, fun h => absurd h h1⟩
      revert h
      simp only []
      split_ifs <;> simp
  · unfold cy_rtos_create_thread
    rw [if_pos hbad]
  · unfold cy_rtos_create_thread
    rw [if_neg hok]
    simp only []
    split_ifs with h2 h3
    · refine ⟨rfl, rfl, ?_, ?_, ?_⟩
      · simp only [h2, reduceCtorEq, false_iff]
        exact fun h => hne h.symm
      · simp [h2]
      · intro _ h
        exact absurd h2 h
    · refine ⟨rfl, rfl, ?_, ?_, ?_⟩
      · simp only [reduceCtorEq, false_iff]
        exact h3
      · simp only [reduceCtorEq, false_iff]
        exact h2
      · intro _ _
        rfl
    · have h4 : env.xTaskCreate (stack_deapth p stack_size) priority = pdPASS := by
        by_contra h
        exact h3 h
      refine ⟨rfl, rfl, ?_, ?_, ?_⟩
      · simp [h4]
      · simp only [reduceCtorEq, false_iff]
        exact h2
      · intro h
        exact absurd h4 h
  · rw [stack_deapth_of_no_wrap p hw, mul_comm]
    have hdm := Nat.div_add_mod (stack_size + (p.sizeof_StackType_t - 1)) p.sizeof_StackType_t
    have hlt := Nat.mod_lt (stack_size + (p.sizeof_StackType_t - 1)) hsz
    constructor <;> omega

/-- Witness of C28 (amended): a stack of 1021 bytes on the 32-bit port is 256 words. -/
theorem create_thread_result_witness :
    1021 ≤ stack_deapth cortex_m_port 1021 * cortex_m_port.sizeof_StackType_t ∧
    stack_deapth cortex_m_port 1021 * cortex_m_port.sizeof_StackType_t
      < 1021 + cortex_m_port.sizeof_StackType_t :=
  (create_thread_result cortex_m_port (fixed_kernel 1 0) (some 1) 1021 2
    { last_error := 0, calls := [] } (by decide)).2.2.2 (by decide)

/-- C29, counterexample: a semaphore made by `cy_rtos_semaphore_init(&s, 1, 0)` has
count 0; when `wiced_rtos_get_semaphore` returns `WICED_SUCCESS`,
`cy_rtos_semaphore_get` makes the count wrap to `2^32 - 1`, above `max_count`. -/
theorem semaphore_get_wraps_counterexample :
    cy_rtos_semaphore_get (fixed_wiced (some 1) wiced_result_t.WICED_SUCCESS)
        (cy_rtos_semaphore_init (fixed_wiced (some 1) wiced_result_t.WICED_SUCCESS)
          (some { semaphore := none, max_count := 0, count := 0 }) 1 0).2.1 10
      = (cy_rslt_t.CY_RSLT_SUCCESS,
          some { semaphore := some 1, max_count := 1, count := 4294967295 },
          [WicedCall.wiced_rtos_get_semaphore (some 1) 10]) ∧
    ¬ (4294967295 ≤ 1) := by
  decide

/-- C29, amended: `cy_rtos_semaphore_init(maxcount, 0)` leaves count 0 and
`max_count = maxcount`. On a semaphore with a WICED object, `count <= max_count` and
`max_count < 2^32`, for every result of the WICED calls: `cy_rtos_semaphore_set` at
`count >= max_count` returns `CY_RTOS_GENERAL_ERROR` without a WICED call and without
changing the semaphore; a successful set adds exactly one and stays within `max_count`;
a successful `cy_rtos_semaphore_get` at `count > 0` subtracts exactly one, and at
`count = 0` it makes the count `2^32 - 1`; failed operations and
`cy_rtos_semaphore_get_count` leave the semaphore as it is. -/
theorem semaphore_count_invariant (env : WicedEnv) (blank s : cy_semaphore_t)
    (maxcount timeout_ms c : Nat) (hobj : s.semaphore ≠ none)
    (hinv : s.count ≤ s.max_count) (hmax : s.max_count < 2 ^ 32) :
    (cy_rtos_semaphore_init env (some blank) maxcount 0).2.1
      = some { semaphore := env.wiced_rtos_create_semaphore,
               max_count := maxcount,
               count := 0 } ∧
    (s.count ≥ s.max_count →
      cy_rtos_semaphore_set env (some s) = (cy_rslt_t.CY_RTOS_GENERAL_ERROR, some s, [])) ∧
    ((cy_rtos_semaphore_set env (some s)).1 = cy_rslt_t.CY_RSLT_SUCCESS →
      (cy_rtos_semaphore_set env (some s)).2.1 = some { s with count := s.count + 1 } ∧
      s.count + 1 ≤ s.max_count) ∧
    ((cy_rtos_semaphore_set env (some s)).1 ≠ cy_rslt_t.CY_RSLT_SUCCESS →
      (cy_rtos_semaphore_set env (some s)).2.1 = some s) ∧
    ((cy_rtos_semaphore_get env (some s) timeout_ms).1 = cy_rslt_t.CY_RSLT_SUCCESS →
      0 < s.count →
      (cy_rtos_semaphore_get env (some s) timeout_ms).2.1
        = some { s with count := s.count - 1 }) ∧
    ((cy_rtos_semaphore_get env (some s) timeout_ms).1 = cy_rslt_t.CY_RSLT_SUCCESS →
      s.count = 0 →
      (cy_rtos_semaphore_get env (some s) timeout_ms).2.1
        = some { s with count := 2 ^ 32 - 1 }) ∧
    ((cy_rtos_semaphore_get env (some s) timeout_ms).1 ≠ cy_rslt_t.CY_RSLT_SUCCESS →
      (cy_rtos_semaphore_get env (some s) timeout_ms).2.1 = some s) ∧
    cy_rtos_semaphore_get_count (some s) (some c)
      = (cy_rslt_t.CY_RSLT_SUCCESS, some s, some s.count) := by
  have hc : s.count < 2 ^ 32 := lt_of_le_of_lt hinv hmax
  refine ⟨rfl, ?_, ?_, ?_, ?_, ?_, ?_, ?_⟩
  · intro hge
    rcases cy_rtos_semaphore_set_cases env s hobj with ⟨_, h⟩ | ⟨hlt, _⟩ | ⟨hlt, _⟩
    · exact h
    · exact absurd hge (not_le.mpr hlt)
    · exact absurd hge (not_le.mpr hlt)
  · intro hs
    rcases cy_rtos_semaphore_set_cases env s hobj with ⟨_, h⟩ | ⟨hlt, _, h⟩ | ⟨_, _, h⟩
    · rw [h] at hs
      cases hs
    · rw [h]
      have h1 : s.count + 1 < 2 ^ 32 := by omega
      exact ⟨by rw [u32_of_lt h1], hlt⟩
    · rw [h] at hs
      cases hs
  · intro hs
    rcases cy_rtos_semaphore_set_cases env s hobj with ⟨_, h⟩ | ⟨_, _, h⟩ | ⟨_, _, h⟩
    · rw [h]
    · rw [h] at hs
      exact absurd rfl hs
    · rw [h]
  · intro hs hpos
    rcases cy_rtos_semaphore_get_cases env s timeout_ms hobj with h | ⟨hne, _⟩
    · rw [h]
      have h1 : u32_sub s.count 1 = s.count - 1 := by
        unfold u32_sub u32
        omega
      simp only [h1]
    · exact absurd hs hne
  · intro hs hzero
    rcases cy_rtos_semaphore_get_cases env s timeout_ms hobj with h | ⟨hne, _⟩
    · rw [h]
      have h1 : u32_sub s.count 1 = 2 ^ 32 - 1 := by
        rw [hzero]
        decide
      simp only [h1]
    · exact absurd hs hne
  · intro hs
    rcases cy_rtos_semaphore_get_cases env s timeout_ms hobj with h | ⟨_, h⟩
    · rw [h] at hs
      exact absurd rfl hs
    · rw [h]
  · simp only [cy_rtos_semaphore_get_count, if_neg hobj]

/-- Witness of C29 (amended): a set on a semaphore with count 0 and `max_count` 2 that
WICED accepts; the count becomes 1. -/
theorem semaphore_count_invariant_witness :
    (cy_rtos_semaphore_set (fixed_wiced (some 1) wiced_result_t.WICED_SUCCESS)
        (some { semaphore := some 1, max_count := 2, count := 0 })).2.1
      = some { semaphore := some 1, max_count := 2, count := 0 + 1 } ∧
    0 + 1 ≤ 2 :=
  (semaphore_count_invariant (fixed_wiced (some 1) wiced_result_t.WICED_SUCCESS)
    { semaphore := none, max_count := 0, count := 0 }
    { semaphore := some 1, max_count := 2, count := 0 } 2 10 0
    (by decide) (by decide) (by decide)).2.2.1 (by decide)

/-- C30: when the WICED creating function returns `NULL`, `cy_rtos_thread_create`,
`cy_rtos_mutex_init` and `cy_rtos_semaphore_init`, called with valid arguments, pass the
`NULL` object to the WICED initialising function and return the conversion of its
result, while `cy_rtos_event_init` and `cy_rtos_queue_init` return
`CY_RTOS_GENERAL_ERROR` after the creating call alone. -/
theorem create_null_reaches_init (env : WicedEnv) (t : WicedObj) (s : cy_semaphore_t)
    (q : cy_queue_t) (priority maxcount length : Nat) ( _recursive : Bool) :
    cy_rtos_thread_create { env with wiced_rtos_create_thread := none } (some t) 0
        CY_RTOS_MIN_STACK_SIZE priority
      = (convert_return_type (env.wiced_rtos_init_thread none), some none,
          [WicedCall.wiced_rtos_create_thread,
            WicedCall.wiced_rtos_init_thread none priority CY_RTOS_MIN_STACK_SIZE]) ∧
    cy_rtos_mutex_init { env with wiced_rtos_create_mutex := none } (some t) _recursive
      = (convert_return_type (env.wiced_rtos_init_mutex none), some none,
          [WicedCall.wiced_rtos_create_mutex, WicedCall.wiced_rtos_init_mutex none]) ∧
    cy_rtos_semaphore_init { env with wiced_rtos_create_semaphore := none } (some s)
        maxcount 0
      = (convert_return_type (env.wiced_rtos_init_semaphore none),
          some { semaphore := none, max_count := maxcount, count := 0 },
          [WicedCall.wiced_rtos_create_semaphore,
            WicedCall.wiced_rtos_init_semaphore none]) ∧
    cy_rtos_event_init { env with wiced_rtos_create_event_flags := none } (some t)
      = (cy_rslt_t.CY_RTOS_GENERAL_ERROR, some none,
          [WicedCall.wiced_rtos_create_event_flags]) ∧
    cy_rtos_queue_init { env with wiced_rtos_create_queue := none } (some q) length 1
      = (cy_rslt_t.CY_RTOS_GENERAL_ERROR, some { q with queue := none },
          [WicedCall.wiced_rtos_create_queue]) ∧
    cy_rtos_mutex_init (fixed_wiced none wiced_result_t.WICED_SUCCESS) (some t) _recursive
      = (cy_rslt_t.CY_RSLT_SUCCESS, some none,
          [WicedCall.wiced_rtos_create_mutex, WicedCall.wiced_rtos_init_mutex none]) := by
  refine ⟨?_, ?_, ?_, ?_, ?_, ?_⟩
  · simp [cy_rtos_thread_create, CY_RTOS_MIN_STACK_SIZE]
  · simp [cy_rtos_mutex_init]
  · simp [cy_rtos_semaphore_init, SEMAPHORE_INIT_COUNT]
  · simp [cy_rtos_event_init]
  · simp [cy_rtos_queue_init, MAX_QUEUE_MESSAGE_SIZE]
  · simp [cy_rtos_mutex_init, fixed_wiced, convert_return_type]

end AbstractionRtos
